import Mathlib

/-!
Verification development for the DECA practice-app PDF parsing core
(`app.py`).  The Python source is shallowly embedded: strings are lists of
characters, the `re` module's behaviour is reproduced by a small
backtracking regular-expression engine covering exactly the constructs the
source uses, and each Python function of the parsing pipeline
(`_fix_broken_words`, `_normalize_whitespace`, `_looks_like_header_line`,
`_parse_answer_key`, `_smart_parse_questions`, `_parse_pdf_source`) becomes
a Lean function of the same shape.  Character classes follow the ASCII
reading of `\w`, `\s`, `\d` and of `str.lower`/`str.upper`; the documents
this pipeline consumes are ASCII PDF text extractions.

The embedding mirrors the source line by line; dead code in the source (an
inner helper `split_inline_options` that is defined but never called, and
is in fact syntactically ill-formed Python) has no counterpart here.
-/

namespace DecaApp

/-- Strings are modelled as lists of characters (Python `str`). -/
abbrev Str := List Char

/-- Coerce a Lean string literal to the model representation. -/
def str (s : String) : Str := s.data

/-- Python ASCII whitespace, the characters `str.strip`/`\s` recognise. -/
def isPySpace (c : Char) : Bool :=
  c = ' ' || c = '\t' || c = '\n' || c = '\x0b' || c = '\x0c' || c = '\r'

/-- ASCII lowercase letter. -/
def isLowerA (c : Char) : Bool := 'a' ≤ c && c ≤ 'z'

/-- ASCII uppercase letter. -/
def isUpperA (c : Char) : Bool := 'A' ≤ c && c ≤ 'Z'

/-- ASCII letter. -/
def isLetterA (c : Char) : Bool := isLowerA c || isUpperA c

/-- ASCII digit. -/
def isDigitA (c : Char) : Bool := '0' ≤ c && c ≤ '9'

/-- Python regex `\w` (ASCII reading): letters, digits, underscore. -/
def isWordA (c : Char) : Bool := isLetterA c || isDigitA c || c = '_'

/-- Python `str.lower` on one ASCII character. -/
def lowerC (c : Char) : Char :=
  if isUpperA c then Char.ofNat (c.toNat + 32) else c

/-- Python `str.upper` on one ASCII character. -/
def upperC (c : Char) : Char :=
  if isLowerA c then Char.ofNat (c.toNat - 32) else c

/-- Python `str.lower`. -/
def pyLower (s : Str) : Str := s.map lowerC

/-- Python `str.upper`. -/
def pyUpper (s : Str) : Str := s.map upperC

/-- Python `str.strip()` : drop leading and trailing whitespace. -/
def pyStrip (s : Str) : Str :=
  ((s.dropWhile isPySpace).reverse.dropWhile isPySpace).reverse

/-- Python `str.strip(chars)` for an explicit character set. -/
def pyStripChars (cs : List Char) (s : Str) : Str :=
  ((s.dropWhile (cs.contains ·)).reverse.dropWhile (cs.contains ·)).reverse

/-- Python `str.split()` with no argument: split on whitespace runs. -/
def pySplitWs (s : Str) : List Str :=
  ((s.splitOnP (isPySpace ·)).filter (· ≠ []))

/-- Python `str.isupper()`: at least one cased character and no lowercase
cased character (ASCII reading). -/
def pyIsUpper (s : Str) : Bool :=
  s.any (fun c => isLetterA c) && s.all (fun c => !(isLowerA c))

/-- Decimal digits to a number (`int(...)` on a digit capture). -/
def strToNat (s : Str) : Nat :=
  s.foldl (fun a c => a * 10 + (c.toNat - 48)) 0

/-- A natural number rendered in decimal (`str(n)` / f-strings); `n`
steps of fuel suffice since the value shrinks tenfold each step. -/
def natToStrGo : Nat → Nat → Str
  | 0, n => [Char.ofNat (48 + n % 10)]
  | fuel + 1, n =>
      if n < 10 then [Char.ofNat (48 + n)]
      else natToStrGo fuel (n / 10) ++ [Char.ofNat (48 + n % 10)]

def natToStr (n : Nat) : Str := natToStrGo n n

/-- An integer rendered in decimal. -/
def intToStr (n : Int) : Str :=
  if n < 0 then '-' :: natToStr n.natAbs else natToStr n.natAbs

/-- Substring containment (Python `in` on strings). -/
def hasSub (pat s : Str) : Bool :=
  (List.range (s.length + 1)).any (fun i => pat.isPrefixOf (s.drop i))

/-- Python `str.replace(old, new)`: replace all occurrences left to
right; an empty `old` is never used by the source.  Each step consumes
at least one character, so `s.length` steps of fuel always suffice. -/
def pyReplaceGo (old new : Str) : Nat → Str → Str
  | 0, s => s
  | fuel + 1, s =>
      match s with
      | [] => []
      | c :: rest =>
          if old ≠ [] && old.isPrefixOf (c :: rest) then
            new ++ pyReplaceGo old new fuel ((c :: rest).drop old.length)
          else
            c :: pyReplaceGo old new fuel rest

def pyReplace (s old new : Str) : Str := pyReplaceGo old new s.length s

/-- Python slice `s[a:b]` for nonnegative bounds (clamping built in). -/
def pySlice (s : Str) (a b : Nat) : Str := (s.take b).drop a

/-! ### The regular-expression engine

Character classes: exactly the classes used by the patterns in `app.py`. -/

inductive CC where
  /-- a literal character -/
  | lit (c : Char)
  /-- an explicit character set, e.g. `[).:\-]` -/
  | set (cs : List Char)
  /-- `\d` -/
  | digit
  /-- `\w` -/
  | word
  /-- `\s` -/
  | space
  /-- `[^\s]` -/
  | notSpace
  /-- `.` (the source's lines never contain a newline) -/
  | any
  /-- `[a-zA-Z]` -/
  | letter
  /-- `[a-z]` -/
  | lower
  /-- `[A-Z]` -/
  | upper
  /-- `[A-E]` -/
  | upperAE
  /-- `[A-Z0-9\-]` -/
  | upperNumDash
  /-- `[^a-z0-9]` -/
  | notLowerDigit
  deriving DecidableEq, Repr

/-- Does character `c` match class `cc`?  With `ci` set the match is
case-insensitive (Python `re.IGNORECASE`): the character matches if it or
its case-swapped form is in the class. -/
def ccMatchBase : CC → Char → Bool
  | .lit d, c => c = d
  | .set cs, c => cs.contains c
  | .digit, c => isDigitA c
  | .word, c => isWordA c
  | .space, c => isPySpace c
  | .notSpace, c => !isPySpace c
  | .any, _ => true
  | .letter, c => isLetterA c
  | .lower, c => isLowerA c
  | .upper, c => isUpperA c
  | .upperAE, c => 'A' ≤ c && c ≤ 'E'
  | .upperNumDash, c => isUpperA c || isDigitA c || c = '-'
  | .notLowerDigit, c => !(isLowerA c || isDigitA c)

/-- Case-swap an ASCII letter (for `IGNORECASE` class matching). -/
def swapCase (c : Char) : Char :=
  if isLowerA c then upperC c else if isUpperA c then lowerC c else c

def ccMatch (ci : Bool) (cc : CC) (c : Char) : Bool :=
  ccMatchBase cc c || (ci && ccMatchBase cc (swapCase c))

/-- Regular expressions.  Quantifiers only ever apply to a single
character class in the source's patterns, which `rep` reflects; `rep c lo
hi` is greedy repetition (`hi = none` means unbounded).  `bos`/`eos` are
`^`/`$` (no `MULTILINE` is used), `bow` is `\b`, and `nlbA` is the one
lookbehind in the source, `(?<!')`. -/
inductive RE where
  | eps
  | cls (c : CC)
  | seq (a b : RE)
  | alt (a b : RE)
  | rep (c : CC) (lo : Nat) (hi : Option Nat)
  | grp (i : Nat) (a : RE)
  | bow
  | bos
  | eos
  | nlbA
  deriving DecidableEq, Repr

/-- Sequence a list of regexes. -/
def cat (l : List RE) : RE := l.foldr RE.seq RE.eps

/-- A literal string as a regex. -/
def li (s : String) : RE := cat (s.data.map (fun c => RE.cls (CC.lit c)))

/-- `\s*` -/
def s0 : RE := RE.rep CC.space 0 none
/-- `\s+` -/
def s1 : RE := RE.rep CC.space 1 none
/-- an optional single character -/
def copt (c : CC) : RE := RE.rep c 0 (some 1)
/-- `\bpat\b`, the shape of every lexicon entry -/
def wb (l : List RE) : RE := cat (RE.bow :: l ++ [RE.bow])

/-- Recorded captures: group index paired with the captured characters.
The head of the list is the most recent assignment, which is what Python's
`group(i)` returns. -/
abbrev Caps := List (Nat × Str)

def capGet (caps : Caps) (i : Nat) : Str :=
  ((caps.find? (fun p => p.1 = i)).map (·.2)).getD []

/-- States reachable by greedily repeating class `c` from the state
`(prev, suf)`, in order of 0, 1, 2, … characters consumed, capped by
`hi`.  Each state records the previous character (for `\b` and the
lookbehind) and the remaining suffix. -/
def repStates (ci : Bool) (c : CC) : Option Nat → Option Char → Str →
    List (Option Char × Str)
  | _, prev, [] => [(prev, [])]
  | hi, prev, x :: rest =>
      (prev, x :: rest) ::
        (if hi = some 0 then []
         else if ccMatch ci c x then
           repStates ci c (hi.map (· - 1)) (some x) rest
         else [])

/-- Is there a word boundary between `prev` and the head of `suf`? -/
def atBow (prev : Option Char) (suf : Str) : Bool :=
  let a := match prev with | some c => isWordA c | none => false
  let b := match suf with | c :: _ => isWordA c | [] => false
  a != b

/-- The backtracking matcher, continuation-passing style, mirroring
Python's leftmost/greedy/ordered-alternation semantics.  `prev` is the
character just before the current position in the *original* string
(`none` at position 0); the continuation receives the new `prev`, the
remaining suffix and the captures. -/
def mtch {R : Type} (ci : Bool) :
    RE → Option Char → Str → Caps →
    (Option Char → Str → Caps → Option R) → Option R
  | .eps, prev, suf, caps, k => k prev suf caps
  | .cls c, prev, suf, caps, k =>
      match suf with
      | [] => none
      | x :: rest => if ccMatch ci c x then k (some x) rest caps else none
  | .seq a b, prev, suf, caps, k =>
      mtch ci a prev suf caps (fun p s cp => mtch ci b p s cp k)
  | .alt a b, prev, suf, caps, k =>
      (mtch ci a prev suf caps k).orElse (fun _ => mtch ci b prev suf caps k)
  | .rep c lo hi, prev, suf, caps, k =>
      (((repStates ci c hi prev suf).drop lo).reverse).findSome?
        (fun ps => k ps.1 ps.2 caps)
  | .grp i a, prev, suf, caps, k =>
      mtch ci a prev suf caps
        (fun p s cp => k p s ((i, suf.take (suf.length - s.length)) :: cp))
  | .bow, prev, suf, caps, k =>
      if atBow prev suf then k prev suf caps else none
  | .bos, prev, suf, caps, k =>
      if prev = none then k prev suf caps else none
  | .eos, prev, suf, caps, k =>
      if suf = [] then k prev suf caps else none
  | .nlbA, prev, suf, caps, k =>
      if prev = some (Char.ofNat 39) then none else k prev suf caps

/-- `re.match`: anchored at the start; returns the end-state previous
character, the remaining suffix and the captures. -/
def pyMatch (ci : Bool) (r : RE) (s : Str) :
    Option (Option Char × Str × Caps) :=
  mtch ci r none s [] (fun p rest caps => some (p, rest, caps))

/-- The matched text of a `pyMatch` result (`m.group(0)`). -/
def matchedOf (s : Str) (res : Option Char × Str × Caps) : Str :=
  s.take (s.length - res.2.1.length)

/-- `re.fullmatch`. -/
def pyFullMatch (ci : Bool) (r : RE) (s : Str) : Bool :=
  (mtch ci r none s []
    (fun _ rest _ => if rest = [] then some () else none)).isSome

/-- `re.search` as a Boolean: does the pattern match starting anywhere? -/
def pySearchB (ci : Bool) (r : RE) : Option Char → Str → Bool
  | prev, [] => (mtch ci r prev [] [] (fun _ _ _ => some ())).isSome
  | prev, x :: rest =>
      if (mtch ci r prev (x :: rest) [] (fun _ _ _ => some ())).isSome
      then true
      else pySearchB ci r (some x) rest

def pySearch (ci : Bool) (r : RE) (s : Str) : Bool := pySearchB ci r none s

/-- A replacement: a function of the matched text and the captures
(Python allows both templates and functions; templates are expanded by
`expandT` below). -/
abbrev Repl := Str → Caps → Str

/-- `re.sub`, scanning the original string left to right, replacing
non-overlapping matches; on an empty match one character is copied and
scanning resumes after it (the source's patterns never match empty).
Each step consumes at least one character, so `s.length + 1` steps of
fuel always suffice. -/
def pySubGo (ci : Bool) (r : RE) (f : Repl) : Nat → Option Char → Str → Str
  | 0, _, suf => suf
  | fuel + 1, prev, suf =>
    match mtch ci r prev suf []
        (fun p rest caps => some (p, rest, caps)) with
    | some (pEnd, sufEnd, caps) =>
        if suf.length - sufEnd.length = 0 then
          match suf with
          | [] => f [] caps
          | x :: rest => f [] caps ++ x :: pySubGo ci r f fuel (some x) rest
        else
          f (suf.take (suf.length - sufEnd.length)) caps ++
            pySubGo ci r f fuel pEnd sufEnd
    | none =>
        match suf with
        | [] => []
        | x :: rest => x :: pySubGo ci r f fuel (some x) rest

def pySub (ci : Bool) (r : RE) (f : Repl) (s : Str) : Str :=
  pySubGo ci r f (s.length + 1) none s

/-- Replacement templates: literal pieces and `\n` backreferences. -/
inductive RT where
  | s (x : String)
  | g (n : Nat)
  deriving Repr

def expandT (t : List RT) : Repl := fun _ caps =>
  t.foldr (fun piece acc =>
    (match piece with
     | .s x => x.data
     | .g n => capGet caps n) ++ acc) []

/-- Template `re.sub`. -/
def pySubT (ci : Bool) (r : RE) (t : List RT) (s : Str) : Str :=
  pySub ci r (expandT t) s

/-- A plain-string replacement (no backreferences in it). -/
def constR (x : String) : Repl := fun _ _ => x.data

/-- `re.finditer`: absolute start/end positions and captures of every
non-overlapping match, scanning left to right (with the same fuel
convention as `pySubGo`). -/
def pyFindIterGo (ci : Bool) (r : RE) :
    Nat → Option Char → Str → Nat → List (Nat × Nat × Caps)
  | 0, _, _, _ => []
  | fuel + 1, prev, suf, pos =>
    match mtch ci r prev suf []
        (fun p rest caps => some (p, rest, caps)) with
    | some (pEnd, sufEnd, caps) =>
        if suf.length - sufEnd.length = 0 then
          match suf with
          | [] => [(pos, pos, caps)]
          | x :: rest =>
              (pos, pos, caps) :: pyFindIterGo ci r fuel (some x) rest (pos + 1)
        else
          (pos, pos + (suf.length - sufEnd.length), caps) ::
            pyFindIterGo ci r fuel pEnd sufEnd
              (pos + (suf.length - sufEnd.length))
    | none =>
        match suf with
        | [] => []
        | x :: rest => pyFindIterGo ci r fuel (some x) rest (pos + 1)

def pyFindIter (ci : Bool) (r : RE) (s : Str) : List (Nat × Nat × Caps) :=
  pyFindIterGo ci r (s.length + 1) none s 0


/-! ### The word repair engine (`_fix_broken_words` and its data) -/

/-- The apostrophe character. -/
def apos : Char := Char.ofNat 39

/-- `preserve_case` from `app.py`: the replacement function wrapped around
every `COMMON_FIXES` entry.  All-caps matches get an all-caps replacement,
capitalised matches a capitalised one. -/
def preserve_case (repl : String) : Repl := fun m _ =>
  if pyIsUpper m then pyUpper repl.data
  else
    match m with
    | c :: _ =>
        if isUpperA c then
          match repl.data with
          | r :: rs => upperC r :: rs
          | [] => []
        else repl.data
    | [] => repl.data

/-- `COMMON_FIXES` from `app.py`: (pattern, replacement) pairs applied
case-insensitively with `preserve_case` as the replacement function. -/
def COMMON_FIXES : List (RE × String) := [
  (cat [RE.bow, li "a", s1, li "nd", RE.bow], "and"),
  (cat [RE.bow, li "a", s1, li "ndthe", RE.bow], "and the"),
  (cat [RE.bow, li "a", s1, li "s", RE.bow], "as"),
  (cat [RE.bow, li "o", s1, li "f", RE.bow], "of"),
  (cat [RE.bow, li "o", s1, li "n", RE.bow], "on"),
  (cat [RE.bow, li "o", s1, li "r", RE.bow], "or"),
  (cat [RE.bow, li "i", s1, li "n", RE.bow], "in"),
  (cat [RE.bow, li "i", s1, li "s", RE.bow], "is"),
  (cat [RE.bow, li "i", s1, li "t", RE.bow], "it"),
  (cat [RE.bow, li "t", s1, li "o", RE.bow], "to"),
  (cat [RE.bow, li "t", s1, li "he", RE.bow], "the"),
  (cat [RE.bow, li "w", s1, li "e", RE.bow], "we"),
  (cat [RE.bow, li "b", s1, li "e", RE.bow], "be"),
  (cat [RE.bow, li "b", s1, li "y", RE.bow], "by"),
  (cat [RE.bow, li "a", s1, li "t", RE.bow], "at"),
  (cat [RE.bow, li "u", s1, li "p", RE.bow], "up"),
  (cat [RE.bow, li "n", s1, li "o", RE.bow], "no"),
  (cat [RE.bow, li "s", s1, li "o", RE.bow], "so"),
  (cat [RE.bow, li "m", s1, li "y", RE.bow], "my"),
  (cat [RE.bow, li "h", s1, li "e", RE.bow], "he"),
  (cat [RE.bow, li "f", s1, li "or", RE.bow], "for"),
  (cat [RE.bow, li "f", s1, li "rom", RE.bow], "from"),
  (cat [RE.bow, li "w", s1, li "ith", RE.bow], "with"),
  (cat [RE.bow, li "th", s1, li "at", RE.bow], "that"),
  (cat [RE.bow, li "th", s1, li "is", RE.bow], "this"),
  (cat [RE.bow, li "th", s1, li "ey", RE.bow], "they"),
  (cat [RE.bow, li "th", s1, li "em", RE.bow], "them"),
  (cat [RE.bow, li "th", s1, li "en", RE.bow], "then"),
  (cat [RE.bow, li "wh", s1, li "en", RE.bow], "when"),
  (cat [RE.bow, li "wh", s1, li "at", RE.bow], "what"),
  (cat [RE.bow, li "wh", s1, li "o", RE.bow], "who"),
  (cat [RE.bow, li "wh", s1, li "ich", RE.bow], "which"),
  (cat [RE.bow, li "ha", s1, li "ve", RE.bow], "have"),
  (cat [RE.bow, li "ha", s1, li "s", RE.bow], "has"),
  (cat [RE.bow, li "ha", s1, li "d", RE.bow], "had"),
  (cat [RE.bow, li "ca", s1, li "n", RE.bow], "can"),
  (cat [RE.bow, li "wi", s1, li "ll", RE.bow], "will"),
  (cat [RE.bow, li "wo", s1, li "uld", RE.bow], "would"),
  (cat [RE.bow, li "wi", s1, li "th", RE.bow], "with"),
  (cat [RE.bow, li "ev", s1, li "al", s0, li "uating", RE.bow], "evaluating"),
  (cat [RE.bow, li "eval", s1, li "uating", RE.bow], "evaluating"),
  (cat [RE.bow, li "situ", s1, li "ation", RE.bow], "situation"),
  (cat [RE.bow, li "bus", copt (CC.lit 'i'), s0, li "ness", RE.bow], "business"),
  (cat [RE.bow, li "bus", s1, li "iness", RE.bow], "business"),
  (cat [RE.bow, li "fi", s0, li "nance", RE.bow], "finance"),
  (cat [RE.bow, li "fi", s0, li "nan", s0, li "cial", RE.bow], "financial"),
  (cat [RE.bow, li "in", s0, li "for", s0, li "ma", s0, li "tion", RE.bow], "information"),
  (cat [RE.bow, li "infor", s0, li "mation", RE.bow], "information"),
  (cat [RE.bow, li "man", s0, li "age", s0, li "ment", RE.bow], "management"),
  (cat [RE.bow, li "manage", s0, li "ment", RE.bow], "management"),
  (cat [RE.bow, li "cus", s0, li "tom", s0, li "er", RE.bow], "customer"),
  (cat [RE.bow, li "custom", s0, li "er", RE.bow], "customer"),
  (cat [RE.bow, li "com", s0, li "pa", s0, li "ny", RE.bow], "company"),
  (cat [RE.bow, li "compan", s0, li "y", RE.bow], "company"),
  (cat [RE.bow, li "pro", s0, li "duct", RE.bow], "product"),
  (cat [RE.bow, li "produc", s0, li "t", RE.bow], "product"),
  (cat [RE.bow, li "ser", s0, li "vice", RE.bow], "service"),
  (cat [RE.bow, li "servic", s0, li "e", RE.bow], "service"),
  (cat [RE.bow, li "mar", s0, li "ket", s0, li "ing", RE.bow], "marketing"),
  (cat [RE.bow, li "market", s0, li "ing", RE.bow], "marketing"),
  (cat [RE.bow, li "em", s0, li "ploy", s0, li "ee", RE.bow], "employee"),
  (cat [RE.bow, li "employ", s0, li "ee", RE.bow], "employee"),
  (cat [RE.bow, li "or", s0, li "gan", s0, li "iza", s0, li "tion", RE.bow], "organization"),
  (cat [RE.bow, li "organ", s0, li "ization", RE.bow], "organization"),
  (cat [RE.bow, li "organiza", s0, li "tion", RE.bow], "organization"),
  (cat [RE.bow, li "com", s0, li "mu", s0, li "ni", s0, li "ca", s0, li "tion", RE.bow], "communication"),
  (cat [RE.bow, li "communica", s0, li "tion", RE.bow], "communication"),
  (cat [RE.bow, li "de", s0, li "ci", s0, li "sion", RE.bow], "decision"),
  (cat [RE.bow, li "deci", s0, li "sion", RE.bow], "decision"),
  (cat [RE.bow, li "op", s0, li "er", s0, li "a", s0, li "tion", RE.bow], "operation"),
  (cat [RE.bow, li "opera", s0, li "tion", RE.bow], "operation"),
  (cat [RE.bow, li "SOURC", s0, li "E", RE.bow], "SOURCE"),
  (cat [RE.bow, li "sourc", s0, li "e", RE.bow], "source"),
  (cat [RE.bow, li "re", s0, li "triev", s0, li "ed", RE.bow], "retrieved"),
  (cat [RE.bow, li "Retriev", s0, li "ed", RE.bow], "Retrieved"),
  (cat [RE.bow, li "deter", s0, li "mine", RE.bow], "determine"),
  (cat [RE.bow, li "under", s0, li "stand", RE.bow], "understand"),
  (cat [RE.bow, li "under", s0, li "standing", RE.bow], "understanding"),
  (cat [RE.bow, li "pro", s0, li "vide", RE.bow], "provide"),
  (cat [RE.bow, li "provid", s0, li "ing", RE.bow], "providing"),
  (cat [RE.bow, li "im", s0, li "prove", RE.bow], "improve"),
  (cat [RE.bow, li "improv", s0, li "ing", RE.bow], "improving"),
  (cat [RE.bow, li "con", s0, li "sider", RE.bow], "consider"),
  (cat [RE.bow, li "con", s0, li "tact", RE.bow], "contact"),
  (cat [RE.bow, li "con", s0, li "trol", RE.bow], "control"),
  (cat [RE.bow, li "con", s0, li "tract", RE.bow], "contract"),
  (cat [RE.bow, li "con", s0, li "sumer", RE.bow], "consumer"),
  (cat [RE.bow, li "con", s0, li "tinue", RE.bow], "continue"),
  (cat [RE.bow, li "ex", s0, li "ample", RE.bow], "example"),
  (cat [RE.bow, li "ex", s0, li "plain", RE.bow], "explain"),
  (cat [RE.bow, li "ex", s0, li "pect", RE.bow], "expect"),
  (cat [RE.bow, li "ex", s0, li "perience", RE.bow], "experience"),
  (cat [RE.bow, li "re", s0, li "quire", RE.bow], "require"),
  (cat [RE.bow, li "re", s0, li "sponse", RE.bow], "response"),
  (cat [RE.bow, li "re", s0, li "sult", RE.bow], "result"),
  (cat [RE.bow, li "re", s0, li "port", RE.bow], "report"),
  (cat [RE.bow, li "re", s0, li "ceive", RE.bow], "receive"),
  (cat [RE.bow, li "re", s0, li "view", RE.bow], "review"),
  (cat [RE.bow, li "re", s0, li "search", RE.bow], "research"),
  (cat [RE.bow, li "per", s0, li "form", RE.bow], "perform"),
  (cat [RE.bow, li "per", s0, li "son", RE.bow], "person"),
  (cat [RE.bow, li "per", s0, li "sonal", RE.bow], "personal"),
  (cat [RE.bow, li "profes", s0, li "sional", RE.bow], "professional"),
  (cat [RE.bow, li "rel", s0, li "ation", s0, li "ship", RE.bow], "relationship"),
  (cat [RE.bow, li "relation", s0, li "ship", RE.bow], "relationship"),
  (cat [RE.bow, li "devel", s0, li "op", s0, li "ment", RE.bow], "development"),
  (cat [RE.bow, li "develop", s0, li "ment", RE.bow], "development"),
  (cat [RE.bow, li "environ", s0, li "ment", RE.bow], "environment"),
  (cat [RE.bow, li "tech", s0, li "nol", s0, li "ogy", RE.bow], "technology"),
  (cat [RE.bow, li "technol", s0, li "ogy", RE.bow], "technology"),
  (cat [RE.bow, li "adver", s0, li "tis", s0, li "ing", RE.bow], "advertising"),
  (cat [RE.bow, li "advertis", s0, li "ing", RE.bow], "advertising"),
  (cat [RE.bow, li "explan", s0, li "ation", RE.bow], "explanation"),
  (cat [RE.bow, li "instru", s0, li "ment", RE.bow], "instrument"),
  (cat [RE.bow, li "ques", s0, li "tion", RE.bow], "question"),
  (cat [RE.bow, li "regu", s0, li "la", s0, li "tion", RE.bow], "regulation"),
  (cat [RE.bow, li "regula", s0, li "tion", RE.bow], "regulation"),
  (cat [RE.bow, li "docu", s0, li "ment", RE.bow], "document"),
  (cat [RE.bow, li "state", s0, li "ment", RE.bow], "statement"),
  (cat [RE.bow, li "invest", s0, li "ment", RE.bow], "investment"),
  (cat [RE.bow, li "equip", s0, li "ment", RE.bow], "equipment"),
  (cat [RE.bow, li "require", s0, li "ment", RE.bow], "requirement"),
  (cat [RE.bow, li "achieve", s0, li "ment", RE.bow], "achievement"),
  (cat [RE.bow, li "advan", s0, li "tage", RE.bow], "advantage"),
  (cat [RE.bow, li "knowl", s0, li "edge", RE.bow], "knowledge"),
  (cat [RE.bow, li "stra", s0, li "tegy", RE.bow], "strategy"),
  (cat [RE.bow, li "strateg", s0, li "y", RE.bow], "strategy"),
  (cat [RE.bow, li "activ", s0, li "ity", RE.bow], "activity"),
  (cat [RE.bow, li "opportun", s0, li "ity", RE.bow], "opportunity"),
  (cat [RE.bow, li "respons", s0, li "ibility", RE.bow], "responsibility"),
  (cat [RE.bow, li "responsi", s0, li "bility", RE.bow], "responsibility"),
  (cat [RE.bow, li "abil", s0, li "ity", RE.bow], "ability"),
  (cat [RE.bow, li "qual", s0, li "ity", RE.bow], "quality"),
  (cat [RE.bow, li "quant", s0, li "ity", RE.bow], "quantity"),
  (cat [RE.bow, li "util", s0, li "ity", RE.bow], "utility"),
  (cat [RE.bow, li "secur", s0, li "ity", RE.bow], "security"),
  (cat [RE.bow, li "author", s0, li "ity", RE.bow], "authority"),
  (cat [RE.bow, li "prior", s0, li "ity", RE.bow], "priority"),
  (cat [RE.bow, li "complex", s0, li "ity", RE.bow], "complexity"),
  (cat [RE.bow, li "employ", s0, li "er", RE.bow], "employer"),
  (cat [RE.bow, li "employ", s0, li "ment", RE.bow], "employment"),
  (cat [RE.bow, li "sales", s0, li "person", RE.bow], "salesperson"),
  (cat [RE.bow, li "read", s0, li "ing", RE.bow], "reading"),
  (cat [RE.bow, li "writ", s0, li "ing", RE.bow], "writing"),
  (cat [RE.bow, li "speak", s0, li "ing", RE.bow], "speaking"),
  (cat [RE.bow, li "listen", s0, li "ing", RE.bow], "listening"),
  (cat [RE.bow, li "learn", s0, li "ing", RE.bow], "learning"),
  (cat [RE.bow, li "train", s0, li "ing", RE.bow], "training"),
  (cat [RE.bow, li "plan", s0, li "ning", RE.bow], "planning"),
  (cat [RE.bow, li "budget", s0, li "ing", RE.bow], "budgeting"),
  (cat [RE.bow, li "account", s0, li "ing", RE.bow], "accounting"),
  (cat [RE.bow, li "bank", s0, li "ing", RE.bow], "banking"),
  (cat [RE.bow, li "pric", s0, li "ing", RE.bow], "pricing"),
  (cat [RE.bow, li "brand", s0, li "ing", RE.bow], "branding"),
  (cat [RE.bow, li "sell", s0, li "ing", RE.bow], "selling"),
  (cat [RE.bow, li "buy", s0, li "ing", RE.bow], "buying"),
  (cat [RE.bow, li "ship", s0, li "ping", RE.bow], "shipping"),
  (cat [RE.bow, li "pack", s0, li "aging", RE.bow], "packaging"),
  (cat [RE.bow, li "promot", s0, li "ion", RE.bow], "promotion"),
  (cat [RE.bow, li "promo", s0, li "tion", RE.bow], "promotion"),
  (cat [RE.bow, li "distri", s0, li "bution", RE.bow], "distribution"),
  (cat [RE.bow, li "product", s0, li "ion", RE.bow], "production"),
  (cat [RE.bow, li "compet", s0, li "ition", RE.bow], "competition"),
  (cat [RE.bow, li "competi", s0, li "tion", RE.bow], "competition"),
  (cat [RE.bow, li "posi", s0, li "tion", RE.bow], "position"),
  (cat [RE.bow, li "condi", s0, li "tion", RE.bow], "condition"),
  (cat [RE.bow, li "transi", s0, li "tion", RE.bow], "transition"),
  (cat [RE.bow, li "solu", s0, li "tion", RE.bow], "solution"),
  (cat [RE.bow, li "eval", s0, li "uation", RE.bow], "evaluation"),
  (cat [RE.bow, li "situ", s0, li "ation", RE.bow], "situation"),
  (cat [RE.bow, li "presen", s0, li "tation", RE.bow], "presentation"),
  (cat [RE.bow, li "appli", s0, li "cation", RE.bow], "application"),
  (cat [RE.bow, li "informa", s0, li "tion", RE.bow], "information"),
  (cat [RE.bow, li "important", RE.bow], "important"),
  (cat [RE.bow, li "import", s0, li "ant", RE.bow], "important"),
  (cat [RE.bow, li "different", RE.bow], "different"),
  (cat [RE.bow, li "differ", s0, li "ent", RE.bow], "different"),
  (cat [RE.bow, li "effect", s0, li "ive", RE.bow], "effective"),
  (cat [RE.bow, li "product", s0, li "ive", RE.bow], "productive"),
  (cat [RE.bow, li "posit", s0, li "ive", RE.bow], "positive"),
  (cat [RE.bow, li "negat", s0, li "ive", RE.bow], "negative"),
  (cat [RE.bow, li "create", s0, li "ive", RE.bow], "creative"),
  (cat [RE.bow, li "compet", s0, li "itive", RE.bow], "competitive"),
  (cat [RE.bow, li "follow", s0, li "ing", RE.bow], "following"),
  (cat [RE.bow, li "inclu", s0, li "ding", RE.bow], "including"),
  (cat [RE.bow, li "become", s0, li "ing", RE.bow], "becoming"),
  (cat [RE.bow, li "behav", s0, li "ior", RE.bow], "behavior"),
  (cat [RE.bow, li "inter", s0, li "est", RE.bow], "interest"),
  (cat [RE.bow, li "inter", s0, li "net", RE.bow], "internet"),
  (cat [RE.bow, li "inter", s0, li "view", RE.bow], "interview"),
  (cat [RE.bow, li "inter", s0, li "nal", RE.bow], "internal"),
  (cat [RE.bow, li "inter", s0, li "action", RE.bow], "interaction"),
  (cat [RE.bow, li "extern", s0, li "al", RE.bow], "external"),
  (cat [RE.bow, li "origin", s0, li "al", RE.bow], "original"),
  (cat [RE.bow, li "person", s0, li "al", RE.bow], "personal"),
  (cat [RE.bow, li "proces", s0, li "s", RE.bow], "process"),
  (cat [RE.bow, li "progr", s0, li "am", RE.bow], "program"),
  (cat [RE.bow, li "prob", s0, li "lem", RE.bow], "problem"),
  (cat [RE.bow, li "pur", s0, li "pose", RE.bow], "purpose"),
  (cat [RE.bow, li "pur", s0, li "chase", RE.bow], "purchase"),
  (cat [RE.bow, li "stand", s0, li "ard", RE.bow], "standard"),
  (cat [RE.bow, li "part", s0, li "ner", RE.bow], "partner"),
  (cat [RE.bow, li "part", s0, li "nership", RE.bow], "partnership"),
  (cat [RE.bow, li "leader", s0, li "ship", RE.bow], "leadership"),
  (cat [RE.bow, li "member", s0, li "ship", RE.bow], "membership"),
  (cat [RE.bow, li "owner", s0, li "ship", RE.bow], "ownership"),
  (cat [RE.bow, li "spons", s0, li "orship", RE.bow], "sponsorship"),
  (cat [RE.bow, li "intern", s0, li "ship", RE.bow], "internship"),
  (cat [RE.bow, li "scholar", s0, li "ship", RE.bow], "scholarship"),
  (cat [RE.bow, li "citizen", s0, li "ship", RE.bow], "citizenship"),
  (cat [RE.bow, li "friend", s0, li "ship", RE.bow], "friendship"),
  (cat [RE.bow, li "work", s0, li "place", RE.bow], "workplace"),
  (cat [RE.bow, li "market", s0, li "place", RE.bow], "marketplace"),
  (cat [RE.bow, li "wi", s0, li "th", RE.bow], "with"),
  (cat [RE.bow, li "wit", s0, li "h", RE.bow], "with"),
  (cat [RE.bow, li "th", s0, li "at", RE.bow], "that"),
  (cat [RE.bow, li "tha", s0, li "t", RE.bow], "that"),
  (cat [RE.bow, li "th", s0, li "is", RE.bow], "this"),
  (cat [RE.bow, li "thi", s0, li "s", RE.bow], "this"),
  (cat [RE.bow, li "th", s0, li "ey", RE.bow], "they"),
  (cat [RE.bow, li "the", s0, li "y", RE.bow], "they"),
  (cat [RE.bow, li "th", s0, li "em", RE.bow], "them"),
  (cat [RE.bow, li "the", s0, li "m", RE.bow], "them"),
  (cat [RE.bow, li "th", s0, li "eir", RE.bow], "their"),
  (cat [RE.bow, li "thei", s0, li "r", RE.bow], "their"),
  (cat [RE.bow, li "th", s0, li "ere", RE.bow], "there"),
  (cat [RE.bow, li "ther", s0, li "e", RE.bow], "there"),
  (cat [RE.bow, li "th", s0, li "ese", RE.bow], "these"),
  (cat [RE.bow, li "thes", s0, li "e", RE.bow], "these"),
  (cat [RE.bow, li "wh", s0, li "ich", RE.bow], "which"),
  (cat [RE.bow, li "whic", s0, li "h", RE.bow], "which"),
  (cat [RE.bow, li "wh", s0, li "en", RE.bow], "when"),
  (cat [RE.bow, li "whe", s0, li "n", RE.bow], "when"),
  (cat [RE.bow, li "wh", s0, li "ere", RE.bow], "where"),
  (cat [RE.bow, li "wher", s0, li "e", RE.bow], "where"),
  (cat [RE.bow, li "wh", s0, li "at", RE.bow], "what"),
  (cat [RE.bow, li "wha", s0, li "t", RE.bow], "what"),
  (cat [RE.bow, li "ab", s0, li "out", RE.bow], "about"),
  (cat [RE.bow, li "abou", s0, li "t", RE.bow], "about"),
  (cat [RE.bow, li "fr", s0, li "om", RE.bow], "from"),
  (cat [RE.bow, li "fro", s0, li "m", RE.bow], "from"),
  (cat [RE.bow, li "have", RE.bow], "have"),
  (cat [RE.bow, li "ha", s0, li "ve", RE.bow], "have"),
  (cat [RE.bow, li "sh", s0, li "ould", RE.bow], "should"),
  (cat [RE.bow, li "shou", s0, li "ld", RE.bow], "should"),
  (cat [RE.bow, li "wo", s0, li "uld", RE.bow], "would"),
  (cat [RE.bow, li "woul", s0, li "d", RE.bow], "would"),
  (cat [RE.bow, li "co", s0, li "uld", RE.bow], "could"),
  (cat [RE.bow, li "coul", s0, li "d", RE.bow], "could"),
  (cat [RE.bow, li "be", s0, li "cause", RE.bow], "because"),
  (cat [RE.bow, li "becau", s0, li "se", RE.bow], "because"),
  (cat [RE.bow, li "befor", s0, li "e", RE.bow], "before"),
  (cat [RE.bow, li "aft", s0, li "er", RE.bow], "after"),
  (cat [RE.bow, li "afte", s0, li "r", RE.bow], "after"),
  (cat [RE.bow, li "oth", s0, li "er", RE.bow], "other"),
  (cat [RE.bow, li "othe", s0, li "r", RE.bow], "other"),
  (cat [RE.bow, li "eff", s0, li "ect", RE.bow], "effect"),
  (cat [RE.bow, li "effec", s0, li "t", RE.bow], "effect")]

/-- `ADDITIONAL_FIXES` from `app.py`: (pattern, template) pairs applied
case-insensitively with template replacement. -/
def ADDITIONAL_FIXES : List (RE × List RT) := [
  (cat [RE.bow, li "civ", s0, li "il", RE.bow], [RT.s "civil"]),
  (cat [RE.bow, li "maj", s0, li "ority", RE.bow], [RT.s "majority"]),
  (cat [RE.bow, li "ret", s0, li "ailers", RE.bow], [RT.s "retailers"]),
  (cat [RE.bow, li "rath", s0, li "er", RE.bow], [RT.s "rather"]),
  (cat [RE.bow, li "cons", s0, li "umers", RE.bow], [RT.s "consumers"]),
  (cat [RE.bow, li "controll", s0, li "ing", RE.bow], [RT.s "controlling"]),
  (cat [RE.bow, li "slott", s0, li "ing", RE.bow], [RT.s "slotting"]),
  (cat [RE.bow, li "simplifyi", s0, li "ng", RE.bow], [RT.s "simplifying"]),
  (cat [RE.bow, li "effecti", s0, li "vely", RE.bow], [RT.s "effectively"]),
  (cat [RE.bow, li "listeni", s0, li "ng", RE.bow], [RT.s "listening"]),
  (cat [RE.bow, li "maki", s0, li "ng", RE.bow], [RT.s "making"]),
  (cat [RE.bow, li "taki", s0, li "ng", RE.bow], [RT.s "taking"]),
  (cat [RE.bow, li "havi", s0, li "ng", RE.bow], [RT.s "having"]),
  (cat [RE.bow, li "givi", s0, li "ng", RE.bow], [RT.s "giving"]),
  (cat [RE.bow, li "usi", s0, li "ng", RE.bow], [RT.s "using"]),
  (cat [RE.bow, li "meani", s0, li "ng", RE.bow], [RT.s "meaning"]),
  (cat [RE.bow, li "bec", s0, li "ause", RE.bow], [RT.s "because"]),
  (cat [RE.bow, li "mes", s0, li "sage", RE.bow], [RT.s "message"]),
  (cat [RE.bow, li "aff", s0, li "ect", RE.bow], [RT.s "affect"]),
  (cat [RE.bow, li "spe", s0, li "cific", RE.bow], [RT.s "specific"]),
  (cat [RE.bow, li "diffi", s0, li "cult", RE.bow], [RT.s "difficult"]),
  (cat [RE.bow, li "semi", s0, li "nar", RE.bow], [RT.s "seminar"]),
  (cat [RE.bow, li "informati", s0, li "on", RE.bow], [RT.s "information"]),
  (cat [RE.bow, li "rel", s0, li "y", RE.bow], [RT.s "rely"]),
  (cat [RE.bow, li "Yo", s0, li "ucan", RE.bow], [RT.s "You can"]),
  (cat [RE.bow, li "wit", s0, li "htheir", RE.bow], [RT.s "with their"]),
  (cat [RE.bow, li "wit", s0, li "hout", RE.bow], [RT.s "without"]),
  (cat [RE.bow, li "whi", s0, li "ch", RE.bow], [RT.s "which"]),
  (cat [RE.bow, li "mone", s0, li "y", RE.bow], [RT.s "money"]),
  (cat [RE.bow, li "sho", s0, li "uld", RE.bow], [RT.s "should"]),
  (cat [RE.bow, li "cou", s0, li "ld", RE.bow], [RT.s "could"]),
  (cat [RE.bow, li "wou", s0, li "ld", RE.bow], [RT.s "would"]),
  (cat [RE.bow, li "a", s1, li "re", s1, li "based", RE.bow], [RT.s "are based"]),
  (cat [RE.bow, li "steppings", s0, li "tones", RE.bow], [RT.s "steppingstones"]),
  (cat [RE.bow, li "triggerne", s0, li "w", RE.bow], [RT.s "trigger new"]),
  (cat [RE.bow, li "veryoutlandish", RE.bow], [RT.s "very outlandish"]),
  (cat [RE.bow, li "listeni", s0, li "ngand", RE.bow], [RT.s "listening and"]),
  (cat [RE.bow, li "whi", s0, li "chmay", RE.bow], [RT.s "which may"]),
  (cat [RE.bow, li "simplifyi", s0, li "ngexisting", RE.bow], [RT.s "simplifying existing"]),
  (cat [RE.bow, li "rath", s0, li "erthan", RE.bow], [RT.s "rather than"]),
  (cat [RE.bow, li "civ", s0, li "illitigation", RE.bow], [RT.s "civil litigation"]),
  (cat [RE.bow, li "kee", s0, li "ping", RE.bow], [RT.s "keeping"]),
  (cat [RE.bow, li "sel", s0, li "ling", RE.bow], [RT.s "selling"]),
  (cat [RE.bow, li "tel", s0, li "ling", RE.bow], [RT.s "telling"]),
  (cat [RE.bow, li "gett", s0, li "ing", RE.bow], [RT.s "getting"]),
  (cat [RE.bow, li "sett", s0, li "ing", RE.bow], [RT.s "setting"]),
  (cat [RE.bow, li "lett", s0, li "ing", RE.bow], [RT.s "letting"]),
  (cat [RE.bow, li "putt", s0, li "ing", RE.bow], [RT.s "putting"]),
  (cat [RE.bow, li "cutt", s0, li "ing", RE.bow], [RT.s "cutting"]),
  (cat [RE.bow, li "hitt", s0, li "ing", RE.bow], [RT.s "hitting"]),
  (cat [RE.bow, li "sitt", s0, li "ing", RE.bow], [RT.s "sitting"]),
  (cat [RE.bow, li "infor", s0, li "mation", RE.bow], [RT.s "information"]),
  (cat [RE.bow, li "effici", s0, li "ent", RE.bow], [RT.s "efficient"]),
  (cat [RE.bow, li "effici", s0, li "ency", RE.bow], [RT.s "efficiency"]),
  (cat [RE.bow, li "suffi", s0, li "cient", RE.bow], [RT.s "sufficient"]),
  (cat [RE.bow, li "defici", s0, li "ent", RE.bow], [RT.s "deficient"]),
  (cat [RE.bow, li "profitabilit", s0, li "y", RE.bow], [RT.s "profitability"]),
  (cat [RE.bow, li "abilit", s0, li "y", RE.bow], [RT.s "ability"]),
  (cat [RE.bow, li "qualit", s0, li "y", RE.bow], [RT.s "quality"]),
  (cat [RE.bow, li "liabilit", s0, li "y", RE.bow], [RT.s "liability"]),
  (cat [RE.bow, li "facilit", s0, li "y", RE.bow], [RT.s "facility"]),
  (cat [RE.bow, li "flexibilit", s0, li "y", RE.bow], [RT.s "flexibility"]),
  (cat [RE.bow, li "responsibilit", s0, li "y", RE.bow], [RT.s "responsibility"]),
  (cat [RE.bow, li "quantit", s0, li "y", RE.bow], [RT.s "quantity"]),
  (cat [RE.bow, li "activit", s0, li "y", RE.bow], [RT.s "activity"]),
  (cat [RE.bow, li "realit", s0, li "y", RE.bow], [RT.s "reality"]),
  (cat [RE.bow, li "variet", s0, li "y", RE.bow], [RT.s "variety"]),
  (cat [RE.bow, li "currenc", s0, li "y", RE.bow], [RT.s "currency"]),
  (cat [RE.bow, li "polic", s0, li "y", RE.bow], [RT.s "policy"]),
  (cat [RE.bow, li "philosoph", s0, li "y", RE.bow], [RT.s "philosophy"]),
  (cat [RE.bow, li "entiret", s0, li "y", RE.bow], [RT.s "entirety"]),
  (cat [RE.bow, li "honest", s0, li "y", RE.bow], [RT.s "honesty"]),
  (cat [RE.bow, li "warrant", s0, li "y", RE.bow], [RT.s "warranty"]),
  (cat [RE.bow, li "quickl", s0, li "y", RE.bow], [RT.s "quickly"]),
  (cat [RE.bow, li "likel", s0, li "y", RE.bow], [RT.s "likely"]),
  (cat [RE.bow, li "positivel", s0, li "y", RE.bow], [RT.s "positively"]),
  (cat [RE.bow, li "initiall", s0, li "y", RE.bow], [RT.s "initially"]),
  (cat [RE.bow, li "strictl", s0, li "y", RE.bow], [RT.s "strictly"]),
  (cat [RE.bow, li "similarl", s0, li "y", RE.bow], [RT.s "similarly"]),
  (cat [RE.bow, li "friendl", s0, li "y", RE.bow], [RT.s "friendly"]),
  (cat [RE.bow, li "necessar", s0, li "y", RE.bow], [RT.s "necessary"]),
  (cat [RE.bow, li "horsepla", s0, li "y", RE.bow], [RT.s "horseplay"]),
  (cat [RE.bow, li "happ", s0, li "y", RE.bow], [RT.s "happy"]),
  (cat [RE.bow, li "jul", s0, li "y", RE.bow], [RT.s "july"]),
  (cat [RE.bow, li "var", s0, li "y", RE.bow], [RT.s "vary"]),
  (cat [RE.bow, li "strategi", s0, li "c", RE.bow], [RT.s "strategic"]),
  (cat [RE.bow, li "specifi", s0, li "c", RE.bow], [RT.s "specific"]),
  (cat [RE.bow, li "ethi", s0, li "c", RE.bow], [RT.s "ethic"]),
  (cat [RE.bow, li "vie", s0, li "w", RE.bow], [RT.s "view"]),
  (cat [RE.bow, li "follo", s0, li "w", RE.bow], [RT.s "follow"]),
  (cat [RE.bow, li "hersel", s0, li "f", RE.bow], [RT.s "herself"]),
  (cat [RE.bow, li "yoursel", s0, li "f", RE.bow], [RT.s "yourself"]),
  (cat [RE.bow, li "rightha", s0, li "nd", RE.bow], [RT.s "righthand"]),
  (cat [RE.bow, li "cleanai", s0, li "r", RE.bow], [RT.s "clean air"]),
  (cat [RE.bow, li "anden", s0, li "d", RE.bow], [RT.s "and end"]),
  (cat [RE.bow, li "andh", s0, li "e", RE.bow], [RT.s "and he"]),
  (cat [RE.bow, li "thewa", s0, li "y", RE.bow], [RT.s "the way"]),
  (cat [RE.bow, li "hisbo", s0, li "ss", RE.bow], [RT.s "his boss"]),
  (cat [RE.bow, li "nationalla", s0, li "w", RE.bow], [RT.s "national law"]),
  (cat [RE.bow, li "powerfulwa", s0, li "y", RE.bow], [RT.s "powerful way"]),
  (cat [RE.bow, li "informationma", s0, li "y", RE.bow], [RT.s "information may"]),
  (cat [RE.bow, li "helpyo", s0, li "u", RE.bow], [RT.s "help you"]),
  (cat [RE.bow, li "useshi", s0, li "gh", RE.bow], [RT.s "uses high"]),
  (cat [RE.bow, li "riverlogi", s0, li "c", RE.bow], [RT.s "riverlogic"]),
  (cat [RE.bow, li "tangibil", s0, li "ity", RE.bow], [RT.s "tangibility"]),
  (cat [RE.bow, li "integr", s0, li "ity", RE.bow], [RT.s "integrity"]),
  (cat [RE.bow, li "liabil", s0, li "ity", RE.bow], [RT.s "liability"]),
  (cat [RE.bow, li "commun", s0, li "ity", RE.bow], [RT.s "community"]),
  (cat [RE.bow, li "hospital", s0, li "ity", RE.bow], [RT.s "hospitality"]),
  (cat [RE.bow, li "facil", s0, li "ity", RE.bow], [RT.s "facility"]),
  (cat [RE.bow, li "equ", s0, li "ity", RE.bow], [RT.s "equity"]),
  (cat [RE.bow, li "viabil", s0, li "ity", RE.bow], [RT.s "viability"]),
  (cat [RE.bow, li "responsibil", s0, li "ity", RE.bow], [RT.s "responsibility"]),
  (cat [RE.bow, li "capabil", s0, li "ity", RE.bow], [RT.s "capability"]),
  (cat [RE.bow, li "possibil", s0, li "ity", RE.bow], [RT.s "possibility"]),
  (cat [RE.bow, li "stabil", s0, li "ity", RE.bow], [RT.s "stability"]),
  (cat [RE.bow, li "visibil", s0, li "ity", RE.bow], [RT.s "visibility"]),
  (cat [RE.bow, li "flexibil", s0, li "ity", RE.bow], [RT.s "flexibility"]),
  (cat [RE.bow, li "credibil", s0, li "ity", RE.bow], [RT.s "credibility"]),
  (cat [RE.bow, li "durabil", s0, li "ity", RE.bow], [RT.s "durability"]),
  (cat [RE.bow, li "availabil", s0, li "ity", RE.bow], [RT.s "availability"]),
  (cat [RE.bow, li "accountabil", s0, li "ity", RE.bow], [RT.s "accountability"]),
  (cat [RE.bow, li "reliabil", s0, li "ity", RE.bow], [RT.s "reliability"]),
  (cat [RE.bow, li "sustainabil", s0, li "ity", RE.bow], [RT.s "sustainability"]),
  (cat [RE.bow, li "yo", s0, li "ucan", RE.bow], [RT.s "you can"]),
  (cat [RE.bow, li "y", s0, li "ouachieve", RE.bow], [RT.s "you achieve"]),
  (cat [RE.bow, li "y", s0, li "ouhave", RE.bow], [RT.s "you have"]),
  (cat [RE.bow, li "y", s0, li "oushould", RE.bow], [RT.s "you should"]),
  (cat [RE.bow, li "y", s0, li "ounext", RE.bow], [RT.s "you next"]),
  (cat [RE.bow, li "yo", s0, li "uare", RE.bow], [RT.s "you are"]),
  (cat [RE.bow, li "t", s0, li "ocalculate", RE.bow], [RT.s "to calculate"]),
  (cat [RE.bow, li "t", s0, li "oinfluence", RE.bow], [RT.s "to influence"]),
  (cat [RE.bow, li "t", s0, li "ocheck", RE.bow], [RT.s "to check"]),
  (cat [RE.bow, li "o", s0, li "wnstore", RE.bow], [RT.s "own store"]),
  (cat [RE.bow, li "o", s0, li "wnideas", RE.bow], [RT.s "own ideas"]),
  (cat [RE.bow, li "o", s0, li "raffect", RE.bow], [RT.s "or affect"]),
  (cat [RE.bow, li "o", s0, li "fcompetitors", RE.bow], [RT.s "of competitors"]),
  (cat [RE.bow, li "o", s0, li "ffinancial", RE.bow], [RT.s "of financial"]),
  (cat [RE.bow, li "o", s0, li "fnegotiating", RE.bow], [RT.s "of negotiating"]),
  (cat [RE.bow, li "o", s0, li "nanyone", RE.bow], [RT.s "on anyone"]),
  (cat [RE.bow, li "b", s0, li "eexperts", RE.bow], [RT.s "be experts"]),
  (cat [RE.bow, li "b", s0, li "ylogical", RE.bow], [RT.s "by logical"]),
  (cat [RE.bow, li "b", s0, li "ycombining", RE.bow], [RT.s "by combining"]),
  (cat [RE.bow, li "b", s0, li "utdaily", RE.bow], [RT.s "but daily"]),
  (cat [RE.bow, li "b", s0, li "yfollowing", RE.bow], [RT.s "by following"]),
  (cat [RE.bow, li "b", s0, li "eviewed", RE.bow], [RT.s "be viewed"]),
  (cat [RE.bow, li "b", s0, li "ymultiplying", RE.bow], [RT.s "by multiplying"]),
  (cat [RE.bow, li "s", s0, li "etassumptions", RE.bow], [RT.s "set assumptions"]),
  (cat [RE.bow, li "s", s0, li "othey", RE.bow], [RT.s "so they"]),
  (cat [RE.bow, li "f", s0, li "argreater", RE.bow], [RT.s "far greater"]),
  (cat [RE.bow, li "f", s0, li "ewquestions", RE.bow], [RT.s "few questions"]),
  (cat [RE.bow, li "ho", s0, li "wclosely", RE.bow], [RT.s "how closely"]),
  (cat [RE.bow, li "w", s0, li "eall", RE.bow], [RT.s "we all"]),
  (cat [RE.bow, li "j", s0, li "obapplicant", RE.bow], [RT.s "job applicant"]),
  (cat [RE.bow, li "x", s0, li "yzgrocery", RE.bow], [RT.s "xyz grocery"]),
  (cat [RE.bow, li "da", s0, li "ysago", RE.bow], [RT.s "days ago"]),
  (cat [RE.bow, li "d", s0, li "aycare", RE.bow], [RT.s "daycare"]),
  (cat [RE.bow, li "an", s0, li "y", RE.bow], [RT.s "any"]),
  (cat [RE.bow, li "cantr", s0, li "y", RE.bow], [RT.s "can try"]),
  (cat [RE.bow, li "sinc", s0, li "ey", RE.bow], [RT.s "since y"]),
  (cat [RE.bow, li "call", s0, li "y", RE.bow], [RT.s "cally"]),
  (cat [RE.bow, li "nego", s0, li "tiates", RE.bow], [RT.s "negotiates"]),
  (cat [RE.bow, li "nego", s0, li "tiate", RE.bow], [RT.s "negotiate"]),
  (cat [RE.bow, li "nego", s0, li "tiation", RE.bow], [RT.s "negotiation"]),
  (cat [RE.bow, li "als", s0, li "oallow", RE.bow], [RT.s "also allow"]),
  (cat [RE.bow, li "als", s0, li "o", RE.bow], [RT.s "also"]),
  (cat [RE.bow, li "an", s0, li "dsearch", RE.bow], [RT.s "and search"]),
  (cat [RE.bow, li "and", s0, li "earch", RE.bow], [RT.s "and search"]),
  (cat [RE.bow, li "purchas", s0, li "ing", RE.bow], [RT.s "purchasing"]),
  (cat [RE.bow, li "publish", s0, li "ing", RE.bow], [RT.s "publishing"]),
  (cat [RE.bow, li "resignati", s0, li "on", RE.bow], [RT.s "resignation"]),
  (cat [RE.bow, li "they", s0, li "als", s0, li "o", RE.bow], [RT.s "they also"]),
  (cat [RE.bow, li "we", s0, li "do", s0, li "not", RE.bow], [RT.s "we do not"]),
  (cat [RE.bow, li "would", s0, li "not", RE.bow], [RT.s "would not"]),
  (cat [RE.bow, li "could", s0, li "not", RE.bow], [RT.s "could not"]),
  (cat [RE.bow, li "should", s0, li "not", RE.bow], [RT.s "should not"]),
  (cat [RE.bow, li "does", s0, li "not", RE.bow], [RT.s "does not"]),
  (cat [RE.bow, li "did", s0, li "not", RE.bow], [RT.s "did not"]),
  (cat [RE.bow, li "will", s0, li "not", RE.bow], [RT.s "will not"]),
  (cat [RE.bow, li "can", s0, li "not", RE.bow], [RT.s "cannot"]),
  (cat [RE.bow, li "whichs", s0, li "/", s0, li "he", RE.bow], [RT.s "which s/he"]),
  (cat [RE.bow, li "reprimand", s0, li "orfire", RE.bow], [RT.s "reprimand or fire"]),
  (cat [RE.bow, li "orfire", RE.bow], [RT.s "or fire"]),
  (cat [RE.bow, li "outsi", s0, li "dethe", RE.bow], [RT.s "outside the"]),
  (cat [RE.bow, li "insi", s0, li "dethe", RE.bow], [RT.s "inside the"]),
  (cat [RE.bow, li "understandthe", RE.bow], [RT.s "understand the"]),
  (cat [RE.bow, li "determinethe", RE.bow], [RT.s "determine the"]),
  (cat [RE.bow, li "increasethe", RE.bow], [RT.s "increase the"]),
  (cat [RE.bow, li "decreasethe", RE.bow], [RT.s "decrease the"]),
  (cat [RE.bow, li "improvethe", RE.bow], [RT.s "improve the"]),
  (cat [RE.bow, li "reducethe", RE.bow], [RT.s "reduce the"]),
  (cat [RE.bow, li "achievethe", RE.bow], [RT.s "achieve the"]),
  (cat [RE.bow, li "receivethe", RE.bow], [RT.s "receive the"]),
  (cat [RE.bow, li "providethe", RE.bow], [RT.s "provide the"]),
  (cat [RE.bow, li "requirethe", RE.bow], [RT.s "require the"]),
  (cat [RE.bow, li "describethe", RE.bow], [RT.s "describe the"]),
  (cat [RE.bow, li "followthe", RE.bow], [RT.s "follow the"]),
  (cat [RE.bow, li "enterthe", RE.bow], [RT.s "enter the"]),
  (cat [RE.bow, li "exitthe", RE.bow], [RT.s "exit the"]),
  (cat [RE.bow, li "withthe", RE.bow], [RT.s "with the"]),
  (cat [RE.bow, li "forthe", RE.bow], [RT.s "for the"]),
  (cat [RE.bow, li "fromthe", RE.bow], [RT.s "from the"]),
  (cat [RE.bow, li "tothe", RE.bow], [RT.s "to the"]),
  (cat [RE.bow, li "ofthe", RE.bow], [RT.s "of the"]),
  (cat [RE.bow, li "inthe", RE.bow], [RT.s "in the"]),
  (cat [RE.bow, li "onthe", RE.bow], [RT.s "on the"]),
  (cat [RE.bow, li "atthe", RE.bow], [RT.s "at the"]),
  (cat [RE.bow, li "bythe", RE.bow], [RT.s "by the"]),
  (cat [RE.bow, li "asthe", RE.bow], [RT.s "as the"]),
  (cat [RE.bow, li "andthe", RE.bow], [RT.s "and the"]),
  (cat [RE.bow, li "orthe", RE.bow], [RT.s "or the"]),
  (cat [RE.bow, li "butthe", RE.bow], [RT.s "but the"]),
  (cat [RE.bow, li "ifthe", RE.bow], [RT.s "if the"]),
  (cat [RE.bow, li "whenthe", RE.bow], [RT.s "when the"]),
  (cat [RE.bow, li "wherethe", RE.bow], [RT.s "where the"]),
  (cat [RE.bow, li "whilethe", RE.bow], [RT.s "while the"]),
  (cat [RE.bow, li "beforethe", RE.bow], [RT.s "before the"]),
  (cat [RE.bow, li "afterthe", RE.bow], [RT.s "after the"]),
  (cat [RE.bow, li "aboutthe", RE.bow], [RT.s "about the"]),
  (cat [RE.bow, li "acrossthe", RE.bow], [RT.s "across the"]),
  (cat [RE.bow, li "againstthe", RE.bow], [RT.s "against the"]),
  (cat [RE.bow, li "duringthe", RE.bow], [RT.s "during the"]),
  (cat [RE.bow, li "betweenthe", RE.bow], [RT.s "between the"]),
  (cat [RE.bow, li "throughthe", RE.bow], [RT.s "through the"]),
  (cat [RE.bow, li "underthe", RE.bow], [RT.s "under the"]),
  (cat [RE.bow, li "overthe", RE.bow], [RT.s "over the"]),
  (cat [RE.bow, li "intothea", RE.bow], [RT.s "into the"]),
  (cat [RE.bow, li "the", s0, li "re", RE.bow], [RT.s "there"]),
  (cat [RE.bow, li "mo", s0, li "re", RE.bow], [RT.s "more"]),
  (cat [RE.bow, li "whe", s0, li "re", RE.bow], [RT.s "where"]),
  (cat [RE.bow, li "the", s0, li "se", RE.bow], [RT.s "these"]),
  (cat [RE.bow, li "the", s0, li "ir", RE.bow], [RT.s "their"]),
  (cat [RE.bow, li "the", s0, li "y", RE.bow], [RT.s "they"]),
  (cat [RE.bow, li "the", s0, li "m", RE.bow], [RT.s "them"]),
  (cat [RE.bow, li "the", s0, li "n", RE.bow], [RT.s "then"]),
  (cat [RE.bow, li "whe", s0, li "n", RE.bow], [RT.s "when"]),
  (cat [RE.bow, li "whi", s0, li "ch", RE.bow], [RT.s "which"]),
  (cat [RE.bow, li "wit", s0, li "h", RE.bow], [RT.s "with"]),
  (cat [RE.bow, li "th", s0, li "at", RE.bow], [RT.s "that"]),
  (cat [RE.bow, li "th", s0, li "is", RE.bow], [RT.s "this"]),
  (cat [RE.bow, li "fro", s0, li "m", RE.bow], [RT.s "from"]),
  (cat [RE.bow, li "int", s0, li "o", RE.bow], [RT.s "into"]),
  (cat [RE.bow, li "ont", s0, li "o", RE.bow], [RT.s "onto"]),
  (cat [RE.bow, li "ont", s0, li "o", RE.bow], [RT.s "onto"]),
  (cat [RE.bow, li "abo", s0, li "ut", RE.bow], [RT.s "about"]),
  (cat [RE.bow, RE.grp 1 (RE.cls CC.lower), li "The", RE.bow], [RT.g 1, RT.s " The"]),
  (cat [RE.bow, RE.grp 1 (RE.cls CC.lower), li "This", RE.bow], [RT.g 1, RT.s " This"]),
  (cat [RE.bow, RE.grp 1 (RE.cls CC.lower), li "It", RE.bow], [RT.g 1, RT.s " It"]),
  (cat [RE.bow, RE.grp 1 (RE.cls CC.lower), li "If", RE.bow], [RT.g 1, RT.s " If"]),
  (cat [RE.bow, RE.grp 1 (RE.cls CC.lower), li "When", RE.bow], [RT.g 1, RT.s " When"]),
  (cat [RE.bow, RE.grp 1 (RE.cls CC.lower), li "However", RE.bow], [RT.g 1, RT.s " However"]),
  (cat [RE.bow, RE.grp 1 (RE.cls CC.lower), li "Therefore", RE.bow], [RT.g 1, RT.s " Therefore"]),
  (cat [RE.bow, RE.grp 1 (RE.cls CC.lower), li "For", RE.bow], [RT.g 1, RT.s " For"]),
  (cat [RE.bow, RE.grp 1 (RE.cls CC.lower), li "As", RE.bow], [RT.g 1, RT.s " As"]),
  (cat [RE.bow, li "organiz", s0, li "ation", RE.bow], [RT.s "organization"]),
  (cat [RE.bow, li "inform", s0, li "ation", RE.bow], [RT.s "information"]),
  (cat [RE.bow, li "communi", s0, li "cation", RE.bow], [RT.s "communication"]),
  (cat [RE.bow, li "present", s0, li "ation", RE.bow], [RT.s "presentation"]),
  (cat [RE.bow, li "document", s0, li "ation", RE.bow], [RT.s "documentation"]),
  (cat [RE.bow, li "implementa", s0, li "tion", RE.bow], [RT.s "implementation"]),
  (cat [RE.bow, li "registr", s0, li "ation", RE.bow], [RT.s "registration"]),
  (cat [RE.bow, li "consider", s0, li "ation", RE.bow], [RT.s "consideration"]),
  (cat [RE.bow, li "evalua", s0, li "tion", RE.bow], [RT.s "evaluation"]),
  (cat [RE.bow, li "negocia", s0, li "tion", RE.bow], [RT.s "negotiation"]),
  (cat [RE.bow, li "negocia", s0, li "tions", RE.bow], [RT.s "negotiations"]),
  (cat [RE.bow, li "demonstrat", s0, li "ion", RE.bow], [RT.s "demonstration"]),
  (cat [RE.bow, li "compensa", s0, li "tion", RE.bow], [RT.s "compensation"]),
  (cat [RE.bow, li "transport", s0, li "ation", RE.bow], [RT.s "transportation"]),
  (cat [RE.bow, li "classifica", s0, li "tion", RE.bow], [RT.s "classification"]),
  (cat [RE.bow, li "recommend", s0, li "ation", RE.bow], [RT.s "recommendation"]),
  (cat [RE.bow, li "explana", s0, li "tion", RE.bow], [RT.s "explanation"]),
  (cat [RE.bow, li "demonstrat", s0, li "ing", RE.bow], [RT.s "demonstrating"]),
  (cat [RE.bow, li "participat", s0, li "ing", RE.bow], [RT.s "participating"]),
  (cat [RE.bow, li "communicat", s0, li "ing", RE.bow], [RT.s "communicating"]),
  (cat [RE.bow, li "negotiat", s0, li "ing", RE.bow], [RT.s "negotiating"]),
  (cat [RE.bow, li "operating", RE.bow], [RT.s "operating"]),
  (cat [RE.bow, li "reveal", s0, li "ing", RE.bow], [RT.s "revealing"]),
  (cat [RE.bow, li "incorporat", s0, li "ing", RE.bow], [RT.s "incorporating"]),
  (cat [RE.bow, li "illustr", s0, li "ating", RE.bow], [RT.s "illustrating"]),
  (cat [RE.bow, li "manage", s0, li "ment", RE.bow], [RT.s "management"]),
  (cat [RE.bow, li "develop", s0, li "ment", RE.bow], [RT.s "development"]),
  (cat [RE.bow, li "environ", s0, li "ment", RE.bow], [RT.s "environment"]),
  (cat [RE.bow, li "equip", s0, li "ment", RE.bow], [RT.s "equipment"]),
  (cat [RE.bow, li "docu", s0, li "ment", RE.bow], [RT.s "document"]),
  (cat [RE.bow, li "state", s0, li "ment", RE.bow], [RT.s "statement"]),
  (cat [RE.bow, li "invest", s0, li "ment", RE.bow], [RT.s "investment"]),
  (cat [RE.bow, li "require", s0, li "ment", RE.bow], [RT.s "requirement"]),
  (cat [RE.bow, li "achieve", s0, li "ment", RE.bow], [RT.s "achievement"]),
  (cat [RE.bow, li "employ", s0, li "ment", RE.bow], [RT.s "employment"]),
  (cat [RE.bow, li "assess", s0, li "ment", RE.bow], [RT.s "assessment"]),
  (cat [RE.bow, li "advance", s0, li "ment", RE.bow], [RT.s "advancement"]),
  (cat [RE.bow, li "agree", s0, li "ment", RE.bow], [RT.s "agreement"]),
  (cat [RE.bow, li "pay", s0, li "ment", RE.bow], [RT.s "payment"]),
  (cat [RE.bow, li "ship", s0, li "ment", RE.bow], [RT.s "shipment"]),
  (cat [RE.bow, li "treat", s0, li "ment", RE.bow], [RT.s "treatment"]),
  (cat [RE.bow, li "depart", s0, li "ment", RE.bow], [RT.s "department"]),
  (cat [RE.bow, li "replace", s0, li "ment", RE.bow], [RT.s "replacement"]),
  (cat [RE.bow, li "settle", s0, li "ment", RE.bow], [RT.s "settlement"]),
  (cat [RE.bow, li "busi", s0, li "ness", RE.bow], [RT.s "business"]),
  (cat [RE.bow, li "aware", s0, li "ness", RE.bow], [RT.s "awareness"]),
  (cat [RE.bow, li "effective", s0, li "ness", RE.bow], [RT.s "effectiveness"]),
  (cat [RE.bow, li "willing", s0, li "ness", RE.bow], [RT.s "willingness"]),
  (cat [RE.bow, li "fair", s0, li "ness", RE.bow], [RT.s "fairness"]),
  (cat [RE.bow, li "weak", s0, li "ness", RE.bow], [RT.s "weakness"]),
  (cat [RE.bow, li "open", s0, li "ness", RE.bow], [RT.s "openness"]),
  (cat [RE.bow, li "happy", s0, li "ness", RE.bow], [RT.s "happiness"]),
  (cat [RE.bow, li "readiness", RE.bow], [RT.s "readiness"]),
  (cat [RE.bow, li "responsibil", s0, li "ity", RE.bow], [RT.s "responsibility"]),
  (cat [RE.bow, li "opportun", s0, li "ity", RE.bow], [RT.s "opportunity"]),
  (cat [RE.bow, li "activ", s0, li "ity", RE.bow], [RT.s "activity"]),
  (cat [RE.bow, li "qual", s0, li "ity", RE.bow], [RT.s "quality"]),
  (cat [RE.bow, li "quant", s0, li "ity", RE.bow], [RT.s "quantity"]),
  (cat [RE.bow, li "abil", s0, li "ity", RE.bow], [RT.s "ability"]),
  (cat [RE.bow, li "secur", s0, li "ity", RE.bow], [RT.s "security"]),
  (cat [RE.bow, li "author", s0, li "ity", RE.bow], [RT.s "authority"]),
  (cat [RE.bow, li "commun", s0, li "ity", RE.bow], [RT.s "community"]),
  (cat [RE.bow, li "person", s0, li "ality", RE.bow], [RT.s "personality"]),
  (cat [RE.bow, li "flex", s0, li "ibility", RE.bow], [RT.s "flexibility"]),
  (cat [RE.bow, li "basic", s0, li "ally", RE.bow], [RT.s "basically"]),
  (cat [RE.bow, li "essential", s0, li "ly", RE.bow], [RT.s "essentially"]),
  (cat [RE.bow, li "profession", s0, li "ally", RE.bow], [RT.s "professionally"]),
  (cat [RE.bow, li "person", s0, li "ally", RE.bow], [RT.s "personally"]),
  (cat [RE.bow, li "financi", s0, li "ally", RE.bow], [RT.s "financially"]),
  (cat [RE.bow, li "typic", s0, li "ally", RE.bow], [RT.s "typically"]),
  (cat [RE.bow, li "specific", s0, li "ally", RE.bow], [RT.s "specifically"]),
  (cat [RE.bow, li "electric", s0, li "ally", RE.bow], [RT.s "electrically"]),
  (cat [RE.bow, li "youwill", RE.bow], [RT.s "you will"]),
  (cat [RE.bow, li "youcan", RE.bow], [RT.s "you can"]),
  (cat [RE.bow, li "youmay", RE.bow], [RT.s "you may"]),
  (cat [RE.bow, li "youmight", RE.bow], [RT.s "you might"]),
  (cat [RE.bow, li "youshould", RE.bow], [RT.s "you should"]),
  (cat [RE.bow, li "youwould", RE.bow], [RT.s "you would"]),
  (cat [RE.bow, li "youcould", RE.bow], [RT.s "you could"]),
  (cat [RE.bow, li "youhave", RE.bow], [RT.s "you have"]),
  (cat [RE.bow, li "youare", RE.bow], [RT.s "you are"]),
  (cat [RE.bow, li "theywill", RE.bow], [RT.s "they will"]),
  (cat [RE.bow, li "theycan", RE.bow], [RT.s "they can"]),
  (cat [RE.bow, li "theymay", RE.bow], [RT.s "they may"]),
  (cat [RE.bow, li "theyhave", RE.bow], [RT.s "they have"]),
  (cat [RE.bow, li "theyare", RE.bow], [RT.s "they are"]),
  (cat [RE.bow, li "wewill", RE.bow], [RT.s "we will"]),
  (cat [RE.bow, li "wecan", RE.bow], [RT.s "we can"]),
  (cat [RE.bow, li "wemay", RE.bow], [RT.s "we may"]),
  (cat [RE.bow, li "wehave", RE.bow], [RT.s "we have"]),
  (cat [RE.bow, li "weare", RE.bow], [RT.s "we are"]),
  (cat [RE.bow, li "itwill", RE.bow], [RT.s "it will"]),
  (cat [RE.bow, li "itcan", RE.bow], [RT.s "it can"]),
  (cat [RE.bow, li "itmay", RE.bow], [RT.s "it may"]),
  (cat [RE.bow, li "itis", RE.bow], [RT.s "it is"]),
  (cat [RE.bow, li "itwas", RE.bow], [RT.s "it was"]),
  (cat [RE.bow, li "preventrisk", RE.bow], [RT.s "prevent risk"]),
  (cat [RE.grp 1 (RE.cls CC.word), li "-", s1, RE.grp 2 (RE.cls CC.word)], [RT.g 1, RT.s "-", RT.g 2])]

/-- One `COMMON_FIXES` pass (`re.sub` with `preserve_case`, IGNORECASE). -/
def applyCommon (t : Str) (e : RE × String) : Str :=
  pySub true e.1 (preserve_case e.2) t

/-- One `ADDITIONAL_FIXES` pass (template `re.sub`, IGNORECASE). -/
def applyAdditional (t : Str) (e : RE × List RT) : Str :=
  pySubT true e.1 e.2 t

/-- `(SOURCE|Rationale|Answer|Note)` as capture group 1. -/
def labelAlt : RE :=
  RE.grp 1 (RE.alt (li "SOURCE")
    (RE.alt (li "Rationale") (RE.alt (li "Answer") (li "Note"))))

/-- `\b(SOURCE|Rationale|Answer|Note):([^\s])` -/
def reLabelColon : RE :=
  cat [RE.bow, labelAlt, li ":", RE.grp 2 (RE.cls CC.notSpace)]

/-- `\bSOURC\s*E\b` -/
def reSourcE : RE := cat [RE.bow, li "SOURC", s0, li "E", RE.bow]

/-- `\bSOURCE\s+:\s*` -/
def reSourceColon : RE := cat [RE.bow, li "SOURCE", s1, li ":", s0]

/-- `(\w)\s+-(\w)` -/
def reHyph1 : RE :=
  cat [RE.grp 1 (RE.cls CC.word), s1, li "-", RE.grp 2 (RE.cls CC.word)]

/-- `(\w)-\s+(\w)` -/
def reHyph2 : RE :=
  cat [RE.grp 1 (RE.cls CC.word), li "-", s1, RE.grp 2 (RE.cls CC.word)]

/-- `(\w)\s+-\s+(\w)` -/
def reHyph3 : RE :=
  cat [RE.grp 1 (RE.cls CC.word), s1, li "-", s1, RE.grp 2 (RE.cls CC.word)]

/-- `(\w),(\w)` -/
def reComma : RE :=
  cat [RE.grp 1 (RE.cls CC.word), li ",", RE.grp 2 (RE.cls CC.word)]

/-- `\s+([.,;:!?])` -/
def reSpacePunct : RE :=
  cat [s1, RE.grp 1 (RE.cls (CC.set ['.', ',', ';', ':', '!', '?']))]

/-- `([.!?])([A-Z])` -/
def reSentCap : RE :=
  cat [RE.grp 1 (RE.cls (CC.set ['.', '!', '?'])), RE.grp 2 (RE.cls CC.upper)]

/-- `\s{2,}` -/
def reMultiSpace : RE := RE.rep CC.space 2 none

/-- `(\w+)'X([a-z])` for a contraction tail `X`, e.g. `(\w+)'s([a-z])`. -/
def contrRE (sfx : String) : RE :=
  cat [RE.grp 1 (RE.rep CC.word 1 none), RE.cls (CC.lit apos), li sfx,
    RE.grp 2 (RE.cls CC.lower)]

/-- One contraction-spacing pass: substitute with template `\1'X \2`. -/
def contrFix (sfx : String) (t : Str) : Str :=
  pySub false (contrRE sfx)
    (fun _ caps =>
      capGet caps 1 ++ [apos] ++ (str sfx) ++ (str " ") ++ capGet caps 2) t

/-- `\b(SOURCE|Rationale|Answer|Note):\s*([a-z])` -/
def reCapAfterLabel : RE :=
  cat [RE.bow, labelAlt, li ":", s0, RE.grp 2 (RE.cls CC.lower)]

/-- `cap_after_label` from `app.py`: `group(1) + ": " + group(2).upper()`. -/
def cap_after_label : Repl := fun _ caps =>
  capGet caps 1 ++ (str ": ") ++ pyUpper (capGet caps 2)

/-- `valid_short` from `app.py`: short words the generic merge must not
absorb. -/
def valid_short : List Str :=
  [str "a", str "i", str "am", str "an", str "as", str "at", str "be",
   str "by", str "do", str "go", str "he", str "if", str "in", str "is",
   str "it", str "me", str "my", str "no", str "of", str "on", str "or",
   str "so", str "to", str "up", str "us", str "we", str "a.", str "b.",
   str "c.", str "d.", str "e.", str "re", str "vs", str "ok", str "ex"]

/-- `merge_prefix_careful` from `app.py` (the name here drops the word
between "merge" and "careful"): keep the match unchanged when the short
head token is a valid short word, otherwise join the two tokens. -/
def merge_pre_careful : Repl := fun m caps =>
  let p := capGet caps 1
  if valid_short.contains (pyLower p) then m else p ++ capGet caps 2

/-- Single-character tails the suffix merge may attach. -/
def mergeEndings : List Str :=
  [str "s", str "d", str "r", str "n", str "t", str "l", str "e",
   str "h", str "k", str "p", str "g", str "m"]

/-- `merge_suffix_careful` from `app.py`. -/
def merge_suffix_careful : Repl := fun m caps =>
  let w := capGet caps 1
  let s := capGet caps 2
  if valid_short.contains (pyLower s) then m
  else if [str "A", str "B", str "C", str "D", str "E"].contains s then m
  else if s.length = 1 && !(mergeEndings.contains (pyLower s)) then m
  else w ++ s

/-- `(?<!')\b([a-zA-Z]{1,2})\s+([a-zA-Z]{3,})\b` -/
def reMergePre : RE :=
  cat [RE.nlbA, RE.bow, RE.grp 1 (RE.rep CC.letter 1 (some 2)), s1,
    RE.grp 2 (RE.rep CC.letter 3 none), RE.bow]

/-- `\b([a-zA-Z]{2,})\s+([a-zA-Z]{1,2})\b` -/
def reMergeSuf : RE :=
  cat [RE.bow, RE.grp 1 (RE.rep CC.letter 2 none), s1,
    RE.grp 2 (RE.rep CC.letter 1 (some 2)), RE.bow]

/-- `real_the_words` from `app.py`: words genuinely ending in "the". -/
def real_the_words : List Str :=
  [str "breathe", str "loathe", str "clothe", str "soothe", str "bathe",
   str "tithe", str "scythe", str "writhe", str "blithe"]

/-- `\b[a-zA-Z]{4,}the\b` -/
def reWordThe : RE := cat [RE.bow, RE.rep CC.letter 4 none, li "the", RE.bow]

/-- `split_wordthe` from `app.py`: split a run-on `<base>the` token unless
the whole word legitimately ends in "the" or the base is too short. -/
def split_wordthe : Repl := fun m _ =>
  if real_the_words.contains (pyLower m) then m
  else
    let base := m.take (m.length - 3)
    if base.length ≥ 2 then base ++ (str " the") else m

/-- `SOURCE:\s*Http` -/
def reSrcHttp : RE := cat [li "SOURCE:", s0, li "Http"]

/-- `Note:\s*this` -/
def reNoteThis : RE := cat [li "Note:", s0, li "this"]

/-- `_fix_broken_words` from `app.py`: the ordered cascade of
pattern-substitution passes, numbered as in the source. -/
def _fix_broken_words (text : Str) : Str :=
  if text = [] then [] else
  -- label spacing pre-fixes (template sub, IGNORECASE)
  let text := pySubT true reLabelColon [RT.g 1, RT.s ": ", RT.g 2] text
  let text := pySub false reSourcE (constR "SOURCE") text
  let text := pySub false reSourceColon (constR "SOURCE: ") text
  -- 1. COMMON_FIXES (IGNORECASE, preserve_case as replacement function)
  let text := COMMON_FIXES.foldl applyCommon text
  -- 2. hyphenation
  let text := pySubT false reHyph1 [RT.g 1, RT.s "-", RT.g 2] text
  let text := pySubT false reHyph2 [RT.g 1, RT.s "-", RT.g 2] text
  let text := pySubT false reHyph3 [RT.g 1, RT.s "-", RT.g 2] text
  -- 3. punctuation spacing
  let text := pySubT false reComma [RT.g 1, RT.s ", ", RT.g 2] text
  let text := pySubT false reSpacePunct [RT.g 1] text
  let text := pySubT false reSentCap [RT.g 1, RT.s " ", RT.g 2] text
  -- 4. multiple spaces
  let text := pySub false reMultiSpace (constR " ") text
  -- 4.5 possessive/contraction spacing, with the forced capitalisation
  -- after labels interleaved exactly where the source has it
  let text := contrFix "s" text
  let text := pySub true reCapAfterLabel cap_after_label text
  let text := contrFix "t" text
  let text := contrFix "ve" text
  let text := contrFix "re" text
  let text := contrFix "ll" text
  let text := contrFix "d" text
  -- 4.6 ADDITIONAL_FIXES (IGNORECASE, template replacement)
  let text := ADDITIONAL_FIXES.foldl applyAdditional text
  -- 5. generic split-word merges
  let text := pySub false reMergePre merge_pre_careful text
  let text := pySub false reMergeSuf merge_suffix_careful text
  -- 6. run-on "the" fallback (IGNORECASE)
  let text := pySub true reWordThe split_wordthe text
  -- 7. final cleanup
  let text := pySub false reMultiSpace (constR " ") text
  let text := pySub false reSrcHttp (constR "SOURCE: http") text
  let text := pySub true reNoteThis (constR "Note: This") text
  pyStrip text

/-! ### `_normalize_whitespace` -/

/-- `([a-z])([A-Z])` -/
def reLcUc : RE := cat [RE.grp 1 (RE.cls CC.lower), RE.grp 2 (RE.cls CC.upper)]

/-- `\b(SOURC)\s+(E)\b` -/
def reSourcE2 : RE :=
  cat [RE.bow, RE.grp 1 (li "SOURC"), s1, RE.grp 2 (li "E"), RE.bow]

/-- `\b(\w+)\s+(ment|tion|ing|able|ible|ness)\b` -/
def reSuffixJoin : RE :=
  cat [RE.bow, RE.grp 1 (RE.rep CC.word 1 none), s1,
    RE.grp 2 (RE.alt (li "ment") (RE.alt (li "tion") (RE.alt (li "ing")
      (RE.alt (li "able") (RE.alt (li "ible") (li "ness")))))), RE.bow]

/-- `\s+` -/
def reWsRun : RE := RE.rep CC.space 1 none

/-- `_normalize_whitespace` from `app.py` (the `isinstance` guard is
vacuous here: every value of `Str` is a string). -/
def _normalize_whitespace (text : Str) : Str :=
  let text := pySubT false reLcUc [RT.g 1, RT.s " ", RT.g 2] text
  let text := pyReplace text (str "SOURC E") (str "SOURCE")
  let text := pySub false reSourcE2 (constR "SOURCE") text
  let text := pySubT false reSuffixJoin [RT.g 1, RT.g 2] text
  pyStrip (pySub false reWsRun (constR " ") text)

/-! ### `_looks_like_header_line` -/

/-- `^\s*[A-E]\s*[).:\-]` -/
def reOptLine : RE :=
  cat [s0, RE.cls CC.upperAE, s0, RE.cls (CC.set [')', '.', ':', '-'])]

/-- The fixed structural header/footer patterns, each paired with the
way the source applies it (`(?i)` inline flag, `^`/`$` anchors). -/
def headerPatHit (text : Str) : Bool :=
  pySearch true (cat [RE.bow, li "cluster", RE.bow]) text ||
  pySearch true (cat [RE.bow, li "career", s1, li "cluster", RE.bow]) text ||
  pySearch true (cat [RE.bow, li "test", s0,
    RE.grp 1 (RE.alt (li "number") (li "#")), RE.bow]) text ||
  pySearch true (cat [RE.bow, li "deca", RE.bow]) text ||
  pySearch true (cat [RE.bow, li "exam", RE.bow]) text ||
  (pyMatch true (cat [li "page", s1, RE.rep CC.digit 1 none]) text).isSome ||
  (pyMatch false (cat [RE.rep CC.digit 1 none, s0,
    RE.grp 1 (RE.alt (li "of") (li "/")), s0, RE.rep CC.digit 1 none,
    RE.eos]) text).isSome ||
  pySearch true (cat [li "copyright", s0, li "©"]) text ||
  pySearch true (cat [li "copyright", s0, RE.rep CC.digit 4 (some 4)]) text ||
  (pyMatch false (cat [RE.rep CC.upper 3 (some 4), s1, li "-", s1,
    RE.cls CC.upper]) text).isSome

/-- `[A-Z0-9\-]+` for the all-caps token test. -/
def reUpperTok : RE := RE.rep CC.upperNumDash 1 none

/-- `_looks_like_header_line` from `app.py`. -/
def _looks_like_header_line (text : Str) : Bool :=
  if (pyMatch false reOptLine text).isSome then false
  else if headerPatHit text then true
  else
    let tokens := pySplitWs text
    if tokens.length ≥ 3 &&
        tokens.all (fun tok => pyIsUpper tok || pyFullMatch false reUpperTok tok) then
      if hasSub (str "WHICH") (pyUpper text) || hasSub (str "WHAT") (pyUpper text)
      then false else true
    else false

/-! ### `_parse_answer_key` -/

/-- Binary digit count, by fuel (`fuel ≥ x` suffices, the recursion
halves `x` each step). -/
def bitLenGo : Nat → Nat → Nat
  | 0, _ => 0
  | fuel + 1, x => if x = 0 then 0 else bitLenGo fuel (x / 2) + 1

/-- The number of binary digits of `x` (Python `x.bit_length()`). -/
def bitLen (x : Nat) : Nat := bitLenGo x x

/-- `int(n * c)` where `c` is the IEEE-754 double of value `num / 2 ^ sh`:
the exact product is rounded to 53 significant bits (nearest, ties to
even) and truncated, matching CPython float semantics for the
nonnegative values involved. -/
def pyIntMulFloat (n num sh : Nat) : Nat :=
  let x := n * num
  if x = 0 then 0
  else
    let bl := bitLen x
    let drop := bl - 53
    let m := x / 2 ^ drop
    let rem := x % 2 ^ drop
    let m2 := if 2 * rem > 2 ^ drop || (2 * rem = 2 ^ drop && m % 2 = 1)
              then m + 1 else m
    (m2 * 2 ^ drop) / 2 ^ sh

/-- `int(n * 0.1)` (0.1 is the double `3602879701896397 / 2 ^ 55`). -/
def pyInt01 (n : Nat) : Nat := pyIntMulFloat n 3602879701896397 55

/-- `int(n * 0.8)` (0.8 is the double `3602879701896397 / 2 ^ 52`). -/
def pyInt08 (n : Nat) : Nat := pyIntMulFloat n 3602879701896397 52

/-- An answer key entry: `{"letter": ..., "explanation": ...}`. -/
structure AnswerEntry where
  letter : Str
  explanation : Str
  deriving DecidableEq, Repr

/-- Python `dict` assignment `d[k] = v`: overwrite in place or append. -/
def dictSet (d : List (Int × AnswerEntry)) (k : Int) (v : AnswerEntry) :
    List (Int × AnswerEntry) :=
  match d with
  | [] => [(k, v)]
  | (k2, v2) :: rest =>
      if k2 = k then (k, v) :: rest else (k2, v2) :: dictSet rest k v

/-- Python `d.get(k)`. -/
def dictGet (d : List (Int × AnswerEntry)) (k : Int) : Option AnswerEntry :=
  (d.find? (fun p => p.1 = k)).map (·.2)

/-- Index of the last line satisfying `p` (the source scans
`range(len(lines)-1, -1, -1)` and keeps the first hit). -/
def lastIdxWhere (p : Str → Bool) (lines : List Str) : Option Nat :=
  ((List.range lines.length).filter (fun i => p (lines.getD i []))).getLast?

/-- `answer\s*(key|section)` -/
def reAnswerHeader : RE :=
  cat [li "answer", s0, RE.grp 1 (RE.alt (li "key") (li "section"))]

/-- `^\s*(\d{1,3})\s*[:.-]?\s*([A-E])\b` (the locator's `pat_num`). -/
def patNum : RE :=
  cat [s0, RE.grp 1 (RE.rep CC.digit 1 (some 3)), s0,
    copt (CC.set [':', '.', '-']), s0, RE.grp 2 (RE.cls CC.upperAE), RE.bow]

/-- The inner confirmation scan of the sequence detector: from line
`i + 1` up to `min(i + 100, len)` (the bound `look_ahead_range *
cur_next` is evaluated once, with `cur_next = 2`), look for the numbers
2 and 3 in order. -/
def seqConfirmGo (lines : List Str) (stop : Nat) : Nat → Nat → Nat → Bool
  | 0, _, _ => false
  | fuel + 1, j, cur =>
    if j ≥ stop then false
    else
      match pyMatch true patNum (lines.getD j []) with
      | some res =>
          if strToNat (capGet res.2.2 1) = cur then
            if cur + 1 > 3 then true
            else seqConfirmGo lines stop fuel (j + 1) (cur + 1)
          else seqConfirmGo lines stop fuel (j + 1) cur
      | none => seqConfirmGo lines stop fuel (j + 1) cur

def seqConfirm (lines : List Str) (i : Nat) : Bool :=
  let stop := min (i + 100) lines.length
  seqConfirmGo lines stop (lines.length + 1) (i + 1) 2

/-- The header-less fallback: scan from 10% into the document for a
`1 <sep> <letter>` line confirmed by a following 2 and 3. -/
def seqDetect (lines : List Str) : Option Nat :=
  let start := pyInt01 lines.length
  ((List.range lines.length).filter (fun i => i ≥ start)).find? (fun i =>
    match pyMatch true patNum (lines.getD i []) with
    | some res => strToNat (capGet res.2.2 1) = 1 && seqConfirm lines i
    | none => false)

/-- `^\s*(\d{1,3})\s*[:.-]?\s*([A-E])\b\s*(.*)` (the extraction pattern;
compiled with `IGNORECASE`, and `pattern.search` on a `^`-anchored
pattern without `MULTILINE` is a match at the start). -/
def ansPattern : RE :=
  cat [s0, RE.grp 1 (RE.rep CC.digit 1 (some 3)), s0,
    copt (CC.set [':', '.', '-']), s0, RE.grp 2 (RE.cls CC.upperAE),
    RE.bow, s0, RE.grp 3 (RE.rep CC.any 0 none)]

/-- The inner explanation loop: append following lines until one matches
the answer pattern or looks like a header.  Returns the accumulated
explanation and the index it stopped at. -/
def ansExplGo (lines : List Str) : Nat → Nat → Str → (Str × Nat)
  | 0, i, expl => (expl, i)
  | fuel + 1, i, expl =>
    if i ≥ lines.length then (expl, i)
    else
      let next := lines.getD i []
      if (pyMatch true ansPattern next).isSome || _looks_like_header_line next
      then (expl, i)
      else ansExplGo lines fuel (i + 1)
        (expl ++ (str " ") ++ _fix_broken_words (pyStrip next))

/-- The main extraction loop of `_parse_answer_key`. -/
def ansLoop (lines : List Str) :
    Nat → Nat → List (Int × AnswerEntry) → List (Int × AnswerEntry)
  | 0, _, answers => answers
  | fuel + 1, i, answers =>
    if i ≥ lines.length then answers
    else
      let line := lines.getD i []
      if _looks_like_header_line line || hasSub (str "answer key") (pyLower line)
      then ansLoop lines fuel (i + 1) answers
      else
        match pyMatch true ansPattern line with
        | some res =>
            let caps := res.2.2
            let num : Int := (strToNat (capGet caps 1) : Nat)
            let letter := pyUpper (capGet caps 2)
            let expl0 := pyStrip (capGet caps 3)
            let r2 := ansExplGo lines (lines.length + 1) (i + 1) expl0
            let answers :=
              if 1 ≤ num ∧ num ≤ 100 then
                dictSet answers num ⟨letter, _fix_broken_words r2.1⟩
              else answers
            ansLoop lines fuel r2.2 answers
        | none => ansLoop lines fuel (i + 1) answers

/-- `_parse_answer_key` from `app.py`: locate the key section (explicit
header, standalone "KEY", confirmed numbered sequence, or the 80%%
fallback) and extract `number -> (letter, explanation)`. -/
def _parse_answer_key (lines : List Str) : List (Int × AnswerEntry) :=
  let headerIdx := lastIdxWhere (fun l => pySearch true reAnswerHeader l) lines
  let keyIdx :=
    match headerIdx with
    | some i => some i
    | none => lastIdxWhere (fun l => pyUpper (pyStrip l) = str "KEY") lines
  let startIdx :=
    match keyIdx with
    | some i => i
    | none =>
        match seqDetect lines with
        | some i => i
        | none => max 0 (pyInt08 lines.length)
  ansLoop lines (lines.length + 1) startIdx []

/-! ### `_smart_parse_questions` -/

/-- One labelled option inside a question accumulator.  Python keeps the
label as a one-character string; comparisons of one-character strings
coincide with character comparisons, so the label is a `Char` here. -/
structure OptItem where
  label : Char
  text : Str
  deriving DecidableEq, Repr

/-- The mutable question accumulator (`current_q`). -/
structure QBlock where
  number : Int
  prompt : Str
  options : List OptItem
  deriving DecidableEq, Repr

/-- A final question record. -/
structure Question where
  id : Str
  number : Int
  question : Str
  options : List Str
  correct_index : Int
  correct_letter : Str
  explanation : Str
  deriving DecidableEq, Repr

/-- `^(\d{1,3})\s*[).:\-]\s+(.*)` -/
def q_start_re : RE :=
  cat [RE.grp 1 (RE.rep CC.digit 1 (some 3)), s0,
    RE.cls (CC.set [')', '.', ':', '-']), s1, RE.grp 2 (RE.rep CC.any 0 none)]

/-- `(?:[).:\-]|\))`, the option separator. -/
def optSep : RE :=
  RE.alt (RE.cls (CC.set [')', '.', ':', '-'])) (RE.cls (CC.lit ')'))

/-- `^\s*\(?([A-E])(?:[).:\-]|\))\s*(.*)` -/
def opt_start_re : RE :=
  cat [s0, copt (CC.lit '('), RE.grp 1 (RE.cls CC.upperAE), optSep, s0,
    RE.grp 2 (RE.rep CC.any 0 none)]

/-- `(?:\s{2,}|\s+)\(?([A-E])(?:[).:\-]|\))\s*` -/
def inline_opt_re : RE :=
  cat [RE.alt (RE.rep CC.space 2 none) (RE.rep CC.space 1 none),
    copt (CC.lit '('), RE.grp 1 (RE.cls CC.upperAE), optSep, s0]

/-- `^(\d{1,3})\s*[).:\-]\s*([A-E])\s*$` -/
def answer_key_entry_re : RE :=
  cat [RE.grp 1 (RE.rep CC.digit 1 (some 3)), s0,
    RE.cls (CC.set [')', '.', ':', '-']), s0, RE.grp 2 (RE.cls CC.upperAE),
    s0, RE.eos]

/-- `^[A-E]$` -/
def reSingleAE : RE := cat [RE.cls CC.upperAE, RE.eos]

/-- The loop state of the question/option scanner: finalized blocks (in
order), the open accumulator, and `last_q_num`. -/
structure SPState where
  questions : List QBlock
  current : Option QBlock
  lastq : Int
  deriving DecidableEq, Repr

/-- `finalize_current` from `app.py`: word-repair and normalize the open
accumulator and push it onto the list. -/
def finalizeSt (st : SPState) : SPState :=
  match st.current with
  | none => st
  | some q =>
      let prompt := _fix_broken_words (_normalize_whitespace q.prompt)
      let opts := q.options.map (fun o =>
        ⟨o.label, _fix_broken_words (_normalize_whitespace o.text)⟩)
      { questions := st.questions ++ [⟨q.number, prompt, opts⟩],
        current := none, lastq := q.number }

/-- The first capture of a match result as an uppercased character
(`m.group(1).upper()` for the one-character `[A-E]` group). -/
def capChar1 (caps : Caps) : Char :=
  match pyUpper (capGet caps 1) with
  | c :: _ => c
  | [] => 'A'

/-- The repeated-label-`A` handling of the option branch: a second `A`
on the open accumulator means a missed question boundary, so finalize
and open a successor block with a placeholder prompt. -/
def spRepeatA (label : Char) (st : SPState) : SPState :=
  match st.current with
  | some cur =>
      if label = 'A' ∧ cur.options.any (fun o => o.label = 'A') then
        let st2 := finalizeSt st
        { st2 with current := some (QBlock.mk (cur.number + 1)
            (str "[Prompt text missing/merged]") []) }
      else st
  | none => st

/-- The no-open-question handling of the option branch: open an inferred
block for label `A`, reopen the previous block for a later label when it
extends it, and otherwise drop the line (`none`). -/
def spOpen (label : Char) (st : SPState) : Option SPState :=
  match st.current with
  | some _ => some st
  | none =>
      if label = 'A' then
        let inferred : Int := if st.lastq > 0 then st.lastq + 1 else 1
        some { st with current := some (QBlock.mk inferred
          (str "[Prompt text missing/merged]") []) }
      else
        match st.questions.getLast? with
        | some lastQ =>
            if lastQ.options ≠ [] ∧
               ((lastQ.options.getLast?).map (·.label)).getD 'A' < label
            then
              some { questions := st.questions.dropLast,
                     current := some lastQ,
                     lastq := lastQ.number - 1 }
            else none
        | none => none

/-- Append the matched option to the accumulator, then split any further
inline label markers found in its text into separate options. -/
def spAttach (label : Char) (text : Str) (cur : QBlock) : QBlock :=
  let cur := { cur with options := cur.options ++ [⟨label, text⟩] }
  let found := pyFindIter false inline_opt_re text
  match found with
  | [] => cur
  | m0 :: _ =>
      let firstTxt := pyStrip (pySlice text 0 m0.1)
      let opts := cur.options.dropLast ++ [⟨label, firstTxt⟩]
      let extra := (List.range found.length).map (fun j =>
        let m := found.getD j (0, 0, [])
        let lbl := capChar1 m.2.2
        let endC :=
          match found.getD (j + 1) (0, 0, []) with
          | (st2, _, _) =>
              if j + 1 < found.length then st2 else text.length
        ⟨lbl, pyStrip (pySlice text m.2.1 endC)⟩)
      { cur with options := opts ++ extra }

/-- The per-line transition of the scanner, processing one line with the
unconsumed rest of the document available for look-ahead and option-body
borrowing.  Returns the new state and the (possibly shortened) rest, or
`none` when the loop breaks. -/
def spStep (line : Str) (rest : List Str) (st : SPState) :
    Option (SPState × List Str) :=
  -- stop at an explicit answer key header
  if pyLower (pyStrip line) = str "answer key" then none
  else
  -- stop when several consecutive lines look like bare answer key
  -- entries and the test is already far along
  let stopKey :=
    match pyMatch true answer_key_entry_re line with
    | some _ =>
        ((rest.take 3).all (fun l =>
          (pyMatch true answer_key_entry_re l).isSome || pyStrip l = [])) &&
        st.lastq ≥ 50
    | none => false
  if stopKey then none
  else
  match pyMatch false q_start_re line with
  | some res =>
      let caps := res.2.2
      let num : Int := (strToNat (capGet caps 1) : Nat)
      -- the source tests `1 <= num <= 100` here but the branch only
      -- `pass`es: out-of-range numbers open a question all the same
      let text := pyStrip (capGet caps 2)
      if (pyMatch true reSingleAE text).isSome then some (st, rest)
      else
        let st := finalizeSt st
        some ({ st with current := some ⟨num, text, []⟩ }, rest)
  | none =>
  match pyMatch false opt_start_re line with
  | some res =>
      let caps := res.2.2
      let label := capChar1 caps
      let text0 := capGet caps 2
      -- borrow the next line as the option body when the text is empty
      let borrowed :=
        if pyStrip text0 = [] ∧ rest ≠ [] then
          let next := rest.headD []
          if (pyMatch false opt_start_re next).isNone ∧
             (pyMatch false q_start_re next).isNone then
            some next
          else none
        else none
      let text := match borrowed with | some n => n | none => text0
      let rest := match borrowed with | some _ => rest.tail | none => rest
      let st := spRepeatA label st
      match spOpen label st with
      | none => some (st, rest)    -- drop the line: not enough signal
      | some st =>
        match st.current with
        | none => some (st, rest)  -- unreachable
        | some cur =>
          some ({ st with current := some (spAttach label text cur) }, rest)
  | none =>
      -- continuation line
      match st.current with
      | some cur =>
          let cur :=
            match cur.options.getLast? with
            | some lastO =>
                { cur with options := cur.options.dropLast ++
                    [⟨lastO.label, lastO.text ++ (str " ") ++ line⟩] }
            | none => { cur with prompt := cur.prompt ++ (str " ") ++ line }
          some ({ st with current := some cur }, rest)
      | none => some (st, rest)

/-- The scanning loop of `_smart_parse_questions`. -/
def spLoop : Nat → List Str → SPState → SPState
  | 0, _, st => st
  | _, [], st => st
  | fuel + 1, line :: rest, st =>
      match spStep line rest st with
      | none => st
      | some (st2, rest2) => spLoop fuel rest2 st2

/-- Stable insertion sort (Python `list.sort` is stable): `stableSort`
inserts elements right to left, so placing an element before the first
element that is ≥ it keeps equal elements in their original order. -/
def insSorted {α : Type} (leB : α → α → Bool) (x : α) :
    List α → List α
  | [] => [x]
  | y :: ys => if leB x y then x :: y :: ys
               else y :: insSorted leB x ys

def stableSort {α : Type} (leB : α → α → Bool) (l : List α) : List α :=
  l.foldr (insSorted leB) []

def expected_labels : List Char := ['A', 'B', 'C', 'D']

/-- The option-count canonicalisation of the final loop: sort the
options by label, compute the target count `max(4, highest label index
+ 1)` and fill label gaps with the placeholder sentinel (a question with
no options at all gets four `"[Option missing]"` entries). -/
def buildOpts (opts0 : List OptItem) : List Str :=
  let opts := stableSort (fun a b => a.label ≤ b.label) opts0
  let labels := opts.map (·.label)
  if labels ≠ [] then
    let maxIdx := labels.foldl (fun m l =>
      if expected_labels.contains l then max m (expected_labels.indexOf l)
      else if l = 'E' then max m 4 else m) 3
    let target := max 4 (maxIdx + 1)
    -- valid_src_options: a dict keyed by label (last occurrence wins)
    (List.range target).map (fun i =>
      let lbl := if i < expected_labels.length
                 then expected_labels.getD i 'A'
                 else Char.ofNat (65 + i)
      match opts.reverse.find? (fun o => o.label = lbl) with
      | some o => o.text
      | none => str "[Option missing from PDF]")
  else (List.range 4).map (fun _ => str "[Option missing]")

/-- The per-question body of the final loop of `_smart_parse_questions`:
canonicalise the options and join with the answer entry. -/
def buildFinal (answers : List (Int × AnswerEntry)) (q0 : QBlock) :
    Question :=
  let final_opt_list := buildOpts q0.options
  let ansData := dictGet answers q0.number
  let ansLetter : Option Str := ansData.map (·.letter)
  let explanation := ((ansData.map (·.explanation)).getD [])
  let correct_idx : Int :=
    match ansLetter with
    | some l =>
        if l ≠ [] ∧ l.length = 1 ∧ 'A' ≤ l.headD 'A' ∧ l.headD 'A' ≤ 'E'
        then ((l.headD 'A').toNat : Int) - 65
        else -1
    | none => -1
  { id := (str "q-") ++ intToStr q0.number,
    number := q0.number,
    question := q0.prompt,
    options := final_opt_list,
    correct_index := correct_idx,
    correct_letter :=
      match ansLetter with
      | some l => if l ≠ [] then l else str "?"
      | none => str "?",
    explanation :=
      if explanation ≠ [] then explanation
      else str "No explanation available (Parse failed)" }

/-- The final loop: deduplicate by number (first occurrence wins) and
assemble each block. -/
def assembleLoop (answers : List (Int × AnswerEntry)) :
    List QBlock → List Int → List Question
  | [], _ => []
  | q :: rest, seen =>
      if seen.contains q.number then assembleLoop answers rest seen
      else buildFinal answers q :: assembleLoop answers rest (q.number :: seen)

/-- `_smart_parse_questions` from `app.py`. -/
def _smart_parse_questions (lines : List Str)
    (answers : List (Int × AnswerEntry)) : List Question :=
  let st := spLoop (lines.length + 1) lines ⟨[], none, 0⟩
  let st := finalizeSt st
  assembleLoop answers st.questions []

/-! ### `_parse_pdf_source` -/

/-- `[^a-z0-9]+` -/
def reNonIdRun : RE := RE.rep CC.notLowerDigit 1 none

/-- `re.sub(r"[^a-z0-9]+", "-", name_hint.lower()).strip("-")` -/
def sanitizeId (name_hint : Str) : Str :=
  pyStripChars ['-'] (pySub false reNonIdRun (constR "-") (pyLower name_hint))

/-- The final `Test` dictionary. -/
structure TestObj where
  id : Str
  name : Str
  description : Str
  questions : List Question
  question_count : Nat
  deriving DecidableEq, Repr

/-- `_parse_pdf_source` from `app.py`.  The call to
`_extract_clean_lines` (PDF text extraction, outside this development)
is the value of `extracted`; a raised extraction exception is the
`Except.error` case, which the source's `except` handler turns into an
empty dict `{}` — modelled as `none`.  The random component
`uuid.uuid4().hex[:8]` is the parameter `uuidHex8`. -/
def _parse_pdf_source (extracted : Except Unit (List Str))
    (name_hint : Str) (uuidHex8 : Str) : Option TestObj :=
  match extracted with
  | .error _ => none
  | .ok lines =>
      let answers := _parse_answer_key lines
      let questions := _smart_parse_questions lines answers
      let questions := stableSort (fun a b => a.number ≤ b.number) questions
      let test_id0 := sanitizeId name_hint
      let test_id := if test_id0 = [] then (str "test-") ++ uuidHex8
                     else test_id0
      let questions := questions.map (fun q =>
        { q with id := test_id ++ (str "-q") ++ intToStr q.number })
      some ⟨test_id, name_hint, [], questions, questions.length⟩

/-! ## Lemmas about the matcher's captures -/

/-- Syntactic check: every capture group numbered `i` inside `r` is
exactly the single-character class `cc`. -/
def gok (i : Nat) (cc : CC) : RE → Bool
  | .seq a b => gok i cc a && gok i cc b
  | .alt a b => gok i cc a && gok i cc b
  | .grp j a => (if j = i then decide (a = RE.cls cc) else true) && gok i cc a
  | _ => true

/-- Syntactic check: every successful match of `r` records a capture for
group `i`. -/
def gmust (i : Nat) : RE → Bool
  | .seq a b => gmust i a || gmust i b
  | .alt a b => gmust i a && gmust i b
  | .grp j a => decide (j = i) || gmust i a
  | _ => false

/-- Every capture recorded for group `i` is one character of class `cc`. -/
def CapsInv (ci : Bool) (i : Nat) (cc : CC) (caps : Caps) : Prop :=
  ∀ p ∈ caps, p.1 = i → ∃ ch, p.2 = [ch] ∧ ccMatch ci cc ch = true

/-- Group `i` occurs in the capture list. -/
def HasCap (i : Nat) (caps : Caps) : Prop := ∃ p ∈ caps, p.1 = i

/-- A capture-list predicate closed under recording new captures is an
invariant of the matcher: whatever holds of the initial capture list
holds of the one handed to the continuation. -/
theorem mtch_mono {R : Type} (ci : Bool) (P : Caps → Prop)
    (hP : ∀ x c, P c → P (x :: c)) (r : RE) {res : R} {Q : Prop} :
    ∀ prev suf caps (k : Option Char → Str → Caps → Option R),
      P caps → (∀ p s c, P c → k p s c = some res → Q) →
      mtch ci r prev suf caps k = some res → Q := by
  induction r with
  | eps =>
      intro prev suf caps k hc hk hm
      exact hk _ _ _ hc hm
  | cls c =>
      intro prev suf caps k hc hk hm
      cases suf with
      | nil => simp [mtch] at hm
      | cons x rest =>
          simp only [mtch] at hm
          split at hm
          · exact hk _ _ _ hc hm
          · exact absurd hm (by simp)
  | seq a b iha ihb =>
      intro prev suf caps k hc hk hm
      exact iha _ _ _ _ hc (fun p s c hc2 hm2 => ihb _ _ _ _ hc2 hk hm2) hm
  | alt a b iha ihb =>
      intro prev suf caps k hc hk hm
      simp only [mtch] at hm
      cases hab : mtch ci a prev suf caps k with
      | some v =>
          rw [hab] at hm
          simp only [Option.orElse, Option.some.injEq] at hm
          exact iha _ _ _ _ hc hk (by rw [hab, hm])
      | none =>
          rw [hab] at hm
          simp only [Option.orElse] at hm
          exact ihb _ _ _ _ hc hk hm
  | rep c lo hi =>
      intro prev suf caps k hc hk hm
      simp only [mtch] at hm
      obtain ⟨ps, _, hps⟩ := List.exists_of_findSome?_eq_some hm
      exact hk _ _ _ hc hps
  | grp j a iha =>
      intro prev suf caps k hc hk hm
      simp only [mtch] at hm
      exact iha _ _ _ _ hc
        (fun p s c hc2 hm2 => hk _ _ _ (hP _ _ hc2) hm2) hm
  | bow =>
      intro prev suf caps k hc hk hm
      simp only [mtch] at hm
      split at hm
      · exact hk _ _ _ hc hm
      · exact absurd hm (by simp)
  | bos =>
      intro prev suf caps k hc hk hm
      simp only [mtch] at hm
      split at hm
      · exact hk _ _ _ hc hm
      · exact absurd hm (by simp)
  | eos =>
      intro prev suf caps k hc hk hm
      simp only [mtch] at hm
      split at hm
      · exact hk _ _ _ hc hm
      · exact absurd hm (by simp)
  | nlbA =>
      intro prev suf caps k hc hk hm
      simp only [mtch] at hm
      split at hm
      · exact absurd hm (by simp)
      · exact hk _ _ _ hc hm

/-- Soundness of `gok`: runs of a regex whose group-`i` bodies are all
the class `cc` only record single matching characters for group `i`. -/
theorem mtch_sound {R : Type} (ci : Bool) (i : Nat) (cc : CC) (r : RE)
    {res : R} {Q : Prop} :
    gok i cc r = true →
    ∀ prev suf caps (k : Option Char → Str → Caps → Option R),
      CapsInv ci i cc caps →
      (∀ p s c, CapsInv ci i cc c → k p s c = some res → Q) →
      mtch ci r prev suf caps k = some res → Q := by
  induction r with
  | eps =>
      intro _ prev suf caps k hc hk hm
      exact hk _ _ _ hc hm
  | cls c =>
      intro _ prev suf caps k hc hk hm
      cases suf with
      | nil => simp [mtch] at hm
      | cons x rest =>
          simp only [mtch] at hm
          split at hm
          · exact hk _ _ _ hc hm
          · exact absurd hm (by simp)
  | seq a b iha ihb =>
      intro hr prev suf caps k hc hk hm
      rw [gok, Bool.and_eq_true] at hr
      exact iha hr.1 _ _ _ _ hc
        (fun p s c hc2 hm2 => ihb hr.2 _ _ _ _ hc2 hk hm2) hm
  | alt a b iha ihb =>
      intro hr prev suf caps k hc hk hm
      rw [gok, Bool.and_eq_true] at hr
      simp only [mtch] at hm
      cases hab : mtch ci a prev suf caps k with
      | some v =>
          rw [hab] at hm
          simp only [Option.orElse, Option.some.injEq] at hm
          exact iha hr.1 _ _ _ _ hc hk (by rw [hab, hm])
      | none =>
          rw [hab] at hm
          simp only [Option.orElse] at hm
          exact ihb hr.2 _ _ _ _ hc hk hm
  | rep c lo hi =>
      intro _ prev suf caps k hc hk hm
      simp only [mtch] at hm
      obtain ⟨ps, _, hps⟩ := List.exists_of_findSome?_eq_some hm
      exact hk _ _ _ hc hps
  | grp j a iha =>
      intro hr prev suf caps k hc hk hm
      rw [gok, Bool.and_eq_true] at hr
      simp only [mtch] at hm
      by_cases hji : j = i
      · subst hji
        have hcls : a = RE.cls cc := by
          have := hr.1
          rw [if_pos rfl] at this
          exact of_decide_eq_true this
        subst hcls
        cases suf with
        | nil => simp [mtch] at hm
        | cons x rest =>
            simp only [mtch] at hm
            by_cases hcc : ccMatch ci cc x = true
            · rw [if_pos hcc] at hm
              refine hk _ _ _ ?_ hm
              intro p hp hpi
              rcases List.mem_cons.mp hp with h1 | h2
              · subst h1
                refine ⟨x, ?_, hcc⟩
                simp
              · exact hc p h2 hpi
            · rw [if_neg hcc] at hm
              exact absurd hm (by simp)
      · refine iha hr.2 _ _ _ _ hc ?_ hm
        intro p s c hc2 hm2
        refine hk _ _ _ ?_ hm2
        intro pr hpr hpi
        rcases List.mem_cons.mp hpr with h1 | h2
        · subst h1; exact absurd hpi hji
        · exact hc2 pr h2 hpi
  | bow =>
      intro _ prev suf caps k hc hk hm
      simp only [mtch] at hm
      split at hm
      · exact hk _ _ _ hc hm
      · exact absurd hm (by simp)
  | bos =>
      intro _ prev suf caps k hc hk hm
      simp only [mtch] at hm
      split at hm
      · exact hk _ _ _ hc hm
      · exact absurd hm (by simp)
  | eos =>
      intro _ prev suf caps k hc hk hm
      simp only [mtch] at hm
      split at hm
      · exact hk _ _ _ hc hm
      · exact absurd hm (by simp)
  | nlbA =>
      intro _ prev suf caps k hc hk hm
      simp only [mtch] at hm
      split at hm
      · exact absurd hm (by simp)
      · exact hk _ _ _ hc hm

/-- Completeness of `gmust`: a successful run of a regex with
`gmust i r` records some capture for group `i`. -/
theorem mtch_must {R : Type} (ci : Bool) (i : Nat) (r : RE)
    {res : R} {Q : Prop} :
    gmust i r = true →
    ∀ prev suf caps (k : Option Char → Str → Caps → Option R),
      (∀ p s c, HasCap i c → k p s c = some res → Q) →
      mtch ci r prev suf caps k = some res → Q := by
  have hcons : ∀ (x : Nat × Str) c, HasCap i c → HasCap i (x :: c) := by
    intro x c ⟨p, hp, hpi⟩
    exact ⟨p, List.mem_cons_of_mem _ hp, hpi⟩
  induction r with
  | eps => intro hr; simp [gmust] at hr
  | cls c => intro hr; simp [gmust] at hr
  | seq a b iha ihb =>
      intro hr prev suf caps k hk hm
      rw [gmust, Bool.or_eq_true] at hr
      rcases hr with hr | hr
      · exact iha hr _ _ _ _
          (fun p s c hc2 hm2 =>
            mtch_mono ci (HasCap i) hcons b _ _ _ _ hc2 hk hm2) hm
      · exact mtch_mono ci (fun _ => True) (fun _ _ _ => trivial) a _ _ _ _
          trivial (fun p s c _ hm2 => ihb hr _ _ _ _ hk hm2) hm
  | alt a b iha ihb =>
      intro hr prev suf caps k hk hm
      rw [gmust, Bool.and_eq_true] at hr
      simp only [mtch] at hm
      cases hab : mtch ci a prev suf caps k with
      | some v =>
          rw [hab] at hm
          simp only [Option.orElse, Option.some.injEq] at hm
          exact iha hr.1 _ _ _ _ hk (by rw [hab, hm])
      | none =>
          rw [hab] at hm
          simp only [Option.orElse] at hm
          exact ihb hr.2 _ _ _ _ hk hm
  | rep c lo hi => intro hr; simp [gmust] at hr
  | grp j a iha =>
      intro hr prev suf caps k hk hm
      rw [gmust, Bool.or_eq_true] at hr
      simp only [mtch] at hm
      by_cases hji : j = i
      · subst hji
        exact mtch_mono ci (fun _ => True) (fun _ _ _ => trivial) a _ _ _ _
          trivial
          (fun p s c _ hm2 => hk _ _ _ ⟨_, List.mem_cons_self _ _, rfl⟩ hm2)
          hm
      · have hra : gmust i a = true := by
          rcases hr with h | h
          · exact absurd (of_decide_eq_true h) hji
          · exact h
        exact iha hra _ _ _ _
          (fun p s c hc2 hm2 => hk _ _ _ (hcons _ _ hc2) hm2) hm
  | bow => intro hr; simp [gmust] at hr
  | bos => intro hr; simp [gmust] at hr
  | eos => intro hr; simp [gmust] at hr
  | nlbA => intro hr; simp [gmust] at hr

/-- For a pattern whose group `i` is the class `cc` and always
participates, a successful anchored match captures exactly one matching
character for group `i`. -/
theorem pyMatch_capture (ci : Bool) (i : Nat) (cc : CC) (r : RE)
    (hok : gok i cc r = true) (hmust : gmust i r = true) (s : Str)
    (res : Option Char × Str × Caps) (hm : pyMatch ci r s = some res) :
    ∃ ch, capGet res.2.2 i = [ch] ∧ ccMatch ci cc ch = true := by
  have hinv : CapsInv ci i cc res.2.2 := by
    refine mtch_sound ci i cc r hok none s [] _ ?_ ?_ hm
    · intro p hp _; cases hp
    · intro p s2 c hc hk
      cases hk
      exact hc
  have hhas : HasCap i res.2.2 := by
    refine mtch_must ci i r hmust none s [] _ ?_ hm
    intro p s2 c hc hk
    cases hk
    exact hc
  obtain ⟨pr, hpr, hpi⟩ := hhas
  have hs : (res.2.2.find? (fun p => p.1 = i)).isSome := by
    rw [List.find?_isSome]
    exact ⟨pr, hpr, by simp [hpi]⟩
  obtain ⟨pq, hfind⟩ := Option.isSome_iff_exists.mp hs
  have hmem : pq ∈ res.2.2 := List.mem_of_find?_eq_some hfind
  have hqi : pq.1 = i := by
    have := List.find?_some hfind
    simpa using this
  obtain ⟨ch, hch, hcm⟩ := hinv pq hmem hqi
  refine ⟨ch, ?_, hcm⟩
  simp [capGet, hfind, hch]

/-! ## Character facts -/

theorem char_le_iff (a b : Char) : a ≤ b ↔ a.toNat ≤ b.toNat :=
  Char.le_def.trans UInt32.le_def

theorem toNat_ofNat_valid (n : Nat) (h : n.isValidChar) :
    (Char.ofNat n).toNat = n := by
  simp only [Char.ofNat, h, dif_pos, Char.ofNatAux]
  simp [Char.toNat, UInt32.toNat, UInt32.ofNat', BitVec.toNat_ofNat]

theorem isLowerA_false_of_le_E (c : Char) (hc : c ≤ 'E') :
    isLowerA c = false := by
  have h1 : c.toNat ≤ 69 := (char_le_iff c 'E').mp hc
  simp only [isLowerA, Bool.and_eq_false_iff]
  left
  rw [decide_eq_false_iff_not]
  intro hle
  have h2 := (char_le_iff 'a' c).mp hle
  have h3 : ('a').toNat = 97 := by decide
  omega

/-- A character matching `[A-E]` case-insensitively uppercases into
`['A'..'E']`. -/
theorem upperC_AE (c : Char) (h : ccMatch true CC.upperAE c = true) :
    'A' ≤ upperC c ∧ upperC c ≤ 'E' := by
  rw [ccMatch, Bool.or_eq_true] at h
  have base : ∀ d : Char, ccMatchBase CC.upperAE d = true →
      'A' ≤ d ∧ d ≤ 'E' := by
    intro d hd
    rw [ccMatchBase, Bool.and_eq_true] at hd
    exact ⟨of_decide_eq_true hd.1, of_decide_eq_true hd.2⟩
  rcases h with h | h
  · obtain ⟨h1, h2⟩ := base c h
    rw [upperC, isLowerA_false_of_le_E c h2]
    simp only [Bool.false_eq_true, if_false]
    exact ⟨h1, h2⟩
  · rw [Bool.true_and] at h
    obtain ⟨h1, h2⟩ := base _ h
    rw [swapCase] at h1 h2
    by_cases hl : isLowerA c = true
    · rw [if_pos hl] at h1 h2
      exact ⟨h1, h2⟩
    · rw [if_neg hl] at h1 h2
      by_cases hu : isUpperA c = true
      · rw [if_pos hu] at h1 h2
        exfalso
        rw [isUpperA, Bool.and_eq_true] at hu
        have hu1 := (char_le_iff 'A' c).mp (of_decide_eq_true hu.1)
        have hu2 := (char_le_iff c 'Z').mp (of_decide_eq_true hu.2)
        have hz : ('Z').toNat = 90 := by decide
        have hv : (c.toNat + 32).isValidChar := by
          left
          omega
        have h2n := (char_le_iff _ 'E').mp h2
        rw [lowerC, if_pos (by rw [isUpperA, Bool.and_eq_true]; exact hu)]
          at h2n
        rw [toNat_ofNat_valid _ hv] at h2n
        have hA : ('A').toNat = 65 := by decide
        have hE : ('E').toNat = 69 := by decide
        omega
      · rw [if_neg hu] at h1 h2
        rw [upperC, isLowerA_false_of_le_E c h2]
        simp only [Bool.false_eq_true, if_false]
        exact ⟨h1, h2⟩

theorem ccMatch_false_eq (cc : CC) (c : Char) :
    ccMatch false cc c = ccMatchBase cc c := by
  simp [ccMatch]

theorem upperC_id_of_AE (c : Char) (h1 : 'A' ≤ c) (h2 : c ≤ 'E') :
    upperC c = c := by
  rw [upperC, isLowerA_false_of_le_E c h2]
  simp

/-! ## Invariants of the answer key parser -/

/-- Every entry of an answer dictionary has its number in `[1, 100]` and
a single-letter `A`–`E` answer. -/
def AnsVals (d : List (Int × AnswerEntry)) : Prop :=
  ∀ p ∈ d, (1 ≤ p.1 ∧ p.1 ≤ 100) ∧
    ∃ ch, p.2.letter = [ch] ∧ 'A' ≤ ch ∧ ch ≤ 'E'

theorem dictSet_inv (d : List (Int × AnswerEntry)) (k : Int)
    (v : AnswerEntry) (hk : 1 ≤ k ∧ k ≤ 100)
    (hv : ∃ ch, v.letter = [ch] ∧ 'A' ≤ ch ∧ ch ≤ 'E') (hd : AnsVals d) :
    AnsVals (dictSet d k v) := by
  induction d with
  | nil =>
      intro p hp
      rw [dictSet] at hp
      have := List.mem_singleton.mp hp
      subst this
      exact ⟨hk, hv⟩
  | cons x rest ih =>
      obtain ⟨k2, v2⟩ := x
      intro p hp
      rw [dictSet] at hp
      by_cases hxk : k2 = k
      · rw [if_pos hxk] at hp
        rcases List.mem_cons.mp hp with rfl | hp2
        · exact ⟨hk, hv⟩
        · exact hd p (List.mem_cons_of_mem _ hp2)
      · rw [if_neg hxk] at hp
        rcases List.mem_cons.mp hp with rfl | hp2
        · exact hd _ (List.mem_cons_self _ _)
        · exact ih (fun q hq => hd q (List.mem_cons_of_mem _ hq)) p hp2

theorem ansLoop_inv (lines : List Str) :
    ∀ fuel i d, AnsVals d → AnsVals (ansLoop lines fuel i d) := by
  intro fuel
  induction fuel with
  | zero => intro i d hd; rw [ansLoop]; exact hd
  | succ n ih =>
      intro i d hd
      simp only [ansLoop]
      split
      · exact hd
      · split
        · exact ih _ _ hd
        · split
          next res hres =>
            refine ih _ _ ?_
            split
            next hb =>
              refine dictSet_inv _ _ _ hb ?_ hd
              obtain ⟨ch, hch, hcm⟩ :=
                pyMatch_capture true 2 CC.upperAE ansPattern (by decide)
                  (by decide) _ res hres
              exact ⟨upperC ch, by simp [hch, pyUpper], upperC_AE ch hcm⟩
            next => exact hd
          next => exact ih _ _ hd

theorem parse_answer_key_vals (lines : List Str) :
    AnsVals (_parse_answer_key lines) := by
  rw [_parse_answer_key]
  exact ansLoop_inv lines _ _ _ (fun p hp => nomatch hp)

/-! ## The merger: membership and per-question facts -/

theorem mem_assembleLoop (answers : List (Int × AnswerEntry)) :
    ∀ (qs : List QBlock) (seen : List Int) (q : Question),
      q ∈ assembleLoop answers qs seen → ∃ b ∈ qs, q = buildFinal answers b := by
  intro qs
  induction qs with
  | nil => intro seen q hq; rw [assembleLoop] at hq; cases hq
  | cons b rest ih =>
      intro seen q hq
      rw [assembleLoop] at hq
      split at hq
      · obtain ⟨b2, hb2, he⟩ := ih _ _ hq
        exact ⟨b2, List.mem_cons_of_mem _ hb2, he⟩
      · rcases List.mem_cons.mp hq with rfl | hq2
        · exact ⟨b, List.mem_cons_self _ _, rfl⟩
        · obtain ⟨b2, hb2, he⟩ := ih _ _ hq2
          exact ⟨b2, List.mem_cons_of_mem _ hb2, he⟩

theorem dictGet_mem (d : List (Int × AnswerEntry)) (k : Int)
    (e : AnswerEntry) (h : dictGet d k = some e) : (k, e) ∈ d := by
  rw [dictGet] at h
  cases hf : d.find? (fun p => p.1 = k) with
  | none => rw [hf] at h; cases h
  | some pr =>
      rw [hf] at h
      have hpr : pr.2 = e := by simpa using h
      have h1 : pr.1 = k := by simpa using List.find?_some hf
      have h2 := List.mem_of_find?_eq_some hf
      have : pr = (k, e) := by
        cases pr
        simp_all
      rw [← this]
      exact h2

theorem buildFinal_number (answers : List (Int × AnswerEntry))
    (b : QBlock) : (buildFinal answers b).number = b.number := rfl

theorem buildFinal_letter (answers : List (Int × AnswerEntry)) (b : QBlock) :
    (buildFinal answers b).correct_letter =
      (match dictGet answers b.number with
       | some e => if e.letter ≠ [] then e.letter else str "?"
       | none => str "?") := by
  simp only [buildFinal]
  cases h : dictGet answers b.number <;> simp [h]

theorem buildFinal_cindex (answers : List (Int × AnswerEntry)) (b : QBlock) :
    (buildFinal answers b).correct_index =
      (match dictGet answers b.number with
       | some e =>
           if e.letter ≠ [] ∧ e.letter.length = 1 ∧
              'A' ≤ e.letter.headD 'A' ∧ e.letter.headD 'A' ≤ 'E'
           then ((e.letter.headD 'A').toNat : Int) - 65 else -1
       | none => (-1 : Int)) := by
  simp only [buildFinal]
  cases h : dictGet answers b.number <;> simp [h]

theorem mem_smart_parse (lines : List Str)
    (answers : List (Int × AnswerEntry)) (q : Question)
    (hq : q ∈ _smart_parse_questions lines answers) :
    ∃ b ∈ (finalizeSt (spLoop (lines.length + 1) lines
        ⟨[], none, 0⟩)).questions, q = buildFinal answers b := by
  rw [_smart_parse_questions] at hq
  exact mem_assembleLoop answers _ _ q hq

/-- `pyMatch_capture` for a match starting at any position. -/
theorem mtch_capture (ci : Bool) (i : Nat) (cc : CC) (r : RE)
    (hok : gok i cc r = true) (hmust : gmust i r = true)
    (prev : Option Char) (suf : Str) (res : Option Char × Str × Caps)
    (hm : mtch ci r prev suf []
      (fun p rest caps => some (p, rest, caps)) = some res) :
    ∃ ch, capGet res.2.2 i = [ch] ∧ ccMatch ci cc ch = true := by
  have hinv : CapsInv ci i cc res.2.2 := by
    refine mtch_sound ci i cc r hok prev suf [] _ ?_ ?_ hm
    · intro p hp _; cases hp
    · intro p s2 c hc hk
      cases hk
      exact hc
  have hhas : HasCap i res.2.2 := by
    refine mtch_must ci i r hmust prev suf [] _ ?_ hm
    intro p s2 c hc hk
    cases hk
    exact hc
  obtain ⟨pr, hpr, hpi⟩ := hhas
  have hs : (res.2.2.find? (fun p => p.1 = i)).isSome := by
    rw [List.find?_isSome]
    exact ⟨pr, hpr, by simp [hpi]⟩
  obtain ⟨pq, hfind⟩ := Option.isSome_iff_exists.mp hs
  have hmem : pq ∈ res.2.2 := List.mem_of_find?_eq_some hfind
  have hqi : pq.1 = i := by
    have := List.find?_some hfind
    simpa using this
  obtain ⟨ch, hch, hcm⟩ := hinv pq hmem hqi
  refine ⟨ch, ?_, hcm⟩
  simp [capGet, hfind, hch]

/-- Every match reported by `pyFindIterGo` carries a well-formed capture
for group `i` (under the same syntactic conditions). -/
theorem pyFindIterGo_capture (ci : Bool) (i : Nat) (cc : CC) (r : RE)
    (hok : gok i cc r = true) (hmust : gmust i r = true) :
    ∀ fuel (prev : Option Char) (suf : Str) (pos : Nat),
      ∀ m ∈ pyFindIterGo ci r fuel prev suf pos,
        ∃ ch, capGet m.2.2 i = [ch] ∧ ccMatch ci cc ch = true := by
  intro fuel
  induction fuel with
  | zero =>
      intro prev suf pos m hm
      simp only [pyFindIterGo] at hm
      cases hm
  | succ n ih =>
      intro prev suf pos m hm
      simp only [pyFindIterGo] at hm
      split at hm
      next pEnd sufEnd caps heq =>
        split at hm
        · cases suf with
          | nil =>
              have := List.mem_singleton.mp hm
              subst this
              exact mtch_capture ci i cc r hok hmust _ _ _ heq
          | cons x rest =>
              rcases List.mem_cons.mp hm with rfl | hm2
              · exact mtch_capture ci i cc r hok hmust _ _ _ heq
              · exact ih _ _ _ m hm2
        · rcases List.mem_cons.mp hm with rfl | hm2
          · exact mtch_capture ci i cc r hok hmust _ _ _ heq
          · exact ih _ _ _ m hm2
      next heq =>
        cases suf with
        | nil => cases hm
        | cons x rest => exact ih _ _ _ m hm

/-! ## Option labels stay in `A`–`E` through the scanner -/

/-- All labels of an option list are between `A` and `E`. -/
def LabsOK (opts : List OptItem) : Prop :=
  ∀ o ∈ opts, 'A' ≤ o.label ∧ o.label ≤ 'E'

/-- The scanner state invariant: all finalized blocks and the open
accumulator have `A`–`E` labels. -/
def StOK (st : SPState) : Prop :=
  (∀ b ∈ st.questions, LabsOK b.options) ∧
  (∀ b, st.current = some b → LabsOK b.options)

theorem LabsOK_nil : LabsOK [] := fun o ho => nomatch ho

theorem LabsOK_append (a b : List OptItem) (ha : LabsOK a) (hb : LabsOK b) :
    LabsOK (a ++ b) := by
  intro o ho
  rcases List.mem_append.mp ho with h | h
  · exact ha o h
  · exact hb o h

theorem LabsOK_dropLast (a : List OptItem) (ha : LabsOK a) :
    LabsOK a.dropLast :=
  fun o ho => ha o (List.dropLast_subset a ho)

theorem capChar1_AE (caps : Caps) (ch : Char)
    (hch : capGet caps 1 = [ch])
    (hcm : ccMatch false CC.upperAE ch = true) :
    'A' ≤ capChar1 caps ∧ capChar1 caps ≤ 'E' := by
  have hb : 'A' ≤ ch ∧ ch ≤ 'E' := by
    rw [ccMatch_false_eq, ccMatchBase, Bool.and_eq_true] at hcm
    exact ⟨of_decide_eq_true hcm.1, of_decide_eq_true hcm.2⟩
  rw [capChar1, hch]
  have : pyUpper [ch] = [upperC ch] := rfl
  rw [this, upperC_id_of_AE ch hb.1 hb.2]
  exact hb

theorem finalizeSt_stok (st : SPState) (h : StOK st) :
    StOK (finalizeSt st) := by
  rw [finalizeSt]
  cases hc : st.current with
  | none => exact h
  | some q =>
      refine ⟨?_, ?_⟩
      · intro b hb
        rcases List.mem_append.mp hb with hb | hb
        · exact h.1 b hb
        · have hbq := List.mem_singleton.mp hb
          subst hbq
          intro o ho
          simp only [List.mem_map] at ho
          obtain ⟨o0, ho0, rfl⟩ := ho
          exact h.2 q hc o0 ho0
      · intro b hb
        cases hb

theorem mem_of_getLastQ {α : Type} (l : List α) (a : α)
    (h : l.getLast? = some a) : a ∈ l := by
  have hx : a ∈ l.getLast? := Option.mem_def.mpr h
  obtain ⟨hne, he⟩ := List.mem_getLast?_eq_getLast hx
  rw [he]
  exact List.getLast_mem hne

/-- `spRepeatA` preserves the label invariant. -/
theorem spRepeatA_stok (label : Char) (st : SPState) (h : StOK st) :
    StOK (spRepeatA label st) := by
  rw [spRepeatA]
  cases hc : st.current with
  | none => exact h
  | some cur =>
      dsimp only
      by_cases hAA : label = 'A' ∧
          (cur.options.any fun o => decide (o.label = 'A')) = true
      · rw [if_pos hAA]
        refine ⟨(finalizeSt_stok st h).1, ?_⟩
        intro b hb
        cases hb
        exact LabsOK_nil
      · rw [if_neg hAA]
        exact h

/-- `spOpen` preserves the label invariant. -/
theorem spOpen_stok (label : Char) (st st2 : SPState)
    (h : spOpen label st = some st2) (hst : StOK st) : StOK st2 := by
  rw [spOpen] at h
  split at h
  next cur hc =>
    cases h
    exact hst
  next hc =>
    split at h
    · cases h
      refine ⟨hst.1, ?_⟩
      intro b hb
      cases hb
      exact LabsOK_nil
    · split at h
      next lastQ hlast =>
        split at h
        · cases h
          refine ⟨?_, ?_⟩
          · intro b hb
            exact hst.1 b (List.dropLast_subset _ hb)
          · intro b hb
            cases hb
            exact hst.1 lastQ (mem_of_getLastQ _ _ hlast)
        · cases h
      next => cases h

/-- `spAttach` produces only `A`–`E` labels (the inline markers are
captures of `[A-E]`). -/
theorem spAttach_labs (label : Char) (text : Str) (cur : QBlock)
    (hcur : LabsOK cur.options) (hlab : 'A' ≤ label ∧ label ≤ 'E') :
    LabsOK (spAttach label text cur).options := by
  have hsingle : LabsOK [(⟨label, text⟩ : OptItem)] := by
    intro o ho
    have := List.mem_singleton.mp ho
    subst this
    exact hlab
  simp only [spAttach]
  split
  · exact LabsOK_append _ _ hcur hsingle
  next m0 ms hf =>
    intro o ho
    rcases List.mem_append.mp ho with ho | ho
    · rcases List.mem_append.mp ho with ho | ho
      · exact LabsOK_dropLast _ (LabsOK_append _ _ hcur hsingle) o ho
      · have := List.mem_singleton.mp ho
        subst this
        exact hlab
    · simp only [List.mem_map, List.mem_range] at ho
      obtain ⟨j, hj, rfl⟩ := ho
      have hjl : j < (pyFindIter false inline_opt_re text).length := by
        simpa using hj
      have hmem : ((pyFindIter false inline_opt_re text).getD j (0, 0, [])) ∈
          pyFindIter false inline_opt_re text := by
        rw [List.getD_eq_getElem _ _ hjl]
        exact List.getElem_mem _
      obtain ⟨ch, hch, hcm⟩ :=
        pyFindIterGo_capture false 1 CC.upperAE inline_opt_re (by decide)
          (by decide) (text.length + 1) none text 0 _ hmem
      exact capChar1_AE _ ch hch hcm

/-- The labels recorded by the option branch of the scanner are `A`–`E`:
the step transition preserves the state invariant. -/
theorem spStep_stok (line : Str) (rest : List Str) (st : SPState)
    (st2 : SPState) (rest2 : List Str)
    (h : spStep line rest st = some (st2, rest2)) (hst : StOK st) :
    StOK st2 := by
  simp only [spStep] at h
  split at h
  · cases h
  · split at h
    · cases h
    · split at h
      next res hres =>
        split at h
        · cases h
          exact hst
        · cases h
          refine ⟨(finalizeSt_stok st hst).1, ?_⟩
          intro b hb
          cases hb
          exact LabsOK_nil
      next =>
        split at h
        next res hres =>
          obtain ⟨ch, hch, hcm⟩ :=
            pyMatch_capture false 1 CC.upperAE opt_start_re (by decide)
              (by decide) _ res hres
          have hlab := capChar1_AE res.2.2 ch hch hcm
          have hok1 : StOK (spRepeatA (capChar1 res.2.2) st) :=
            spRepeatA_stok _ _ hst
          split at h
          next hnone =>
            cases h
            exact hok1
          next stO hO =>
            have hok2 : StOK stO := spOpen_stok _ _ _ hO hok1
            split at h
            next hc =>
              cases h
              exact hok2
            next cur hc =>
              cases h
              refine ⟨hok2.1, ?_⟩
              intro b hb
              cases hb
              exact spAttach_labs _ _ _ (hok2.2 cur hc) hlab
        next =>
          split at h
          next cur hcur =>
            split at h
            next lastO hlast =>
              cases h
              refine ⟨hst.1, ?_⟩
              intro b hb
              cases hb
              refine LabsOK_append _ _
                (LabsOK_dropLast _ (hst.2 cur hcur)) ?_
              intro o ho
              have hol := List.mem_singleton.mp ho
              subst hol
              exact hst.2 cur hcur lastO (mem_of_getLastQ _ _ hlast)
            next =>
              cases h
              refine ⟨hst.1, ?_⟩
              intro b hb
              cases hb
              exact hst.2 cur hcur
          next =>
            cases h
            exact hst

theorem spLoop_stok : ∀ fuel lines st, StOK st → StOK (spLoop fuel lines st) := by
  intro fuel
  induction fuel with
  | zero => intro lines st h; rw [spLoop]; exact h
  | succ n ih =>
      intro lines st h
      cases lines with
      | nil =>
          rw [spLoop]
          · exact h
          · omega
      | cons line rest =>
          rw [spLoop]
          split
          next heq => exact h
          next st2 rest2 heq => exact ih _ _ (spStep_stok _ _ _ _ _ heq h)

/-- Every question returned by the parser is the assembly of some block
whose labels are all `A`–`E`. -/
theorem mem_smart_parse_labs (lines : List Str)
    (answers : List (Int × AnswerEntry)) (q : Question)
    (hq : q ∈ _smart_parse_questions lines answers) :
    ∃ b, LabsOK b.options ∧ q = buildFinal answers b := by
  obtain ⟨b, hb, he⟩ := mem_smart_parse lines answers q hq
  have hst : StOK (finalizeSt (spLoop (lines.length + 1) lines
      ⟨[], none, 0⟩)) :=
    finalizeSt_stok _ (spLoop_stok _ _ _
      ⟨fun b hb => absurd hb (List.not_mem_nil b), fun b hb => by cases hb⟩)
  exact ⟨b, hst.1 b hb, he⟩

/-! ## The padded option array of `buildFinal` -/

theorem char_eq_of_toNat (a b : Char) (h : a.toNat = b.toNat) : a = b :=
  Char.eq_of_val_eq (UInt32.toNat.inj h)

theorem char_AE_cases (l : Char) (h1 : 'A' ≤ l) (h2 : l ≤ 'E') :
    l = 'A' ∨ l = 'B' ∨ l = 'C' ∨ l = 'D' ∨ l = 'E' := by
  have n1 : 65 ≤ l.toNat := (char_le_iff 'A' l).mp h1
  have n2 : l.toNat ≤ 69 := (char_le_iff l 'E').mp h2
  interval_cases h : l.toNat
  · exact Or.inl (char_eq_of_toNat _ _ (by rw [h]; decide))
  · exact Or.inr (Or.inl (char_eq_of_toNat _ _ (by rw [h]; decide)))
  · exact Or.inr (Or.inr (Or.inl (char_eq_of_toNat _ _ (by rw [h]; decide))))
  · exact Or.inr (Or.inr (Or.inr (Or.inl
      (char_eq_of_toNat _ _ (by rw [h]; decide)))))
  · exact Or.inr (Or.inr (Or.inr (Or.inr
      (char_eq_of_toNat _ _ (by rw [h]; decide)))))

theorem insSorted_perm {α : Type} (leB : α → α → Bool) (x : α) :
    ∀ l : List α, (insSorted leB x l).Perm (x :: l) := by
  intro l
  induction l with
  | nil => rw [insSorted]
  | cons y ys ih =>
      rw [insSorted]
      split
      · exact List.Perm.refl _
      · exact (List.Perm.cons y ih).trans (List.Perm.swap x y ys)

theorem stableSort_perm {α : Type} (leB : α → α → Bool) :
    ∀ l : List α, (stableSort leB l).Perm l := by
  intro l
  induction l with
  | nil => exact List.Perm.refl _
  | cons y ys ih =>
      have h1 : stableSort leB (y :: ys) = insSorted leB y (stableSort leB ys) := rfl
      rw [h1]
      exact (insSorted_perm leB y _).trans (List.Perm.cons y ih)

/-- The label-index step of `buildFinal`'s maximum computation agrees
with `fun m l => max m (l.toNat - 65)` on `A`–`E` labels. -/
theorem maxStep_eq (m : Nat) (l : Char) (h1 : 'A' ≤ l) (h2 : l ≤ 'E') :
    (if expected_labels.contains l then max m (expected_labels.indexOf l)
     else if l = 'E' then max m 4 else m) = max m (l.toNat - 65) := by
  rcases char_AE_cases l h1 h2 with rfl | rfl | rfl | rfl | rfl <;> simp [expected_labels]

theorem maxFold_eq (init : Nat) :
    ∀ labels : List Char, (∀ l ∈ labels, 'A' ≤ l ∧ l ≤ 'E') →
      labels.foldl (fun m l =>
        if expected_labels.contains l then max m (expected_labels.indexOf l)
        else if l = 'E' then max m 4 else m) init =
      labels.foldl (fun m l => max m (l.toNat - 65)) init := by
  intro labels
  induction labels generalizing init with
  | nil => intro _; rfl
  | cons l ls ih =>
      intro hl
      have hb := hl l (List.mem_cons_self _ _)
      simp only [List.foldl_cons]
      rw [maxStep_eq init l hb.1 hb.2]
      exact ih _ (fun x hx => hl x (List.mem_cons_of_mem _ hx))

theorem maxFold_le (b : Nat) :
    ∀ (labels : List Char) (init : Nat), init ≤ b →
      (∀ l ∈ labels, l.toNat - 65 ≤ b) →
      labels.foldl (fun m l => max m (l.toNat - 65)) init ≤ b := by
  intro labels
  induction labels with
  | nil => intro init hi _; exact hi
  | cons l ls ih =>
      intro init hi hl
      simp only [List.foldl_cons]
      refine ih _ ?_ (fun x hx => hl x (List.mem_cons_of_mem _ hx))
      have := hl l (List.mem_cons_self _ _)
      omega

/-- Fold of a left-commutative function is invariant under permutation
(specialised to the label maximum). -/
theorem maxFold_perm (l1 l2 : List Char) (h : l1.Perm l2) (init : Nat) :
    l1.foldl (fun m l => max m (l.toNat - 65)) init =
    l2.foldl (fun m l => max m (l.toNat - 65)) init := by
  refine h.foldl_eq' ?_ init
  intro a _ c _ m
  simp [Nat.max_assoc, Nat.max_comm (a.toNat - 65) (c.toNat - 65)]

/-- The option array always has length `max(4, highest observed label
index + 1)` (the fold below starts at 3, so a question with no options
gets 4). -/
theorem buildOpts_len (opts0 : List OptItem) (hb : LabsOK opts0) :
    (buildOpts opts0).length =
      max 4 ((opts0.map (fun o => o.label)).foldl
        (fun m l => max m (l.toNat - 65)) 3 + 1) := by
  simp only [buildOpts]
  by_cases hnil : opts0 = []
  · subst hnil
    rw [if_neg (by simp [stableSort])]
    simp [stableSort]
  · have hperm := stableSort_perm (fun a b : OptItem => a.label ≤ b.label) opts0
    have hsne : stableSort (fun a b : OptItem => a.label ≤ b.label) opts0 ≠ [] := by
      intro hcon
      rw [hcon] at hperm
      exact hnil (hperm.symm.eq_nil)
    rw [if_pos (by simpa using hsne)]
    simp only [List.length_map, List.length_range]
    congr 1
    have hbs : ∀ l ∈ (stableSort (fun a b : OptItem => a.label ≤ b.label)
        opts0).map (·.label), 'A' ≤ l ∧ l ≤ 'E' := by
      intro l hl
      simp only [List.mem_map] at hl
      obtain ⟨o, ho, rfl⟩ := hl
      exact hb o (hperm.mem_iff.mp ho)
    rw [maxFold_eq 3 _ hbs]
    rw [maxFold_perm _ _ (hperm.map (·.label)) 3]

/-- The label a padded slot `i` is filled against has index `i`. -/
theorem slotLabel_toNat (i : Nat) (hi : i ≤ 4) :
    (if i < expected_labels.length then expected_labels.getD i 'A'
     else Char.ofNat (65 + i)).toNat - 65 = i := by
  interval_cases i
  · decide
  · decide
  · decide
  · decide
  · have hv : (65 + 4).isValidChar := by
      left
      omega
    simp only [expected_labels]
    rw [if_neg (by simp)]
    rw [toNat_ofNat_valid _ hv]

/-- The option count never exceeds 5. -/
theorem buildOpts_len_le (opts0 : List OptItem) (hb : LabsOK opts0) :
    (buildOpts opts0).length ≤ 5 := by
  rw [buildOpts_len opts0 hb]
  have hle := maxFold_le 4 (opts0.map (fun o => o.label)) 3 (by omega) ?_
  · omega
  · intro l hl
    simp only [List.mem_map] at hl
    obtain ⟨o, ho, rfl⟩ := hl
    have h1 := (char_le_iff o.label 'E').mp (hb o ho).2
    have h2 : ('E').toNat = 69 := by decide
    omega

theorem getD_range_map {α : Type} (f : Nat → α) (n i : Nat) (d : α)
    (h : i < n) : ((List.range n).map f).getD i d = f i := by
  rw [List.getD_eq_getElem _ _ (by simpa using h)]
  simp

/-- A slot whose label index was never observed holds the placeholder
sentinel (`"[Option missing]"` when the question had no options at
all, `"[Option missing from PDF]"` otherwise). -/
theorem buildOpts_unobserved (opts0 : List OptItem) (hb : LabsOK opts0)
    (i : Nat) (hi : i < (buildOpts opts0).length)
    (hno : ∀ o ∈ opts0, o.label.toNat - 65 ≠ i) :
    (buildOpts opts0).getD i [] =
      (if opts0 = [] then str "[Option missing]"
       else str "[Option missing from PDF]") := by
  have hi5 : i ≤ 4 := by
    have := buildOpts_len_le opts0 hb
    omega
  by_cases hnil : opts0 = []
  · subst hnil
    rw [if_pos rfl]
    have hbo : buildOpts ([] : List OptItem) =
        (List.range 4).map (fun _ => str "[Option missing]") := by
      simp [buildOpts, stableSort]
    rw [hbo] at hi ⊢
    simp only [List.length_map, List.length_range] at hi
    rw [getD_range_map _ _ _ _ hi]
  · rw [if_neg hnil]
    have hperm := stableSort_perm (fun a b : OptItem => a.label ≤ b.label) opts0
    have hsne : stableSort (fun a b : OptItem => a.label ≤ b.label) opts0 ≠ [] := by
      intro hcon
      rw [hcon] at hperm
      exact hnil (hperm.symm.eq_nil)
    simp only [buildOpts] at hi ⊢
    rw [if_pos (by simpa using hsne)] at hi ⊢
    simp only [List.length_map, List.length_range] at hi
    rw [getD_range_map _ _ _ _ hi]
    cases hfind : (stableSort (fun a b : OptItem => a.label ≤ b.label)
        opts0).reverse.find? (fun o => decide (o.label =
          (if i < expected_labels.length then expected_labels.getD i 'A'
           else Char.ofNat (65 + i)))) with
    | none => simp [hfind]
    | some o =>
        exfalso
        have hmem : o ∈ opts0 := by
          have h1 := List.mem_of_find?_eq_some hfind
          rw [List.mem_reverse] at h1
          exact hperm.mem_iff.mp h1
        have hol : o.label = (if i < expected_labels.length
            then expected_labels.getD i 'A' else Char.ofNat (65 + i)) := by
          simpa using List.find?_some hfind
        have hne := hno o hmem
        rw [hol, slotLabel_toNat i hi5] at hne
        exact hne rfl

/-- Fold in two pieces: evaluation checkpoints for concrete runs. -/
theorem foldl_chunk {α β : Type} (f : β → α → β) (t : β) (l : List α)
    (n : Nat) :
    List.foldl f t l = List.foldl f (List.foldl f t (l.take n)) (l.drop n) := by
  rw [← List.foldl_append, List.take_append_drop]

set_option maxRecDepth 200000
set_option maxHeartbeats 2000000
theorem fixEval0 : _fix_broken_words (str "w as") = (str "w as") := by
  have h0 : pySubT true reLabelColon [RT.g 1, RT.s ": ", RT.g 2] (str "w as") = (str "w as") := by rfl
  have h1 : pySub false reSourcE (constR "SOURCE") (str "w as") = (str "w as") := by rfl
  have h2 : pySub false reSourceColon (constR "SOURCE: ") (str "w as") = (str "w as") := by rfl
  have h3 : List.foldl applyCommon (str "w as") COMMON_FIXES = (str "w as") := by
    rw [foldl_chunk applyCommon (str "w as") COMMON_FIXES 50]
    have c0 : List.foldl applyCommon (str "w as") (COMMON_FIXES.take 50) = (str "w as") := by rfl
    rw [c0]
    rw [foldl_chunk applyCommon (str "w as") (COMMON_FIXES.drop 50) 50]
    have c1 : List.foldl applyCommon (str "w as") ((COMMON_FIXES.drop 50).take 50) = (str "w as") := by rfl
    rw [c1]
    rw [foldl_chunk applyCommon (str "w as") ((COMMON_FIXES.drop 50).drop 50) 50]
    have c2 : List.foldl applyCommon (str "w as") (((COMMON_FIXES.drop 50).drop 50).take 50) = (str "w as") := by rfl
    rw [c2]
    rw [foldl_chunk applyCommon (str "w as") (((COMMON_FIXES.drop 50).drop 50).drop 50) 50]
    have c3 : List.foldl applyCommon (str "w as") ((((COMMON_FIXES.drop 50).drop 50).drop 50).take 50) = (str "w as") := by rfl
    rw [c3]
    rw [foldl_chunk applyCommon (str "w as") ((((COMMON_FIXES.drop 50).drop 50).drop 50).drop 50) 50]
    have c4 : List.foldl applyCommon (str "w as") (((((COMMON_FIXES.drop 50).drop 50).drop 50).drop 50).take 50) = (str "w as") := by rfl
    rw [c4]
    rw [foldl_chunk applyCommon (str "w as") (((((COMMON_FIXES.drop 50).drop 50).drop 50).drop 50).drop 50) 50]
    have c5 : List.foldl applyCommon (str "w as") ((((((COMMON_FIXES.drop 50).drop 50).drop 50).drop 50).drop 50).take 50) = (str "w as") := by rfl
    rw [c5]
    rw [foldl_chunk applyCommon (str "w as") ((((((COMMON_FIXES.drop 50).drop 50).drop 50).drop 50).drop 50).drop 50) 50]
    have c6 : List.foldl applyCommon (str "w as") (((((((COMMON_FIXES.drop 50).drop 50).drop 50).drop 50).drop 50).drop 50).take 50) = (str "w as") := by rfl
    rw [c6]
    rw [foldl_chunk applyCommon (str "w as") (((((((COMMON_FIXES.drop 50).drop 50).drop 50).drop 50).drop 50).drop 50).drop 50) 50]
    have c7 : List.foldl applyCommon (str "w as") ((((((((COMMON_FIXES.drop 50).drop 50).drop 50).drop 50).drop 50).drop 50).drop 50).take 50) = (str "w as") := by rfl
    rw [c7]
    rw [foldl_chunk applyCommon (str "w as") ((((((((COMMON_FIXES.drop 50).drop 50).drop 50).drop 50).drop 50).drop 50).drop 50).drop 50) 50]
    have c8 : List.foldl applyCommon (str "w as") (((((((((COMMON_FIXES.drop 50).drop 50).drop 50).drop 50).drop 50).drop 50).drop 50).drop 50).take 50) = (str "w as") := by rfl
    rw [c8]
    rw [foldl_chunk applyCommon (str "w as") (((((((((COMMON_FIXES.drop 50).drop 50).drop 50).drop 50).drop 50).drop 50).drop 50).drop 50).drop 50) 50]
    have c9 : List.foldl applyCommon (str "w as") ((((((((((COMMON_FIXES.drop 50).drop 50).drop 50).drop 50).drop 50).drop 50).drop 50).drop 50).drop 50).take 50) = (str "w as") := by rfl
    rw [c9]
    rw [foldl_chunk applyCommon (str "w as") ((((((((((COMMON_FIXES.drop 50).drop 50).drop 50).drop 50).drop 50).drop 50).drop 50).drop 50).drop 50).drop 50) 50]
    have c10 : List.foldl applyCommon (str "w as") (((((((((((COMMON_FIXES.drop 50).drop 50).drop 50).drop 50).drop 50).drop 50).drop 50).drop 50).drop 50).drop 50).take 50) = (str "w as") := by rfl
    rw [c10]
    rw [foldl_chunk applyCommon (str "w as") (((((((((((COMMON_FIXES.drop 50).drop 50).drop 50).drop 50).drop 50).drop 50).drop 50).drop 50).drop 50).drop 50).drop 50) 50]
    have c11 : List.foldl applyCommon (str "w as") ((((((((((((COMMON_FIXES.drop 50).drop 50).drop 50).drop 50).drop 50).drop 50).drop 50).drop 50).drop 50).drop 50).drop 50).take 50) = (str "w as") := by rfl
    rw [c11]
    rfl
  have h4 : pySubT false reHyph1 [RT.g 1, RT.s "-", RT.g 2] (str "w as") = (str "w as") := by rfl
  have h5 : pySubT false reHyph2 [RT.g 1, RT.s "-", RT.g 2] (str "w as") = (str "w as") := by rfl
  have h6 : pySubT false reHyph3 [RT.g 1, RT.s "-", RT.g 2] (str "w as") = (str "w as") := by rfl
  have h7 : pySubT false reComma [RT.g 1, RT.s ", ", RT.g 2] (str "w as") = (str "w as") := by rfl
  have h8 : pySubT false reSpacePunct [RT.g 1] (str "w as") = (str "w as") := by rfl
  have h9 : pySubT false reSentCap [RT.g 1, RT.s " ", RT.g 2] (str "w as") = (str "w as") := by rfl
  have h10 : pySub false reMultiSpace (constR " ") (str "w as") = (str "w as") := by rfl
  have h11 : contrFix "s" (str "w as") = (str "w as") := by rfl
  have h12 : pySub true reCapAfterLabel cap_after_label (str "w as") = (str "w as") := by rfl
  have h13 : contrFix "t" (str "w as") = (str "w as") := by rfl
  have h14 : contrFix "ve" (str "w as") = (str "w as") := by rfl
  have h15 : contrFix "re" (str "w as") = (str "w as") := by rfl
  have h16 : contrFix "ll" (str "w as") = (str "w as") := by rfl
  have h17 : contrFix "d" (str "w as") = (str "w as") := by rfl
  have h18 : List.foldl applyAdditional (str "w as") ADDITIONAL_FIXES = (str "w as") := by
    rw [foldl_chunk applyAdditional (str "w as") ADDITIONAL_FIXES 50]
    have c0 : List.foldl applyAdditional (str "w as") (ADDITIONAL_FIXES.take 50) = (str "w as") := by rfl
    rw [c0]
    rw [foldl_chunk applyAdditional (str "w as") (ADDITIONAL_FIXES.drop 50) 50]
    have c1 : List.foldl applyAdditional (str "w as") ((ADDITIONAL_FIXES.drop 50).take 50) = (str "w as") := by rfl
    rw [c1]
    rw [foldl_chunk applyAdditional (str "w as") ((ADDITIONAL_FIXES.drop 50).drop 50) 50]
    have c2 : List.foldl applyAdditional (str "w as") (((ADDITIONAL_FIXES.drop 50).drop 50).take 50) = (str "w as") := by rfl
    rw [c2]
    rw [foldl_chunk applyAdditional (str "w as") (((ADDITIONAL_FIXES.drop 50).drop 50).drop 50) 50]
    have c3 : List.foldl applyAdditional (str "w as") ((((ADDITIONAL_FIXES.drop 50).drop 50).drop 50).take 50) = (str "w as") := by rfl
    rw [c3]
    rw [foldl_chunk applyAdditional (str "w as") ((((ADDITIONAL_FIXES.drop 50).drop 50).drop 50).drop 50) 50]
    have c4 : List.foldl applyAdditional (str "w as") (((((ADDITIONAL_FIXES.drop 50).drop 50).drop 50).drop 50).take 50) = (str "w as") := by rfl
    rw [c4]
    rw [foldl_chunk applyAdditional (str "w as") (((((ADDITIONAL_FIXES.drop 50).drop 50).drop 50).drop 50).drop 50) 50]
    have c5 : List.foldl applyAdditional (str "w as") ((((((ADDITIONAL_FIXES.drop 50).drop 50).drop 50).drop 50).drop 50).take 50) = (str "w as") := by rfl
    rw [c5]
    rw [foldl_chunk applyAdditional (str "w as") ((((((ADDITIONAL_FIXES.drop 50).drop 50).drop 50).drop 50).drop 50).drop 50) 50]
    have c6 : List.foldl applyAdditional (str "w as") (((((((ADDITIONAL_FIXES.drop 50).drop 50).drop 50).drop 50).drop 50).drop 50).take 50) = (str "w as") := by rfl
    rw [c6]
    rfl
  have h19 : pySub false reMergePre merge_pre_careful (str "w as") = (str "w as") := by rfl
  have h20 : pySub false reMergeSuf merge_suffix_careful (str "w as") = (str "w as") := by rfl
  have h21 : pySub true reWordThe split_wordthe (str "w as") = (str "w as") := by rfl
  have h22 : pySub false reMultiSpace (constR " ") (str "w as") = (str "w as") := by rfl
  have h23 : pySub false reSrcHttp (constR "SOURCE: http") (str "w as") = (str "w as") := by rfl
  have h24 : pySub true reNoteThis (constR "Note: This") (str "w as") = (str "w as") := by rfl
  have h25 : pyStrip (str "w as") = (str "w as") := by rfl
  simp only [_fix_broken_words]
  rw [if_neg (by decide)]
  rw [h0, h1, h2, h3, h4, h5, h6, h7, h8, h9, h10, h11, h12, h13, h14, h15, h16, h17, h18, h19, h20, h21, h22, h23, h24, h25]

theorem fixEval1 : _fix_broken_words (str "manage ment") = (str "management") := by
  have h0 : pySubT true reLabelColon [RT.g 1, RT.s ": ", RT.g 2] (str "manage ment") = (str "manage ment") := by rfl
  have h1 : pySub false reSourcE (constR "SOURCE") (str "manage ment") = (str "manage ment") := by rfl
  have h2 : pySub false reSourceColon (constR "SOURCE: ") (str "manage ment") = (str "manage ment") := by rfl
  have h3 : List.foldl applyCommon (str "manage ment") COMMON_FIXES = (str "management") := by
    rw [foldl_chunk applyCommon (str "manage ment") COMMON_FIXES 50]
    have c0 : List.foldl applyCommon (str "manage ment") (COMMON_FIXES.take 50) = (str "management") := by rfl
    rw [c0]
    rw [foldl_chunk applyCommon (str "management") (COMMON_FIXES.drop 50) 50]
    have c1 : List.foldl applyCommon (str "management") ((COMMON_FIXES.drop 50).take 50) = (str "management") := by rfl
    rw [c1]
    rw [foldl_chunk applyCommon (str "management") ((COMMON_FIXES.drop 50).drop 50) 50]
    have c2 : List.foldl applyCommon (str "management") (((COMMON_FIXES.drop 50).drop 50).take 50) = (str "management") := by rfl
    rw [c2]
    rw [foldl_chunk applyCommon (str "management") (((COMMON_FIXES.drop 50).drop 50).drop 50) 50]
    have c3 : List.foldl applyCommon (str "management") ((((COMMON_FIXES.drop 50).drop 50).drop 50).take 50) = (str "management") := by rfl
    rw [c3]
    rw [foldl_chunk applyCommon (str "management") ((((COMMON_FIXES.drop 50).drop 50).drop 50).drop 50) 50]
    have c4 : List.foldl applyCommon (str "management") (((((COMMON_FIXES.drop 50).drop 50).drop 50).drop 50).take 50) = (str "management") := by rfl
    rw [c4]
    rw [foldl_chunk applyCommon (str "management") (((((COMMON_FIXES.drop 50).drop 50).drop 50).drop 50).drop 50) 50]
    have c5 : List.foldl applyCommon (str "management") ((((((COMMON_FIXES.drop 50).drop 50).drop 50).drop 50).drop 50).take 50) = (str "management") := by rfl
    rw [c5]
    rw [foldl_chunk applyCommon (str "management") ((((((COMMON_FIXES.drop 50).drop 50).drop 50).drop 50).drop 50).drop 50) 50]
    have c6 : List.foldl applyCommon (str "management") (((((((COMMON_FIXES.drop 50).drop 50).drop 50).drop 50).drop 50).drop 50).take 50) = (str "management") := by rfl
    rw [c6]
    rw [foldl_chunk applyCommon (str "management") (((((((COMMON_FIXES.drop 50).drop 50).drop 50).drop 50).drop 50).drop 50).drop 50) 50]
    have c7 : List.foldl applyCommon (str "management") ((((((((COMMON_FIXES.drop 50).drop 50).drop 50).drop 50).drop 50).drop 50).drop 50).take 50) = (str "management") := by rfl
    rw [c7]
    rw [foldl_chunk applyCommon (str "management") ((((((((COMMON_FIXES.drop 50).drop 50).drop 50).drop 50).drop 50).drop 50).drop 50).drop 50) 50]
    have c8 : List.foldl applyCommon (str "management") (((((((((COMMON_FIXES.drop 50).drop 50).drop 50).drop 50).drop 50).drop 50).drop 50).drop 50).take 50) = (str "management") := by rfl
    rw [c8]
    rw [foldl_chunk applyCommon (str "management") (((((((((COMMON_FIXES.drop 50).drop 50).drop 50).drop 50).drop 50).drop 50).drop 50).drop 50).drop 50) 50]
    have c9 : List.foldl applyCommon (str "management") ((((((((((COMMON_FIXES.drop 50).drop 50).drop 50).drop 50).drop 50).drop 50).drop 50).drop 50).drop 50).take 50) = (str "management") := by rfl
    rw [c9]
    rw [foldl_chunk applyCommon (str "management") ((((((((((COMMON_FIXES.drop 50).drop 50).drop 50).drop 50).drop 50).drop 50).drop 50).drop 50).drop 50).drop 50) 50]
    have c10 : List.foldl applyCommon (str "management") (((((((((((COMMON_FIXES.drop 50).drop 50).drop 50).drop 50).drop 50).drop 50).drop 50).drop 50).drop 50).drop 50).take 50) = (str "management") := by rfl
    rw [c10]
    rw [foldl_chunk applyCommon (str "management") (((((((((((COMMON_FIXES.drop 50).drop 50).drop 50).drop 50).drop 50).drop 50).drop 50).drop 50).drop 50).drop 50).drop 50) 50]
    have c11 : List.foldl applyCommon (str "management") ((((((((((((COMMON_FIXES.drop 50).drop 50).drop 50).drop 50).drop 50).drop 50).drop 50).drop 50).drop 50).drop 50).drop 50).take 50) = (str "management") := by rfl
    rw [c11]
    rfl
  have h4 : pySubT false reHyph1 [RT.g 1, RT.s "-", RT.g 2] (str "management") = (str "management") := by rfl
  have h5 : pySubT false reHyph2 [RT.g 1, RT.s "-", RT.g 2] (str "management") = (str "management") := by rfl
  have h6 : pySubT false reHyph3 [RT.g 1, RT.s "-", RT.g 2] (str "management") = (str "management") := by rfl
  have h7 : pySubT false reComma [RT.g 1, RT.s ", ", RT.g 2] (str "management") = (str "management") := by rfl
  have h8 : pySubT false reSpacePunct [RT.g 1] (str "management") = (str "management") := by rfl
  have h9 : pySubT false reSentCap [RT.g 1, RT.s " ", RT.g 2] (str "management") = (str "management") := by rfl
  have h10 : pySub false reMultiSpace (constR " ") (str "management") = (str "management") := by rfl
  have h11 : contrFix "s" (str "management") = (str "management") := by rfl
  have h12 : pySub true reCapAfterLabel cap_after_label (str "management") = (str "management") := by rfl
  have h13 : contrFix "t" (str "management") = (str "management") := by rfl
  have h14 : contrFix "ve" (str "management") = (str "management") := by rfl
  have h15 : contrFix "re" (str "management") = (str "management") := by rfl
  have h16 : contrFix "ll" (str "management") = (str "management") := by rfl
  have h17 : contrFix "d" (str "management") = (str "management") := by rfl
  have h18 : List.foldl applyAdditional (str "management") ADDITIONAL_FIXES = (str "management") := by
    rw [foldl_chunk applyAdditional (str "management") ADDITIONAL_FIXES 50]
    have c0 : List.foldl applyAdditional (str "management") (ADDITIONAL_FIXES.take 50) = (str "management") := by rfl
    rw [c0]
    rw [foldl_chunk applyAdditional (str "management") (ADDITIONAL_FIXES.drop 50) 50]
    have c1 : List.foldl applyAdditional (str "management") ((ADDITIONAL_FIXES.drop 50).take 50) = (str "management") := by rfl
    rw [c1]
    rw [foldl_chunk applyAdditional (str "management") ((ADDITIONAL_FIXES.drop 50).drop 50) 50]
    have c2 : List.foldl applyAdditional (str "management") (((ADDITIONAL_FIXES.drop 50).drop 50).take 50) = (str "management") := by rfl
    rw [c2]
    rw [foldl_chunk applyAdditional (str "management") (((ADDITIONAL_FIXES.drop 50).drop 50).drop 50) 50]
    have c3 : List.foldl applyAdditional (str "management") ((((ADDITIONAL_FIXES.drop 50).drop 50).drop 50).take 50) = (str "management") := by rfl
    rw [c3]
    rw [foldl_chunk applyAdditional (str "management") ((((ADDITIONAL_FIXES.drop 50).drop 50).drop 50).drop 50) 50]
    have c4 : List.foldl applyAdditional (str "management") (((((ADDITIONAL_FIXES.drop 50).drop 50).drop 50).drop 50).take 50) = (str "management") := by rfl
    rw [c4]
    rw [foldl_chunk applyAdditional (str "management") (((((ADDITIONAL_FIXES.drop 50).drop 50).drop 50).drop 50).drop 50) 50]
    have c5 : List.foldl applyAdditional (str "management") ((((((ADDITIONAL_FIXES.drop 50).drop 50).drop 50).drop 50).drop 50).take 50) = (str "management") := by rfl
    rw [c5]
    rw [foldl_chunk applyAdditional (str "management") ((((((ADDITIONAL_FIXES.drop 50).drop 50).drop 50).drop 50).drop 50).drop 50) 50]
    have c6 : List.foldl applyAdditional (str "management") (((((((ADDITIONAL_FIXES.drop 50).drop 50).drop 50).drop 50).drop 50).drop 50).take 50) = (str "management") := by rfl
    rw [c6]
    rfl
  have h19 : pySub false reMergePre merge_pre_careful (str "management") = (str "management") := by rfl
  have h20 : pySub false reMergeSuf merge_suffix_careful (str "management") = (str "management") := by rfl
  have h21 : pySub true reWordThe split_wordthe (str "management") = (str "management") := by rfl
  have h22 : pySub false reMultiSpace (constR " ") (str "management") = (str "management") := by rfl
  have h23 : pySub false reSrcHttp (constR "SOURCE: http") (str "management") = (str "management") := by rfl
  have h24 : pySub true reNoteThis (constR "Note: This") (str "management") = (str "management") := by rfl
  have h25 : pyStrip (str "management") = (str "management") := by rfl
  simp only [_fix_broken_words]
  rw [if_neg (by decide)]
  rw [h0, h1, h2, h3, h4, h5, h6, h7, h8, h9, h10, h11, h12, h13, h14, h15, h16, h17, h18, h19, h20, h21, h22, h23, h24, h25]

theorem fixEval2 : _fix_broken_words (str "management") = (str "management") := by
  have h0 : pySubT true reLabelColon [RT.g 1, RT.s ": ", RT.g 2] (str "management") = (str "management") := by rfl
  have h1 : pySub false reSourcE (constR "SOURCE") (str "management") = (str "management") := by rfl
  have h2 : pySub false reSourceColon (constR "SOURCE: ") (str "management") = (str "management") := by rfl
  have h3 : List.foldl applyCommon (str "management") COMMON_FIXES = (str "management") := by
    rw [foldl_chunk applyCommon (str "management") COMMON_FIXES 50]
    have c0 : List.foldl applyCommon (str "management") (COMMON_FIXES.take 50) = (str "management") := by rfl
    rw [c0]
    rw [foldl_chunk applyCommon (str "management") (COMMON_FIXES.drop 50) 50]
    have c1 : List.foldl applyCommon (str "management") ((COMMON_FIXES.drop 50).take 50) = (str "management") := by rfl
    rw [c1]
    rw [foldl_chunk applyCommon (str "management") ((COMMON_FIXES.drop 50).drop 50) 50]
    have c2 : List.foldl applyCommon (str "management") (((COMMON_FIXES.drop 50).drop 50).take 50) = (str "management") := by rfl
    rw [c2]
    rw [foldl_chunk applyCommon (str "management") (((COMMON_FIXES.drop 50).drop 50).drop 50) 50]
    have c3 : List.foldl applyCommon (str "management") ((((COMMON_FIXES.drop 50).drop 50).drop 50).take 50) = (str "management") := by rfl
    rw [c3]
    rw [foldl_chunk applyCommon (str "management") ((((COMMON_FIXES.drop 50).drop 50).drop 50).drop 50) 50]
    have c4 : List.foldl applyCommon (str "management") (((((COMMON_FIXES.drop 50).drop 50).drop 50).drop 50).take 50) = (str "management") := by rfl
    rw [c4]
    rw [foldl_chunk applyCommon (str "management") (((((COMMON_FIXES.drop 50).drop 50).drop 50).drop 50).drop 50) 50]
    have c5 : List.foldl applyCommon (str "management") ((((((COMMON_FIXES.drop 50).drop 50).drop 50).drop 50).drop 50).take 50) = (str "management") := by rfl
    rw [c5]
    rw [foldl_chunk applyCommon (str "management") ((((((COMMON_FIXES.drop 50).drop 50).drop 50).drop 50).drop 50).drop 50) 50]
    have c6 : List.foldl applyCommon (str "management") (((((((COMMON_FIXES.drop 50).drop 50).drop 50).drop 50).drop 50).drop 50).take 50) = (str "management") := by rfl
    rw [c6]
    rw [foldl_chunk applyCommon (str "management") (((((((COMMON_FIXES.drop 50).drop 50).drop 50).drop 50).drop 50).drop 50).drop 50) 50]
    have c7 : List.foldl applyCommon (str "management") ((((((((COMMON_FIXES.drop 50).drop 50).drop 50).drop 50).drop 50).drop 50).drop 50).take 50) = (str "management") := by rfl
    rw [c7]
    rw [foldl_chunk applyCommon (str "management") ((((((((COMMON_FIXES.drop 50).drop 50).drop 50).drop 50).drop 50).drop 50).drop 50).drop 50) 50]
    have c8 : List.foldl applyCommon (str "management") (((((((((COMMON_FIXES.drop 50).drop 50).drop 50).drop 50).drop 50).drop 50).drop 50).drop 50).take 50) = (str "management") := by rfl
    rw [c8]
    rw [foldl_chunk applyCommon (str "management") (((((((((COMMON_FIXES.drop 50).drop 50).drop 50).drop 50).drop 50).drop 50).drop 50).drop 50).drop 50) 50]
    have c9 : List.foldl applyCommon (str "management") ((((((((((COMMON_FIXES.drop 50).drop 50).drop 50).drop 50).drop 50).drop 50).drop 50).drop 50).drop 50).take 50) = (str "management") := by rfl
    rw [c9]
    rw [foldl_chunk applyCommon (str "management") ((((((((((COMMON_FIXES.drop 50).drop 50).drop 50).drop 50).drop 50).drop 50).drop 50).drop 50).drop 50).drop 50) 50]
    have c10 : List.foldl applyCommon (str "management") (((((((((((COMMON_FIXES.drop 50).drop 50).drop 50).drop 50).drop 50).drop 50).drop 50).drop 50).drop 50).drop 50).take 50) = (str "management") := by rfl
    rw [c10]
    rw [foldl_chunk applyCommon (str "management") (((((((((((COMMON_FIXES.drop 50).drop 50).drop 50).drop 50).drop 50).drop 50).drop 50).drop 50).drop 50).drop 50).drop 50) 50]
    have c11 : List.foldl applyCommon (str "management") ((((((((((((COMMON_FIXES.drop 50).drop 50).drop 50).drop 50).drop 50).drop 50).drop 50).drop 50).drop 50).drop 50).drop 50).take 50) = (str "management") := by rfl
    rw [c11]
    rfl
  have h4 : pySubT false reHyph1 [RT.g 1, RT.s "-", RT.g 2] (str "management") = (str "management") := by rfl
  have h5 : pySubT false reHyph2 [RT.g 1, RT.s "-", RT.g 2] (str "management") = (str "management") := by rfl
  have h6 : pySubT false reHyph3 [RT.g 1, RT.s "-", RT.g 2] (str "management") = (str "management") := by rfl
  have h7 : pySubT false reComma [RT.g 1, RT.s ", ", RT.g 2] (str "management") = (str "management") := by rfl
  have h8 : pySubT false reSpacePunct [RT.g 1] (str "management") = (str "management") := by rfl
  have h9 : pySubT false reSentCap [RT.g 1, RT.s " ", RT.g 2] (str "management") = (str "management") := by rfl
  have h10 : pySub false reMultiSpace (constR " ") (str "management") = (str "management") := by rfl
  have h11 : contrFix "s" (str "management") = (str "management") := by rfl
  have h12 : pySub true reCapAfterLabel cap_after_label (str "management") = (str "management") := by rfl
  have h13 : contrFix "t" (str "management") = (str "management") := by rfl
  have h14 : contrFix "ve" (str "management") = (str "management") := by rfl
  have h15 : contrFix "re" (str "management") = (str "management") := by rfl
  have h16 : contrFix "ll" (str "management") = (str "management") := by rfl
  have h17 : contrFix "d" (str "management") = (str "management") := by rfl
  have h18 : List.foldl applyAdditional (str "management") ADDITIONAL_FIXES = (str "management") := by
    rw [foldl_chunk applyAdditional (str "management") ADDITIONAL_FIXES 50]
    have c0 : List.foldl applyAdditional (str "management") (ADDITIONAL_FIXES.take 50) = (str "management") := by rfl
    rw [c0]
    rw [foldl_chunk applyAdditional (str "management") (ADDITIONAL_FIXES.drop 50) 50]
    have c1 : List.foldl applyAdditional (str "management") ((ADDITIONAL_FIXES.drop 50).take 50) = (str "management") := by rfl
    rw [c1]
    rw [foldl_chunk applyAdditional (str "management") ((ADDITIONAL_FIXES.drop 50).drop 50) 50]
    have c2 : List.foldl applyAdditional (str "management") (((ADDITIONAL_FIXES.drop 50).drop 50).take 50) = (str "management") := by rfl
    rw [c2]
    rw [foldl_chunk applyAdditional (str "management") (((ADDITIONAL_FIXES.drop 50).drop 50).drop 50) 50]
    have c3 : List.foldl applyAdditional (str "management") ((((ADDITIONAL_FIXES.drop 50).drop 50).drop 50).take 50) = (str "management") := by rfl
    rw [c3]
    rw [foldl_chunk applyAdditional (str "management") ((((ADDITIONAL_FIXES.drop 50).drop 50).drop 50).drop 50) 50]
    have c4 : List.foldl applyAdditional (str "management") (((((ADDITIONAL_FIXES.drop 50).drop 50).drop 50).drop 50).take 50) = (str "management") := by rfl
    rw [c4]
    rw [foldl_chunk applyAdditional (str "management") (((((ADDITIONAL_FIXES.drop 50).drop 50).drop 50).drop 50).drop 50) 50]
    have c5 : List.foldl applyAdditional (str "management") ((((((ADDITIONAL_FIXES.drop 50).drop 50).drop 50).drop 50).drop 50).take 50) = (str "management") := by rfl
    rw [c5]
    rw [foldl_chunk applyAdditional (str "management") ((((((ADDITIONAL_FIXES.drop 50).drop 50).drop 50).drop 50).drop 50).drop 50) 50]
    have c6 : List.foldl applyAdditional (str "management") (((((((ADDITIONAL_FIXES.drop 50).drop 50).drop 50).drop 50).drop 50).drop 50).take 50) = (str "management") := by rfl
    rw [c6]
    rfl
  have h19 : pySub false reMergePre merge_pre_careful (str "management") = (str "management") := by rfl
  have h20 : pySub false reMergeSuf merge_suffix_careful (str "management") = (str "management") := by rfl
  have h21 : pySub true reWordThe split_wordthe (str "management") = (str "management") := by rfl
  have h22 : pySub false reMultiSpace (constR " ") (str "management") = (str "management") := by rfl
  have h23 : pySub false reSrcHttp (constR "SOURCE: http") (str "management") = (str "management") := by rfl
  have h24 : pySub true reNoteThis (constR "Note: This") (str "management") = (str "management") := by rfl
  have h25 : pyStrip (str "management") = (str "management") := by rfl
  simp only [_fix_broken_words]
  rw [if_neg (by decide)]
  rw [h0, h1, h2, h3, h4, h5, h6, h7, h8, h9, h10, h11, h12, h13, h14, h15, h16, h17, h18, h19, h20, h21, h22, h23, h24, h25]

theorem fixEval3 : _fix_broken_words (str "qx zv wqrs") = (str "qx zvwqrs") := by
  have h0 : pySubT true reLabelColon [RT.g 1, RT.s ": ", RT.g 2] (str "qx zv wqrs") = (str "qx zv wqrs") := by rfl
  have h1 : pySub false reSourcE (constR "SOURCE") (str "qx zv wqrs") = (str "qx zv wqrs") := by rfl
  have h2 : pySub false reSourceColon (constR "SOURCE: ") (str "qx zv wqrs") = (str "qx zv wqrs") := by rfl
  have h3 : List.foldl applyCommon (str "qx zv wqrs") COMMON_FIXES = (str "qx zv wqrs") := by
    rw [foldl_chunk applyCommon (str "qx zv wqrs") COMMON_FIXES 50]
    have c0 : List.foldl applyCommon (str "qx zv wqrs") (COMMON_FIXES.take 50) = (str "qx zv wqrs") := by rfl
    rw [c0]
    rw [foldl_chunk applyCommon (str "qx zv wqrs") (COMMON_FIXES.drop 50) 50]
    have c1 : List.foldl applyCommon (str "qx zv wqrs") ((COMMON_FIXES.drop 50).take 50) = (str "qx zv wqrs") := by rfl
    rw [c1]
    rw [foldl_chunk applyCommon (str "qx zv wqrs") ((COMMON_FIXES.drop 50).drop 50) 50]
    have c2 : List.foldl applyCommon (str "qx zv wqrs") (((COMMON_FIXES.drop 50).drop 50).take 50) = (str "qx zv wqrs") := by rfl
    rw [c2]
    rw [foldl_chunk applyCommon (str "qx zv wqrs") (((COMMON_FIXES.drop 50).drop 50).drop 50) 50]
    have c3 : List.foldl applyCommon (str "qx zv wqrs") ((((COMMON_FIXES.drop 50).drop 50).drop 50).take 50) = (str "qx zv wqrs") := by rfl
    rw [c3]
    rw [foldl_chunk applyCommon (str "qx zv wqrs") ((((COMMON_FIXES.drop 50).drop 50).drop 50).drop 50) 50]
    have c4 : List.foldl applyCommon (str "qx zv wqrs") (((((COMMON_FIXES.drop 50).drop 50).drop 50).drop 50).take 50) = (str "qx zv wqrs") := by rfl
    rw [c4]
    rw [foldl_chunk applyCommon (str "qx zv wqrs") (((((COMMON_FIXES.drop 50).drop 50).drop 50).drop 50).drop 50) 50]
    have c5 : List.foldl applyCommon (str "qx zv wqrs") ((((((COMMON_FIXES.drop 50).drop 50).drop 50).drop 50).drop 50).take 50) = (str "qx zv wqrs") := by rfl
    rw [c5]
    rw [foldl_chunk applyCommon (str "qx zv wqrs") ((((((COMMON_FIXES.drop 50).drop 50).drop 50).drop 50).drop 50).drop 50) 50]
    have c6 : List.foldl applyCommon (str "qx zv wqrs") (((((((COMMON_FIXES.drop 50).drop 50).drop 50).drop 50).drop 50).drop 50).take 50) = (str "qx zv wqrs") := by rfl
    rw [c6]
    rw [foldl_chunk applyCommon (str "qx zv wqrs") (((((((COMMON_FIXES.drop 50).drop 50).drop 50).drop 50).drop 50).drop 50).drop 50) 50]
    have c7 : List.foldl applyCommon (str "qx zv wqrs") ((((((((COMMON_FIXES.drop 50).drop 50).drop 50).drop 50).drop 50).drop 50).drop 50).take 50) = (str "qx zv wqrs") := by rfl
    rw [c7]
    rw [foldl_chunk applyCommon (str "qx zv wqrs") ((((((((COMMON_FIXES.drop 50).drop 50).drop 50).drop 50).drop 50).drop 50).drop 50).drop 50) 50]
    have c8 : List.foldl applyCommon (str "qx zv wqrs") (((((((((COMMON_FIXES.drop 50).drop 50).drop 50).drop 50).drop 50).drop 50).drop 50).drop 50).take 50) = (str "qx zv wqrs") := by rfl
    rw [c8]
    rw [foldl_chunk applyCommon (str "qx zv wqrs") (((((((((COMMON_FIXES.drop 50).drop 50).drop 50).drop 50).drop 50).drop 50).drop 50).drop 50).drop 50) 50]
    have c9 : List.foldl applyCommon (str "qx zv wqrs") ((((((((((COMMON_FIXES.drop 50).drop 50).drop 50).drop 50).drop 50).drop 50).drop 50).drop 50).drop 50).take 50) = (str "qx zv wqrs") := by rfl
    rw [c9]
    rw [foldl_chunk applyCommon (str "qx zv wqrs") ((((((((((COMMON_FIXES.drop 50).drop 50).drop 50).drop 50).drop 50).drop 50).drop 50).drop 50).drop 50).drop 50) 50]
    have c10 : List.foldl applyCommon (str "qx zv wqrs") (((((((((((COMMON_FIXES.drop 50).drop 50).drop 50).drop 50).drop 50).drop 50).drop 50).drop 50).drop 50).drop 50).take 50) = (str "qx zv wqrs") := by rfl
    rw [c10]
    rw [foldl_chunk applyCommon (str "qx zv wqrs") (((((((((((COMMON_FIXES.drop 50).drop 50).drop 50).drop 50).drop 50).drop 50).drop 50).drop 50).drop 50).drop 50).drop 50) 50]
    have c11 : List.foldl applyCommon (str "qx zv wqrs") ((((((((((((COMMON_FIXES.drop 50).drop 50).drop 50).drop 50).drop 50).drop 50).drop 50).drop 50).drop 50).drop 50).drop 50).take 50) = (str "qx zv wqrs") := by rfl
    rw [c11]
    rfl
  have h4 : pySubT false reHyph1 [RT.g 1, RT.s "-", RT.g 2] (str "qx zv wqrs") = (str "qx zv wqrs") := by rfl
  have h5 : pySubT false reHyph2 [RT.g 1, RT.s "-", RT.g 2] (str "qx zv wqrs") = (str "qx zv wqrs") := by rfl
  have h6 : pySubT false reHyph3 [RT.g 1, RT.s "-", RT.g 2] (str "qx zv wqrs") = (str "qx zv wqrs") := by rfl
  have h7 : pySubT false reComma [RT.g 1, RT.s ", ", RT.g 2] (str "qx zv wqrs") = (str "qx zv wqrs") := by rfl
  have h8 : pySubT false reSpacePunct [RT.g 1] (str "qx zv wqrs") = (str "qx zv wqrs") := by rfl
  have h9 : pySubT false reSentCap [RT.g 1, RT.s " ", RT.g 2] (str "qx zv wqrs") = (str "qx zv wqrs") := by rfl
  have h10 : pySub false reMultiSpace (constR " ") (str "qx zv wqrs") = (str "qx zv wqrs") := by rfl
  have h11 : contrFix "s" (str "qx zv wqrs") = (str "qx zv wqrs") := by rfl
  have h12 : pySub true reCapAfterLabel cap_after_label (str "qx zv wqrs") = (str "qx zv wqrs") := by rfl
  have h13 : contrFix "t" (str "qx zv wqrs") = (str "qx zv wqrs") := by rfl
  have h14 : contrFix "ve" (str "qx zv wqrs") = (str "qx zv wqrs") := by rfl
  have h15 : contrFix "re" (str "qx zv wqrs") = (str "qx zv wqrs") := by rfl
  have h16 : contrFix "ll" (str "qx zv wqrs") = (str "qx zv wqrs") := by rfl
  have h17 : contrFix "d" (str "qx zv wqrs") = (str "qx zv wqrs") := by rfl
  have h18 : List.foldl applyAdditional (str "qx zv wqrs") ADDITIONAL_FIXES = (str "qx zv wqrs") := by
    rw [foldl_chunk applyAdditional (str "qx zv wqrs") ADDITIONAL_FIXES 50]
    have c0 : List.foldl applyAdditional (str "qx zv wqrs") (ADDITIONAL_FIXES.take 50) = (str "qx zv wqrs") := by rfl
    rw [c0]
    rw [foldl_chunk applyAdditional (str "qx zv wqrs") (ADDITIONAL_FIXES.drop 50) 50]
    have c1 : List.foldl applyAdditional (str "qx zv wqrs") ((ADDITIONAL_FIXES.drop 50).take 50) = (str "qx zv wqrs") := by rfl
    rw [c1]
    rw [foldl_chunk applyAdditional (str "qx zv wqrs") ((ADDITIONAL_FIXES.drop 50).drop 50) 50]
    have c2 : List.foldl applyAdditional (str "qx zv wqrs") (((ADDITIONAL_FIXES.drop 50).drop 50).take 50) = (str "qx zv wqrs") := by rfl
    rw [c2]
    rw [foldl_chunk applyAdditional (str "qx zv wqrs") (((ADDITIONAL_FIXES.drop 50).drop 50).drop 50) 50]
    have c3 : List.foldl applyAdditional (str "qx zv wqrs") ((((ADDITIONAL_FIXES.drop 50).drop 50).drop 50).take 50) = (str "qx zv wqrs") := by rfl
    rw [c3]
    rw [foldl_chunk applyAdditional (str "qx zv wqrs") ((((ADDITIONAL_FIXES.drop 50).drop 50).drop 50).drop 50) 50]
    have c4 : List.foldl applyAdditional (str "qx zv wqrs") (((((ADDITIONAL_FIXES.drop 50).drop 50).drop 50).drop 50).take 50) = (str "qx zv wqrs") := by rfl
    rw [c4]
    rw [foldl_chunk applyAdditional (str "qx zv wqrs") (((((ADDITIONAL_FIXES.drop 50).drop 50).drop 50).drop 50).drop 50) 50]
    have c5 : List.foldl applyAdditional (str "qx zv wqrs") ((((((ADDITIONAL_FIXES.drop 50).drop 50).drop 50).drop 50).drop 50).take 50) = (str "qx zv wqrs") := by rfl
    rw [c5]
    rw [foldl_chunk applyAdditional (str "qx zv wqrs") ((((((ADDITIONAL_FIXES.drop 50).drop 50).drop 50).drop 50).drop 50).drop 50) 50]
    have c6 : List.foldl applyAdditional (str "qx zv wqrs") (((((((ADDITIONAL_FIXES.drop 50).drop 50).drop 50).drop 50).drop 50).drop 50).take 50) = (str "qx zv wqrs") := by rfl
    rw [c6]
    rfl
  have h19 : pySub false reMergePre merge_pre_careful (str "qx zv wqrs") = (str "qx zvwqrs") := by rfl
  have h20 : pySub false reMergeSuf merge_suffix_careful (str "qx zvwqrs") = (str "qx zvwqrs") := by rfl
  have h21 : pySub true reWordThe split_wordthe (str "qx zvwqrs") = (str "qx zvwqrs") := by rfl
  have h22 : pySub false reMultiSpace (constR " ") (str "qx zvwqrs") = (str "qx zvwqrs") := by rfl
  have h23 : pySub false reSrcHttp (constR "SOURCE: http") (str "qx zvwqrs") = (str "qx zvwqrs") := by rfl
  have h24 : pySub true reNoteThis (constR "Note: This") (str "qx zvwqrs") = (str "qx zvwqrs") := by rfl
  have h25 : pyStrip (str "qx zvwqrs") = (str "qx zvwqrs") := by rfl
  simp only [_fix_broken_words]
  rw [if_neg (by decide)]
  rw [h0, h1, h2, h3, h4, h5, h6, h7, h8, h9, h10, h11, h12, h13, h14, h15, h16, h17, h18, h19, h20, h21, h22, h23, h24, h25]

theorem fixEval4 : _fix_broken_words (str "qx zvwqrs") = (str "qxzvwqrs") := by
  have h0 : pySubT true reLabelColon [RT.g 1, RT.s ": ", RT.g 2] (str "qx zvwqrs") = (str "qx zvwqrs") := by rfl
  have h1 : pySub false reSourcE (constR "SOURCE") (str "qx zvwqrs") = (str "qx zvwqrs") := by rfl
  have h2 : pySub false reSourceColon (constR "SOURCE: ") (str "qx zvwqrs") = (str "qx zvwqrs") := by rfl
  have h3 : List.foldl applyCommon (str "qx zvwqrs") COMMON_FIXES = (str "qx zvwqrs") := by
    rw [foldl_chunk applyCommon (str "qx zvwqrs") COMMON_FIXES 50]
    have c0 : List.foldl applyCommon (str "qx zvwqrs") (COMMON_FIXES.take 50) = (str "qx zvwqrs") := by rfl
    rw [c0]
    rw [foldl_chunk applyCommon (str "qx zvwqrs") (COMMON_FIXES.drop 50) 50]
    have c1 : List.foldl applyCommon (str "qx zvwqrs") ((COMMON_FIXES.drop 50).take 50) = (str "qx zvwqrs") := by rfl
    rw [c1]
    rw [foldl_chunk applyCommon (str "qx zvwqrs") ((COMMON_FIXES.drop 50).drop 50) 50]
    have c2 : List.foldl applyCommon (str "qx zvwqrs") (((COMMON_FIXES.drop 50).drop 50).take 50) = (str "qx zvwqrs") := by rfl
    rw [c2]
    rw [foldl_chunk applyCommon (str "qx zvwqrs") (((COMMON_FIXES.drop 50).drop 50).drop 50) 50]
    have c3 : List.foldl applyCommon (str "qx zvwqrs") ((((COMMON_FIXES.drop 50).drop 50).drop 50).take 50) = (str "qx zvwqrs") := by rfl
    rw [c3]
    rw [foldl_chunk applyCommon (str "qx zvwqrs") ((((COMMON_FIXES.drop 50).drop 50).drop 50).drop 50) 50]
    have c4 : List.foldl applyCommon (str "qx zvwqrs") (((((COMMON_FIXES.drop 50).drop 50).drop 50).drop 50).take 50) = (str "qx zvwqrs") := by rfl
    rw [c4]
    rw [foldl_chunk applyCommon (str "qx zvwqrs") (((((COMMON_FIXES.drop 50).drop 50).drop 50).drop 50).drop 50) 50]
    have c5 : List.foldl applyCommon (str "qx zvwqrs") ((((((COMMON_FIXES.drop 50).drop 50).drop 50).drop 50).drop 50).take 50) = (str "qx zvwqrs") := by rfl
    rw [c5]
    rw [foldl_chunk applyCommon (str "qx zvwqrs") ((((((COMMON_FIXES.drop 50).drop 50).drop 50).drop 50).drop 50).drop 50) 50]
    have c6 : List.foldl applyCommon (str "qx zvwqrs") (((((((COMMON_FIXES.drop 50).drop 50).drop 50).drop 50).drop 50).drop 50).take 50) = (str "qx zvwqrs") := by rfl
    rw [c6]
    rw [foldl_chunk applyCommon (str "qx zvwqrs") (((((((COMMON_FIXES.drop 50).drop 50).drop 50).drop 50).drop 50).drop 50).drop 50) 50]
    have c7 : List.foldl applyCommon (str "qx zvwqrs") ((((((((COMMON_FIXES.drop 50).drop 50).drop 50).drop 50).drop 50).drop 50).drop 50).take 50) = (str "qx zvwqrs") := by rfl
    rw [c7]
    rw [foldl_chunk applyCommon (str "qx zvwqrs") ((((((((COMMON_FIXES.drop 50).drop 50).drop 50).drop 50).drop 50).drop 50).drop 50).drop 50) 50]
    have c8 : List.foldl applyCommon (str "qx zvwqrs") (((((((((COMMON_FIXES.drop 50).drop 50).drop 50).drop 50).drop 50).drop 50).drop 50).drop 50).take 50) = (str "qx zvwqrs") := by rfl
    rw [c8]
    rw [foldl_chunk applyCommon (str "qx zvwqrs") (((((((((COMMON_FIXES.drop 50).drop 50).drop 50).drop 50).drop 50).drop 50).drop 50).drop 50).drop 50) 50]
    have c9 : List.foldl applyCommon (str "qx zvwqrs") ((((((((((COMMON_FIXES.drop 50).drop 50).drop 50).drop 50).drop 50).drop 50).drop 50).drop 50).drop 50).take 50) = (str "qx zvwqrs") := by rfl
    rw [c9]
    rw [foldl_chunk applyCommon (str "qx zvwqrs") ((((((((((COMMON_FIXES.drop 50).drop 50).drop 50).drop 50).drop 50).drop 50).drop 50).drop 50).drop 50).drop 50) 50]
    have c10 : List.foldl applyCommon (str "qx zvwqrs") (((((((((((COMMON_FIXES.drop 50).drop 50).drop 50).drop 50).drop 50).drop 50).drop 50).drop 50).drop 50).drop 50).take 50) = (str "qx zvwqrs") := by rfl
    rw [c10]
    rw [foldl_chunk applyCommon (str "qx zvwqrs") (((((((((((COMMON_FIXES.drop 50).drop 50).drop 50).drop 50).drop 50).drop 50).drop 50).drop 50).drop 50).drop 50).drop 50) 50]
    have c11 : List.foldl applyCommon (str "qx zvwqrs") ((((((((((((COMMON_FIXES.drop 50).drop 50).drop 50).drop 50).drop 50).drop 50).drop 50).drop 50).drop 50).drop 50).drop 50).take 50) = (str "qx zvwqrs") := by rfl
    rw [c11]
    rfl
  have h4 : pySubT false reHyph1 [RT.g 1, RT.s "-", RT.g 2] (str "qx zvwqrs") = (str "qx zvwqrs") := by rfl
  have h5 : pySubT false reHyph2 [RT.g 1, RT.s "-", RT.g 2] (str "qx zvwqrs") = (str "qx zvwqrs") := by rfl
  have h6 : pySubT false reHyph3 [RT.g 1, RT.s "-", RT.g 2] (str "qx zvwqrs") = (str "qx zvwqrs") := by rfl
  have h7 : pySubT false reComma [RT.g 1, RT.s ", ", RT.g 2] (str "qx zvwqrs") = (str "qx zvwqrs") := by rfl
  have h8 : pySubT false reSpacePunct [RT.g 1] (str "qx zvwqrs") = (str "qx zvwqrs") := by rfl
  have h9 : pySubT false reSentCap [RT.g 1, RT.s " ", RT.g 2] (str "qx zvwqrs") = (str "qx zvwqrs") := by rfl
  have h10 : pySub false reMultiSpace (constR " ") (str "qx zvwqrs") = (str "qx zvwqrs") := by rfl
  have h11 : contrFix "s" (str "qx zvwqrs") = (str "qx zvwqrs") := by rfl
  have h12 : pySub true reCapAfterLabel cap_after_label (str "qx zvwqrs") = (str "qx zvwqrs") := by rfl
  have h13 : contrFix "t" (str "qx zvwqrs") = (str "qx zvwqrs") := by rfl
  have h14 : contrFix "ve" (str "qx zvwqrs") = (str "qx zvwqrs") := by rfl
  have h15 : contrFix "re" (str "qx zvwqrs") = (str "qx zvwqrs") := by rfl
  have h16 : contrFix "ll" (str "qx zvwqrs") = (str "qx zvwqrs") := by rfl
  have h17 : contrFix "d" (str "qx zvwqrs") = (str "qx zvwqrs") := by rfl
  have h18 : List.foldl applyAdditional (str "qx zvwqrs") ADDITIONAL_FIXES = (str "qx zvwqrs") := by
    rw [foldl_chunk applyAdditional (str "qx zvwqrs") ADDITIONAL_FIXES 50]
    have c0 : List.foldl applyAdditional (str "qx zvwqrs") (ADDITIONAL_FIXES.take 50) = (str "qx zvwqrs") := by rfl
    rw [c0]
    rw [foldl_chunk applyAdditional (str "qx zvwqrs") (ADDITIONAL_FIXES.drop 50) 50]
    have c1 : List.foldl applyAdditional (str "qx zvwqrs") ((ADDITIONAL_FIXES.drop 50).take 50) = (str "qx zvwqrs") := by rfl
    rw [c1]
    rw [foldl_chunk applyAdditional (str "qx zvwqrs") ((ADDITIONAL_FIXES.drop 50).drop 50) 50]
    have c2 : List.foldl applyAdditional (str "qx zvwqrs") (((ADDITIONAL_FIXES.drop 50).drop 50).take 50) = (str "qx zvwqrs") := by rfl
    rw [c2]
    rw [foldl_chunk applyAdditional (str "qx zvwqrs") (((ADDITIONAL_FIXES.drop 50).drop 50).drop 50) 50]
    have c3 : List.foldl applyAdditional (str "qx zvwqrs") ((((ADDITIONAL_FIXES.drop 50).drop 50).drop 50).take 50) = (str "qx zvwqrs") := by rfl
    rw [c3]
    rw [foldl_chunk applyAdditional (str "qx zvwqrs") ((((ADDITIONAL_FIXES.drop 50).drop 50).drop 50).drop 50) 50]
    have c4 : List.foldl applyAdditional (str "qx zvwqrs") (((((ADDITIONAL_FIXES.drop 50).drop 50).drop 50).drop 50).take 50) = (str "qx zvwqrs") := by rfl
    rw [c4]
    rw [foldl_chunk applyAdditional (str "qx zvwqrs") (((((ADDITIONAL_FIXES.drop 50).drop 50).drop 50).drop 50).drop 50) 50]
    have c5 : List.foldl applyAdditional (str "qx zvwqrs") ((((((ADDITIONAL_FIXES.drop 50).drop 50).drop 50).drop 50).drop 50).take 50) = (str "qx zvwqrs") := by rfl
    rw [c5]
    rw [foldl_chunk applyAdditional (str "qx zvwqrs") ((((((ADDITIONAL_FIXES.drop 50).drop 50).drop 50).drop 50).drop 50).drop 50) 50]
    have c6 : List.foldl applyAdditional (str "qx zvwqrs") (((((((ADDITIONAL_FIXES.drop 50).drop 50).drop 50).drop 50).drop 50).drop 50).take 50) = (str "qx zvwqrs") := by rfl
    rw [c6]
    rfl
  have h19 : pySub false reMergePre merge_pre_careful (str "qx zvwqrs") = (str "qxzvwqrs") := by rfl
  have h20 : pySub false reMergeSuf merge_suffix_careful (str "qxzvwqrs") = (str "qxzvwqrs") := by rfl
  have h21 : pySub true reWordThe split_wordthe (str "qxzvwqrs") = (str "qxzvwqrs") := by rfl
  have h22 : pySub false reMultiSpace (constR " ") (str "qxzvwqrs") = (str "qxzvwqrs") := by rfl
  have h23 : pySub false reSrcHttp (constR "SOURCE: http") (str "qxzvwqrs") = (str "qxzvwqrs") := by rfl
  have h24 : pySub true reNoteThis (constR "Note: This") (str "qxzvwqrs") = (str "qxzvwqrs") := by rfl
  have h25 : pyStrip (str "qxzvwqrs") = (str "qxzvwqrs") := by rfl
  simp only [_fix_broken_words]
  rw [if_neg (by decide)]
  rw [h0, h1, h2, h3, h4, h5, h6, h7, h8, h9, h10, h11, h12, h13, h14, h15, h16, h17, h18, h19, h20, h21, h22, h23, h24, h25]

theorem fixEval5 : _fix_broken_words (str "What color is the sky?") = (str "What color is the sky?") := by
  have h0 : pySubT true reLabelColon [RT.g 1, RT.s ": ", RT.g 2] (str "What color is the sky?") = (str "What color is the sky?") := by rfl
  have h1 : pySub false reSourcE (constR "SOURCE") (str "What color is the sky?") = (str "What color is the sky?") := by rfl
  have h2 : pySub false reSourceColon (constR "SOURCE: ") (str "What color is the sky?") = (str "What color is the sky?") := by rfl
  have h3 : List.foldl applyCommon (str "What color is the sky?") COMMON_FIXES = (str "What color is the sky?") := by
    rw [foldl_chunk applyCommon (str "What color is the sky?") COMMON_FIXES 50]
    have c0 : List.foldl applyCommon (str "What color is the sky?") (COMMON_FIXES.take 50) = (str "What color is the sky?") := by rfl
    rw [c0]
    rw [foldl_chunk applyCommon (str "What color is the sky?") (COMMON_FIXES.drop 50) 50]
    have c1 : List.foldl applyCommon (str "What color is the sky?") ((COMMON_FIXES.drop 50).take 50) = (str "What color is the sky?") := by rfl
    rw [c1]
    rw [foldl_chunk applyCommon (str "What color is the sky?") ((COMMON_FIXES.drop 50).drop 50) 50]
    have c2 : List.foldl applyCommon (str "What color is the sky?") (((COMMON_FIXES.drop 50).drop 50).take 50) = (str "What color is the sky?") := by rfl
    rw [c2]
    rw [foldl_chunk applyCommon (str "What color is the sky?") (((COMMON_FIXES.drop 50).drop 50).drop 50) 50]
    have c3 : List.foldl applyCommon (str "What color is the sky?") ((((COMMON_FIXES.drop 50).drop 50).drop 50).take 50) = (str "What color is the sky?") := by rfl
    rw [c3]
    rw [foldl_chunk applyCommon (str "What color is the sky?") ((((COMMON_FIXES.drop 50).drop 50).drop 50).drop 50) 50]
    have c4 : List.foldl applyCommon (str "What color is the sky?") (((((COMMON_FIXES.drop 50).drop 50).drop 50).drop 50).take 50) = (str "What color is the sky?") := by rfl
    rw [c4]
    rw [foldl_chunk applyCommon (str "What color is the sky?") (((((COMMON_FIXES.drop 50).drop 50).drop 50).drop 50).drop 50) 50]
    have c5 : List.foldl applyCommon (str "What color is the sky?") ((((((COMMON_FIXES.drop 50).drop 50).drop 50).drop 50).drop 50).take 50) = (str "What color is the sky?") := by rfl
    rw [c5]
    rw [foldl_chunk applyCommon (str "What color is the sky?") ((((((COMMON_FIXES.drop 50).drop 50).drop 50).drop 50).drop 50).drop 50) 50]
    have c6 : List.foldl applyCommon (str "What color is the sky?") (((((((COMMON_FIXES.drop 50).drop 50).drop 50).drop 50).drop 50).drop 50).take 50) = (str "What color is the sky?") := by rfl
    rw [c6]
    rw [foldl_chunk applyCommon (str "What color is the sky?") (((((((COMMON_FIXES.drop 50).drop 50).drop 50).drop 50).drop 50).drop 50).drop 50) 50]
    have c7 : List.foldl applyCommon (str "What color is the sky?") ((((((((COMMON_FIXES.drop 50).drop 50).drop 50).drop 50).drop 50).drop 50).drop 50).take 50) = (str "What color is the sky?") := by rfl
    rw [c7]
    rw [foldl_chunk applyCommon (str "What color is the sky?") ((((((((COMMON_FIXES.drop 50).drop 50).drop 50).drop 50).drop 50).drop 50).drop 50).drop 50) 50]
    have c8 : List.foldl applyCommon (str "What color is the sky?") (((((((((COMMON_FIXES.drop 50).drop 50).drop 50).drop 50).drop 50).drop 50).drop 50).drop 50).take 50) = (str "What color is the sky?") := by rfl
    rw [c8]
    rw [foldl_chunk applyCommon (str "What color is the sky?") (((((((((COMMON_FIXES.drop 50).drop 50).drop 50).drop 50).drop 50).drop 50).drop 50).drop 50).drop 50) 50]
    have c9 : List.foldl applyCommon (str "What color is the sky?") ((((((((((COMMON_FIXES.drop 50).drop 50).drop 50).drop 50).drop 50).drop 50).drop 50).drop 50).drop 50).take 50) = (str "What color is the sky?") := by rfl
    rw [c9]
    rw [foldl_chunk applyCommon (str "What color is the sky?") ((((((((((COMMON_FIXES.drop 50).drop 50).drop 50).drop 50).drop 50).drop 50).drop 50).drop 50).drop 50).drop 50) 50]
    have c10 : List.foldl applyCommon (str "What color is the sky?") (((((((((((COMMON_FIXES.drop 50).drop 50).drop 50).drop 50).drop 50).drop 50).drop 50).drop 50).drop 50).drop 50).take 50) = (str "What color is the sky?") := by rfl
    rw [c10]
    rw [foldl_chunk applyCommon (str "What color is the sky?") (((((((((((COMMON_FIXES.drop 50).drop 50).drop 50).drop 50).drop 50).drop 50).drop 50).drop 50).drop 50).drop 50).drop 50) 50]
    have c11 : List.foldl applyCommon (str "What color is the sky?") ((((((((((((COMMON_FIXES.drop 50).drop 50).drop 50).drop 50).drop 50).drop 50).drop 50).drop 50).drop 50).drop 50).drop 50).take 50) = (str "What color is the sky?") := by rfl
    rw [c11]
    rfl
  have h4 : pySubT false reHyph1 [RT.g 1, RT.s "-", RT.g 2] (str "What color is the sky?") = (str "What color is the sky?") := by rfl
  have h5 : pySubT false reHyph2 [RT.g 1, RT.s "-", RT.g 2] (str "What color is the sky?") = (str "What color is the sky?") := by rfl
  have h6 : pySubT false reHyph3 [RT.g 1, RT.s "-", RT.g 2] (str "What color is the sky?") = (str "What color is the sky?") := by rfl
  have h7 : pySubT false reComma [RT.g 1, RT.s ", ", RT.g 2] (str "What color is the sky?") = (str "What color is the sky?") := by rfl
  have h8 : pySubT false reSpacePunct [RT.g 1] (str "What color is the sky?") = (str "What color is the sky?") := by rfl
  have h9 : pySubT false reSentCap [RT.g 1, RT.s " ", RT.g 2] (str "What color is the sky?") = (str "What color is the sky?") := by rfl
  have h10 : pySub false reMultiSpace (constR " ") (str "What color is the sky?") = (str "What color is the sky?") := by rfl
  have h11 : contrFix "s" (str "What color is the sky?") = (str "What color is the sky?") := by rfl
  have h12 : pySub true reCapAfterLabel cap_after_label (str "What color is the sky?") = (str "What color is the sky?") := by rfl
  have h13 : contrFix "t" (str "What color is the sky?") = (str "What color is the sky?") := by rfl
  have h14 : contrFix "ve" (str "What color is the sky?") = (str "What color is the sky?") := by rfl
  have h15 : contrFix "re" (str "What color is the sky?") = (str "What color is the sky?") := by rfl
  have h16 : contrFix "ll" (str "What color is the sky?") = (str "What color is the sky?") := by rfl
  have h17 : contrFix "d" (str "What color is the sky?") = (str "What color is the sky?") := by rfl
  have h18 : List.foldl applyAdditional (str "What color is the sky?") ADDITIONAL_FIXES = (str "What color is the sky?") := by
    rw [foldl_chunk applyAdditional (str "What color is the sky?") ADDITIONAL_FIXES 50]
    have c0 : List.foldl applyAdditional (str "What color is the sky?") (ADDITIONAL_FIXES.take 50) = (str "What color is the sky?") := by rfl
    rw [c0]
    rw [foldl_chunk applyAdditional (str "What color is the sky?") (ADDITIONAL_FIXES.drop 50) 50]
    have c1 : List.foldl applyAdditional (str "What color is the sky?") ((ADDITIONAL_FIXES.drop 50).take 50) = (str "What color is the sky?") := by rfl
    rw [c1]
    rw [foldl_chunk applyAdditional (str "What color is the sky?") ((ADDITIONAL_FIXES.drop 50).drop 50) 50]
    have c2 : List.foldl applyAdditional (str "What color is the sky?") (((ADDITIONAL_FIXES.drop 50).drop 50).take 50) = (str "What color is the sky?") := by rfl
    rw [c2]
    rw [foldl_chunk applyAdditional (str "What color is the sky?") (((ADDITIONAL_FIXES.drop 50).drop 50).drop 50) 50]
    have c3 : List.foldl applyAdditional (str "What color is the sky?") ((((ADDITIONAL_FIXES.drop 50).drop 50).drop 50).take 50) = (str "What color is the sky?") := by rfl
    rw [c3]
    rw [foldl_chunk applyAdditional (str "What color is the sky?") ((((ADDITIONAL_FIXES.drop 50).drop 50).drop 50).drop 50) 50]
    have c4 : List.foldl applyAdditional (str "What color is the sky?") (((((ADDITIONAL_FIXES.drop 50).drop 50).drop 50).drop 50).take 50) = (str "What color is the sky?") := by rfl
    rw [c4]
    rw [foldl_chunk applyAdditional (str "What color is the sky?") (((((ADDITIONAL_FIXES.drop 50).drop 50).drop 50).drop 50).drop 50) 50]
    have c5 : List.foldl applyAdditional (str "What color is the sky?") ((((((ADDITIONAL_FIXES.drop 50).drop 50).drop 50).drop 50).drop 50).take 50) = (str "What color is the sky?") := by rfl
    rw [c5]
    rw [foldl_chunk applyAdditional (str "What color is the sky?") ((((((ADDITIONAL_FIXES.drop 50).drop 50).drop 50).drop 50).drop 50).drop 50) 50]
    have c6 : List.foldl applyAdditional (str "What color is the sky?") (((((((ADDITIONAL_FIXES.drop 50).drop 50).drop 50).drop 50).drop 50).drop 50).take 50) = (str "What color is the sky?") := by rfl
    rw [c6]
    rfl
  have h19 : pySub false reMergePre merge_pre_careful (str "What color is the sky?") = (str "What color is the sky?") := by rfl
  have h20 : pySub false reMergeSuf merge_suffix_careful (str "What color is the sky?") = (str "What color is the sky?") := by rfl
  have h21 : pySub true reWordThe split_wordthe (str "What color is the sky?") = (str "What color is the sky?") := by rfl
  have h22 : pySub false reMultiSpace (constR " ") (str "What color is the sky?") = (str "What color is the sky?") := by rfl
  have h23 : pySub false reSrcHttp (constR "SOURCE: http") (str "What color is the sky?") = (str "What color is the sky?") := by rfl
  have h24 : pySub true reNoteThis (constR "Note: This") (str "What color is the sky?") = (str "What color is the sky?") := by rfl
  have h25 : pyStrip (str "What color is the sky?") = (str "What color is the sky?") := by rfl
  simp only [_fix_broken_words]
  rw [if_neg (by decide)]
  rw [h0, h1, h2, h3, h4, h5, h6, h7, h8, h9, h10, h11, h12, h13, h14, h15, h16, h17, h18, h19, h20, h21, h22, h23, h24, h25]

theorem fixEval6 : _fix_broken_words (str "Red") = (str "Red") := by
  have h0 : pySubT true reLabelColon [RT.g 1, RT.s ": ", RT.g 2] (str "Red") = (str "Red") := by rfl
  have h1 : pySub false reSourcE (constR "SOURCE") (str "Red") = (str "Red") := by rfl
  have h2 : pySub false reSourceColon (constR "SOURCE: ") (str "Red") = (str "Red") := by rfl
  have h3 : List.foldl applyCommon (str "Red") COMMON_FIXES = (str "Red") := by
    rw [foldl_chunk applyCommon (str "Red") COMMON_FIXES 50]
    have c0 : List.foldl applyCommon (str "Red") (COMMON_FIXES.take 50) = (str "Red") := by rfl
    rw [c0]
    rw [foldl_chunk applyCommon (str "Red") (COMMON_FIXES.drop 50) 50]
    have c1 : List.foldl applyCommon (str "Red") ((COMMON_FIXES.drop 50).take 50) = (str "Red") := by rfl
    rw [c1]
    rw [foldl_chunk applyCommon (str "Red") ((COMMON_FIXES.drop 50).drop 50) 50]
    have c2 : List.foldl applyCommon (str "Red") (((COMMON_FIXES.drop 50).drop 50).take 50) = (str "Red") := by rfl
    rw [c2]
    rw [foldl_chunk applyCommon (str "Red") (((COMMON_FIXES.drop 50).drop 50).drop 50) 50]
    have c3 : List.foldl applyCommon (str "Red") ((((COMMON_FIXES.drop 50).drop 50).drop 50).take 50) = (str "Red") := by rfl
    rw [c3]
    rw [foldl_chunk applyCommon (str "Red") ((((COMMON_FIXES.drop 50).drop 50).drop 50).drop 50) 50]
    have c4 : List.foldl applyCommon (str "Red") (((((COMMON_FIXES.drop 50).drop 50).drop 50).drop 50).take 50) = (str "Red") := by rfl
    rw [c4]
    rw [foldl_chunk applyCommon (str "Red") (((((COMMON_FIXES.drop 50).drop 50).drop 50).drop 50).drop 50) 50]
    have c5 : List.foldl applyCommon (str "Red") ((((((COMMON_FIXES.drop 50).drop 50).drop 50).drop 50).drop 50).take 50) = (str "Red") := by rfl
    rw [c5]
    rw [foldl_chunk applyCommon (str "Red") ((((((COMMON_FIXES.drop 50).drop 50).drop 50).drop 50).drop 50).drop 50) 50]
    have c6 : List.foldl applyCommon (str "Red") (((((((COMMON_FIXES.drop 50).drop 50).drop 50).drop 50).drop 50).drop 50).take 50) = (str "Red") := by rfl
    rw [c6]
    rw [foldl_chunk applyCommon (str "Red") (((((((COMMON_FIXES.drop 50).drop 50).drop 50).drop 50).drop 50).drop 50).drop 50) 50]
    have c7 : List.foldl applyCommon (str "Red") ((((((((COMMON_FIXES.drop 50).drop 50).drop 50).drop 50).drop 50).drop 50).drop 50).take 50) = (str "Red") := by rfl
    rw [c7]
    rw [foldl_chunk applyCommon (str "Red") ((((((((COMMON_FIXES.drop 50).drop 50).drop 50).drop 50).drop 50).drop 50).drop 50).drop 50) 50]
    have c8 : List.foldl applyCommon (str "Red") (((((((((COMMON_FIXES.drop 50).drop 50).drop 50).drop 50).drop 50).drop 50).drop 50).drop 50).take 50) = (str "Red") := by rfl
    rw [c8]
    rw [foldl_chunk applyCommon (str "Red") (((((((((COMMON_FIXES.drop 50).drop 50).drop 50).drop 50).drop 50).drop 50).drop 50).drop 50).drop 50) 50]
    have c9 : List.foldl applyCommon (str "Red") ((((((((((COMMON_FIXES.drop 50).drop 50).drop 50).drop 50).drop 50).drop 50).drop 50).drop 50).drop 50).take 50) = (str "Red") := by rfl
    rw [c9]
    rw [foldl_chunk applyCommon (str "Red") ((((((((((COMMON_FIXES.drop 50).drop 50).drop 50).drop 50).drop 50).drop 50).drop 50).drop 50).drop 50).drop 50) 50]
    have c10 : List.foldl applyCommon (str "Red") (((((((((((COMMON_FIXES.drop 50).drop 50).drop 50).drop 50).drop 50).drop 50).drop 50).drop 50).drop 50).drop 50).take 50) = (str "Red") := by rfl
    rw [c10]
    rw [foldl_chunk applyCommon (str "Red") (((((((((((COMMON_FIXES.drop 50).drop 50).drop 50).drop 50).drop 50).drop 50).drop 50).drop 50).drop 50).drop 50).drop 50) 50]
    have c11 : List.foldl applyCommon (str "Red") ((((((((((((COMMON_FIXES.drop 50).drop 50).drop 50).drop 50).drop 50).drop 50).drop 50).drop 50).drop 50).drop 50).drop 50).take 50) = (str "Red") := by rfl
    rw [c11]
    rfl
  have h4 : pySubT false reHyph1 [RT.g 1, RT.s "-", RT.g 2] (str "Red") = (str "Red") := by rfl
  have h5 : pySubT false reHyph2 [RT.g 1, RT.s "-", RT.g 2] (str "Red") = (str "Red") := by rfl
  have h6 : pySubT false reHyph3 [RT.g 1, RT.s "-", RT.g 2] (str "Red") = (str "Red") := by rfl
  have h7 : pySubT false reComma [RT.g 1, RT.s ", ", RT.g 2] (str "Red") = (str "Red") := by rfl
  have h8 : pySubT false reSpacePunct [RT.g 1] (str "Red") = (str "Red") := by rfl
  have h9 : pySubT false reSentCap [RT.g 1, RT.s " ", RT.g 2] (str "Red") = (str "Red") := by rfl
  have h10 : pySub false reMultiSpace (constR " ") (str "Red") = (str "Red") := by rfl
  have h11 : contrFix "s" (str "Red") = (str "Red") := by rfl
  have h12 : pySub true reCapAfterLabel cap_after_label (str "Red") = (str "Red") := by rfl
  have h13 : contrFix "t" (str "Red") = (str "Red") := by rfl
  have h14 : contrFix "ve" (str "Red") = (str "Red") := by rfl
  have h15 : contrFix "re" (str "Red") = (str "Red") := by rfl
  have h16 : contrFix "ll" (str "Red") = (str "Red") := by rfl
  have h17 : contrFix "d" (str "Red") = (str "Red") := by rfl
  have h18 : List.foldl applyAdditional (str "Red") ADDITIONAL_FIXES = (str "Red") := by
    rw [foldl_chunk applyAdditional (str "Red") ADDITIONAL_FIXES 50]
    have c0 : List.foldl applyAdditional (str "Red") (ADDITIONAL_FIXES.take 50) = (str "Red") := by rfl
    rw [c0]
    rw [foldl_chunk applyAdditional (str "Red") (ADDITIONAL_FIXES.drop 50) 50]
    have c1 : List.foldl applyAdditional (str "Red") ((ADDITIONAL_FIXES.drop 50).take 50) = (str "Red") := by rfl
    rw [c1]
    rw [foldl_chunk applyAdditional (str "Red") ((ADDITIONAL_FIXES.drop 50).drop 50) 50]
    have c2 : List.foldl applyAdditional (str "Red") (((ADDITIONAL_FIXES.drop 50).drop 50).take 50) = (str "Red") := by rfl
    rw [c2]
    rw [foldl_chunk applyAdditional (str "Red") (((ADDITIONAL_FIXES.drop 50).drop 50).drop 50) 50]
    have c3 : List.foldl applyAdditional (str "Red") ((((ADDITIONAL_FIXES.drop 50).drop 50).drop 50).take 50) = (str "Red") := by rfl
    rw [c3]
    rw [foldl_chunk applyAdditional (str "Red") ((((ADDITIONAL_FIXES.drop 50).drop 50).drop 50).drop 50) 50]
    have c4 : List.foldl applyAdditional (str "Red") (((((ADDITIONAL_FIXES.drop 50).drop 50).drop 50).drop 50).take 50) = (str "Red") := by rfl
    rw [c4]
    rw [foldl_chunk applyAdditional (str "Red") (((((ADDITIONAL_FIXES.drop 50).drop 50).drop 50).drop 50).drop 50) 50]
    have c5 : List.foldl applyAdditional (str "Red") ((((((ADDITIONAL_FIXES.drop 50).drop 50).drop 50).drop 50).drop 50).take 50) = (str "Red") := by rfl
    rw [c5]
    rw [foldl_chunk applyAdditional (str "Red") ((((((ADDITIONAL_FIXES.drop 50).drop 50).drop 50).drop 50).drop 50).drop 50) 50]
    have c6 : List.foldl applyAdditional (str "Red") (((((((ADDITIONAL_FIXES.drop 50).drop 50).drop 50).drop 50).drop 50).drop 50).take 50) = (str "Red") := by rfl
    rw [c6]
    rfl
  have h19 : pySub false reMergePre merge_pre_careful (str "Red") = (str "Red") := by rfl
  have h20 : pySub false reMergeSuf merge_suffix_careful (str "Red") = (str "Red") := by rfl
  have h21 : pySub true reWordThe split_wordthe (str "Red") = (str "Red") := by rfl
  have h22 : pySub false reMultiSpace (constR " ") (str "Red") = (str "Red") := by rfl
  have h23 : pySub false reSrcHttp (constR "SOURCE: http") (str "Red") = (str "Red") := by rfl
  have h24 : pySub true reNoteThis (constR "Note: This") (str "Red") = (str "Red") := by rfl
  have h25 : pyStrip (str "Red") = (str "Red") := by rfl
  simp only [_fix_broken_words]
  rw [if_neg (by decide)]
  rw [h0, h1, h2, h3, h4, h5, h6, h7, h8, h9, h10, h11, h12, h13, h14, h15, h16, h17, h18, h19, h20, h21, h22, h23, h24, h25]

theorem fixEval7 : _fix_broken_words (str "Green") = (str "Green") := by
  have h0 : pySubT true reLabelColon [RT.g 1, RT.s ": ", RT.g 2] (str "Green") = (str "Green") := by rfl
  have h1 : pySub false reSourcE (constR "SOURCE") (str "Green") = (str "Green") := by rfl
  have h2 : pySub false reSourceColon (constR "SOURCE: ") (str "Green") = (str "Green") := by rfl
  have h3 : List.foldl applyCommon (str "Green") COMMON_FIXES = (str "Green") := by
    rw [foldl_chunk applyCommon (str "Green") COMMON_FIXES 50]
    have c0 : List.foldl applyCommon (str "Green") (COMMON_FIXES.take 50) = (str "Green") := by rfl
    rw [c0]
    rw [foldl_chunk applyCommon (str "Green") (COMMON_FIXES.drop 50) 50]
    have c1 : List.foldl applyCommon (str "Green") ((COMMON_FIXES.drop 50).take 50) = (str "Green") := by rfl
    rw [c1]
    rw [foldl_chunk applyCommon (str "Green") ((COMMON_FIXES.drop 50).drop 50) 50]
    have c2 : List.foldl applyCommon (str "Green") (((COMMON_FIXES.drop 50).drop 50).take 50) = (str "Green") := by rfl
    rw [c2]
    rw [foldl_chunk applyCommon (str "Green") (((COMMON_FIXES.drop 50).drop 50).drop 50) 50]
    have c3 : List.foldl applyCommon (str "Green") ((((COMMON_FIXES.drop 50).drop 50).drop 50).take 50) = (str "Green") := by rfl
    rw [c3]
    rw [foldl_chunk applyCommon (str "Green") ((((COMMON_FIXES.drop 50).drop 50).drop 50).drop 50) 50]
    have c4 : List.foldl applyCommon (str "Green") (((((COMMON_FIXES.drop 50).drop 50).drop 50).drop 50).take 50) = (str "Green") := by rfl
    rw [c4]
    rw [foldl_chunk applyCommon (str "Green") (((((COMMON_FIXES.drop 50).drop 50).drop 50).drop 50).drop 50) 50]
    have c5 : List.foldl applyCommon (str "Green") ((((((COMMON_FIXES.drop 50).drop 50).drop 50).drop 50).drop 50).take 50) = (str "Green") := by rfl
    rw [c5]
    rw [foldl_chunk applyCommon (str "Green") ((((((COMMON_FIXES.drop 50).drop 50).drop 50).drop 50).drop 50).drop 50) 50]
    have c6 : List.foldl applyCommon (str "Green") (((((((COMMON_FIXES.drop 50).drop 50).drop 50).drop 50).drop 50).drop 50).take 50) = (str "Green") := by rfl
    rw [c6]
    rw [foldl_chunk applyCommon (str "Green") (((((((COMMON_FIXES.drop 50).drop 50).drop 50).drop 50).drop 50).drop 50).drop 50) 50]
    have c7 : List.foldl applyCommon (str "Green") ((((((((COMMON_FIXES.drop 50).drop 50).drop 50).drop 50).drop 50).drop 50).drop 50).take 50) = (str "Green") := by rfl
    rw [c7]
    rw [foldl_chunk applyCommon (str "Green") ((((((((COMMON_FIXES.drop 50).drop 50).drop 50).drop 50).drop 50).drop 50).drop 50).drop 50) 50]
    have c8 : List.foldl applyCommon (str "Green") (((((((((COMMON_FIXES.drop 50).drop 50).drop 50).drop 50).drop 50).drop 50).drop 50).drop 50).take 50) = (str "Green") := by rfl
    rw [c8]
    rw [foldl_chunk applyCommon (str "Green") (((((((((COMMON_FIXES.drop 50).drop 50).drop 50).drop 50).drop 50).drop 50).drop 50).drop 50).drop 50) 50]
    have c9 : List.foldl applyCommon (str "Green") ((((((((((COMMON_FIXES.drop 50).drop 50).drop 50).drop 50).drop 50).drop 50).drop 50).drop 50).drop 50).take 50) = (str "Green") := by rfl
    rw [c9]
    rw [foldl_chunk applyCommon (str "Green") ((((((((((COMMON_FIXES.drop 50).drop 50).drop 50).drop 50).drop 50).drop 50).drop 50).drop 50).drop 50).drop 50) 50]
    have c10 : List.foldl applyCommon (str "Green") (((((((((((COMMON_FIXES.drop 50).drop 50).drop 50).drop 50).drop 50).drop 50).drop 50).drop 50).drop 50).drop 50).take 50) = (str "Green") := by rfl
    rw [c10]
    rw [foldl_chunk applyCommon (str "Green") (((((((((((COMMON_FIXES.drop 50).drop 50).drop 50).drop 50).drop 50).drop 50).drop 50).drop 50).drop 50).drop 50).drop 50) 50]
    have c11 : List.foldl applyCommon (str "Green") ((((((((((((COMMON_FIXES.drop 50).drop 50).drop 50).drop 50).drop 50).drop 50).drop 50).drop 50).drop 50).drop 50).drop 50).take 50) = (str "Green") := by rfl
    rw [c11]
    rfl
  have h4 : pySubT false reHyph1 [RT.g 1, RT.s "-", RT.g 2] (str "Green") = (str "Green") := by rfl
  have h5 : pySubT false reHyph2 [RT.g 1, RT.s "-", RT.g 2] (str "Green") = (str "Green") := by rfl
  have h6 : pySubT false reHyph3 [RT.g 1, RT.s "-", RT.g 2] (str "Green") = (str "Green") := by rfl
  have h7 : pySubT false reComma [RT.g 1, RT.s ", ", RT.g 2] (str "Green") = (str "Green") := by rfl
  have h8 : pySubT false reSpacePunct [RT.g 1] (str "Green") = (str "Green") := by rfl
  have h9 : pySubT false reSentCap [RT.g 1, RT.s " ", RT.g 2] (str "Green") = (str "Green") := by rfl
  have h10 : pySub false reMultiSpace (constR " ") (str "Green") = (str "Green") := by rfl
  have h11 : contrFix "s" (str "Green") = (str "Green") := by rfl
  have h12 : pySub true reCapAfterLabel cap_after_label (str "Green") = (str "Green") := by rfl
  have h13 : contrFix "t" (str "Green") = (str "Green") := by rfl
  have h14 : contrFix "ve" (str "Green") = (str "Green") := by rfl
  have h15 : contrFix "re" (str "Green") = (str "Green") := by rfl
  have h16 : contrFix "ll" (str "Green") = (str "Green") := by rfl
  have h17 : contrFix "d" (str "Green") = (str "Green") := by rfl
  have h18 : List.foldl applyAdditional (str "Green") ADDITIONAL_FIXES = (str "Green") := by
    rw [foldl_chunk applyAdditional (str "Green") ADDITIONAL_FIXES 50]
    have c0 : List.foldl applyAdditional (str "Green") (ADDITIONAL_FIXES.take 50) = (str "Green") := by rfl
    rw [c0]
    rw [foldl_chunk applyAdditional (str "Green") (ADDITIONAL_FIXES.drop 50) 50]
    have c1 : List.foldl applyAdditional (str "Green") ((ADDITIONAL_FIXES.drop 50).take 50) = (str "Green") := by rfl
    rw [c1]
    rw [foldl_chunk applyAdditional (str "Green") ((ADDITIONAL_FIXES.drop 50).drop 50) 50]
    have c2 : List.foldl applyAdditional (str "Green") (((ADDITIONAL_FIXES.drop 50).drop 50).take 50) = (str "Green") := by rfl
    rw [c2]
    rw [foldl_chunk applyAdditional (str "Green") (((ADDITIONAL_FIXES.drop 50).drop 50).drop 50) 50]
    have c3 : List.foldl applyAdditional (str "Green") ((((ADDITIONAL_FIXES.drop 50).drop 50).drop 50).take 50) = (str "Green") := by rfl
    rw [c3]
    rw [foldl_chunk applyAdditional (str "Green") ((((ADDITIONAL_FIXES.drop 50).drop 50).drop 50).drop 50) 50]
    have c4 : List.foldl applyAdditional (str "Green") (((((ADDITIONAL_FIXES.drop 50).drop 50).drop 50).drop 50).take 50) = (str "Green") := by rfl
    rw [c4]
    rw [foldl_chunk applyAdditional (str "Green") (((((ADDITIONAL_FIXES.drop 50).drop 50).drop 50).drop 50).drop 50) 50]
    have c5 : List.foldl applyAdditional (str "Green") ((((((ADDITIONAL_FIXES.drop 50).drop 50).drop 50).drop 50).drop 50).take 50) = (str "Green") := by rfl
    rw [c5]
    rw [foldl_chunk applyAdditional (str "Green") ((((((ADDITIONAL_FIXES.drop 50).drop 50).drop 50).drop 50).drop 50).drop 50) 50]
    have c6 : List.foldl applyAdditional (str "Green") (((((((ADDITIONAL_FIXES.drop 50).drop 50).drop 50).drop 50).drop 50).drop 50).take 50) = (str "Green") := by rfl
    rw [c6]
    rfl
  have h19 : pySub false reMergePre merge_pre_careful (str "Green") = (str "Green") := by rfl
  have h20 : pySub false reMergeSuf merge_suffix_careful (str "Green") = (str "Green") := by rfl
  have h21 : pySub true reWordThe split_wordthe (str "Green") = (str "Green") := by rfl
  have h22 : pySub false reMultiSpace (constR " ") (str "Green") = (str "Green") := by rfl
  have h23 : pySub false reSrcHttp (constR "SOURCE: http") (str "Green") = (str "Green") := by rfl
  have h24 : pySub true reNoteThis (constR "Note: This") (str "Green") = (str "Green") := by rfl
  have h25 : pyStrip (str "Green") = (str "Green") := by rfl
  simp only [_fix_broken_words]
  rw [if_neg (by decide)]
  rw [h0, h1, h2, h3, h4, h5, h6, h7, h8, h9, h10, h11, h12, h13, h14, h15, h16, h17, h18, h19, h20, h21, h22, h23, h24, h25]

theorem fixEval8 : _fix_broken_words (str "Blue") = (str "Blue") := by
  have h0 : pySubT true reLabelColon [RT.g 1, RT.s ": ", RT.g 2] (str "Blue") = (str "Blue") := by rfl
  have h1 : pySub false reSourcE (constR "SOURCE") (str "Blue") = (str "Blue") := by rfl
  have h2 : pySub false reSourceColon (constR "SOURCE: ") (str "Blue") = (str "Blue") := by rfl
  have h3 : List.foldl applyCommon (str "Blue") COMMON_FIXES = (str "Blue") := by
    rw [foldl_chunk applyCommon (str "Blue") COMMON_FIXES 50]
    have c0 : List.foldl applyCommon (str "Blue") (COMMON_FIXES.take 50) = (str "Blue") := by rfl
    rw [c0]
    rw [foldl_chunk applyCommon (str "Blue") (COMMON_FIXES.drop 50) 50]
    have c1 : List.foldl applyCommon (str "Blue") ((COMMON_FIXES.drop 50).take 50) = (str "Blue") := by rfl
    rw [c1]
    rw [foldl_chunk applyCommon (str "Blue") ((COMMON_FIXES.drop 50).drop 50) 50]
    have c2 : List.foldl applyCommon (str "Blue") (((COMMON_FIXES.drop 50).drop 50).take 50) = (str "Blue") := by rfl
    rw [c2]
    rw [foldl_chunk applyCommon (str "Blue") (((COMMON_FIXES.drop 50).drop 50).drop 50) 50]
    have c3 : List.foldl applyCommon (str "Blue") ((((COMMON_FIXES.drop 50).drop 50).drop 50).take 50) = (str "Blue") := by rfl
    rw [c3]
    rw [foldl_chunk applyCommon (str "Blue") ((((COMMON_FIXES.drop 50).drop 50).drop 50).drop 50) 50]
    have c4 : List.foldl applyCommon (str "Blue") (((((COMMON_FIXES.drop 50).drop 50).drop 50).drop 50).take 50) = (str "Blue") := by rfl
    rw [c4]
    rw [foldl_chunk applyCommon (str "Blue") (((((COMMON_FIXES.drop 50).drop 50).drop 50).drop 50).drop 50) 50]
    have c5 : List.foldl applyCommon (str "Blue") ((((((COMMON_FIXES.drop 50).drop 50).drop 50).drop 50).drop 50).take 50) = (str "Blue") := by rfl
    rw [c5]
    rw [foldl_chunk applyCommon (str "Blue") ((((((COMMON_FIXES.drop 50).drop 50).drop 50).drop 50).drop 50).drop 50) 50]
    have c6 : List.foldl applyCommon (str "Blue") (((((((COMMON_FIXES.drop 50).drop 50).drop 50).drop 50).drop 50).drop 50).take 50) = (str "Blue") := by rfl
    rw [c6]
    rw [foldl_chunk applyCommon (str "Blue") (((((((COMMON_FIXES.drop 50).drop 50).drop 50).drop 50).drop 50).drop 50).drop 50) 50]
    have c7 : List.foldl applyCommon (str "Blue") ((((((((COMMON_FIXES.drop 50).drop 50).drop 50).drop 50).drop 50).drop 50).drop 50).take 50) = (str "Blue") := by rfl
    rw [c7]
    rw [foldl_chunk applyCommon (str "Blue") ((((((((COMMON_FIXES.drop 50).drop 50).drop 50).drop 50).drop 50).drop 50).drop 50).drop 50) 50]
    have c8 : List.foldl applyCommon (str "Blue") (((((((((COMMON_FIXES.drop 50).drop 50).drop 50).drop 50).drop 50).drop 50).drop 50).drop 50).take 50) = (str "Blue") := by rfl
    rw [c8]
    rw [foldl_chunk applyCommon (str "Blue") (((((((((COMMON_FIXES.drop 50).drop 50).drop 50).drop 50).drop 50).drop 50).drop 50).drop 50).drop 50) 50]
    have c9 : List.foldl applyCommon (str "Blue") ((((((((((COMMON_FIXES.drop 50).drop 50).drop 50).drop 50).drop 50).drop 50).drop 50).drop 50).drop 50).take 50) = (str "Blue") := by rfl
    rw [c9]
    rw [foldl_chunk applyCommon (str "Blue") ((((((((((COMMON_FIXES.drop 50).drop 50).drop 50).drop 50).drop 50).drop 50).drop 50).drop 50).drop 50).drop 50) 50]
    have c10 : List.foldl applyCommon (str "Blue") (((((((((((COMMON_FIXES.drop 50).drop 50).drop 50).drop 50).drop 50).drop 50).drop 50).drop 50).drop 50).drop 50).take 50) = (str "Blue") := by rfl
    rw [c10]
    rw [foldl_chunk applyCommon (str "Blue") (((((((((((COMMON_FIXES.drop 50).drop 50).drop 50).drop 50).drop 50).drop 50).drop 50).drop 50).drop 50).drop 50).drop 50) 50]
    have c11 : List.foldl applyCommon (str "Blue") ((((((((((((COMMON_FIXES.drop 50).drop 50).drop 50).drop 50).drop 50).drop 50).drop 50).drop 50).drop 50).drop 50).drop 50).take 50) = (str "Blue") := by rfl
    rw [c11]
    rfl
  have h4 : pySubT false reHyph1 [RT.g 1, RT.s "-", RT.g 2] (str "Blue") = (str "Blue") := by rfl
  have h5 : pySubT false reHyph2 [RT.g 1, RT.s "-", RT.g 2] (str "Blue") = (str "Blue") := by rfl
  have h6 : pySubT false reHyph3 [RT.g 1, RT.s "-", RT.g 2] (str "Blue") = (str "Blue") := by rfl
  have h7 : pySubT false reComma [RT.g 1, RT.s ", ", RT.g 2] (str "Blue") = (str "Blue") := by rfl
  have h8 : pySubT false reSpacePunct [RT.g 1] (str "Blue") = (str "Blue") := by rfl
  have h9 : pySubT false reSentCap [RT.g 1, RT.s " ", RT.g 2] (str "Blue") = (str "Blue") := by rfl
  have h10 : pySub false reMultiSpace (constR " ") (str "Blue") = (str "Blue") := by rfl
  have h11 : contrFix "s" (str "Blue") = (str "Blue") := by rfl
  have h12 : pySub true reCapAfterLabel cap_after_label (str "Blue") = (str "Blue") := by rfl
  have h13 : contrFix "t" (str "Blue") = (str "Blue") := by rfl
  have h14 : contrFix "ve" (str "Blue") = (str "Blue") := by rfl
  have h15 : contrFix "re" (str "Blue") = (str "Blue") := by rfl
  have h16 : contrFix "ll" (str "Blue") = (str "Blue") := by rfl
  have h17 : contrFix "d" (str "Blue") = (str "Blue") := by rfl
  have h18 : List.foldl applyAdditional (str "Blue") ADDITIONAL_FIXES = (str "Blue") := by
    rw [foldl_chunk applyAdditional (str "Blue") ADDITIONAL_FIXES 50]
    have c0 : List.foldl applyAdditional (str "Blue") (ADDITIONAL_FIXES.take 50) = (str "Blue") := by rfl
    rw [c0]
    rw [foldl_chunk applyAdditional (str "Blue") (ADDITIONAL_FIXES.drop 50) 50]
    have c1 : List.foldl applyAdditional (str "Blue") ((ADDITIONAL_FIXES.drop 50).take 50) = (str "Blue") := by rfl
    rw [c1]
    rw [foldl_chunk applyAdditional (str "Blue") ((ADDITIONAL_FIXES.drop 50).drop 50) 50]
    have c2 : List.foldl applyAdditional (str "Blue") (((ADDITIONAL_FIXES.drop 50).drop 50).take 50) = (str "Blue") := by rfl
    rw [c2]
    rw [foldl_chunk applyAdditional (str "Blue") (((ADDITIONAL_FIXES.drop 50).drop 50).drop 50) 50]
    have c3 : List.foldl applyAdditional (str "Blue") ((((ADDITIONAL_FIXES.drop 50).drop 50).drop 50).take 50) = (str "Blue") := by rfl
    rw [c3]
    rw [foldl_chunk applyAdditional (str "Blue") ((((ADDITIONAL_FIXES.drop 50).drop 50).drop 50).drop 50) 50]
    have c4 : List.foldl applyAdditional (str "Blue") (((((ADDITIONAL_FIXES.drop 50).drop 50).drop 50).drop 50).take 50) = (str "Blue") := by rfl
    rw [c4]
    rw [foldl_chunk applyAdditional (str "Blue") (((((ADDITIONAL_FIXES.drop 50).drop 50).drop 50).drop 50).drop 50) 50]
    have c5 : List.foldl applyAdditional (str "Blue") ((((((ADDITIONAL_FIXES.drop 50).drop 50).drop 50).drop 50).drop 50).take 50) = (str "Blue") := by rfl
    rw [c5]
    rw [foldl_chunk applyAdditional (str "Blue") ((((((ADDITIONAL_FIXES.drop 50).drop 50).drop 50).drop 50).drop 50).drop 50) 50]
    have c6 : List.foldl applyAdditional (str "Blue") (((((((ADDITIONAL_FIXES.drop 50).drop 50).drop 50).drop 50).drop 50).drop 50).take 50) = (str "Blue") := by rfl
    rw [c6]
    rfl
  have h19 : pySub false reMergePre merge_pre_careful (str "Blue") = (str "Blue") := by rfl
  have h20 : pySub false reMergeSuf merge_suffix_careful (str "Blue") = (str "Blue") := by rfl
  have h21 : pySub true reWordThe split_wordthe (str "Blue") = (str "Blue") := by rfl
  have h22 : pySub false reMultiSpace (constR " ") (str "Blue") = (str "Blue") := by rfl
  have h23 : pySub false reSrcHttp (constR "SOURCE: http") (str "Blue") = (str "Blue") := by rfl
  have h24 : pySub true reNoteThis (constR "Note: This") (str "Blue") = (str "Blue") := by rfl
  have h25 : pyStrip (str "Blue") = (str "Blue") := by rfl
  simp only [_fix_broken_words]
  rw [if_neg (by decide)]
  rw [h0, h1, h2, h3, h4, h5, h6, h7, h8, h9, h10, h11, h12, h13, h14, h15, h16, h17, h18, h19, h20, h21, h22, h23, h24, h25]

theorem fixEval9 : _fix_broken_words (str "Yellow") = (str "Yellow") := by
  have h0 : pySubT true reLabelColon [RT.g 1, RT.s ": ", RT.g 2] (str "Yellow") = (str "Yellow") := by rfl
  have h1 : pySub false reSourcE (constR "SOURCE") (str "Yellow") = (str "Yellow") := by rfl
  have h2 : pySub false reSourceColon (constR "SOURCE: ") (str "Yellow") = (str "Yellow") := by rfl
  have h3 : List.foldl applyCommon (str "Yellow") COMMON_FIXES = (str "Yellow") := by
    rw [foldl_chunk applyCommon (str "Yellow") COMMON_FIXES 50]
    have c0 : List.foldl applyCommon (str "Yellow") (COMMON_FIXES.take 50) = (str "Yellow") := by rfl
    rw [c0]
    rw [foldl_chunk applyCommon (str "Yellow") (COMMON_FIXES.drop 50) 50]
    have c1 : List.foldl applyCommon (str "Yellow") ((COMMON_FIXES.drop 50).take 50) = (str "Yellow") := by rfl
    rw [c1]
    rw [foldl_chunk applyCommon (str "Yellow") ((COMMON_FIXES.drop 50).drop 50) 50]
    have c2 : List.foldl applyCommon (str "Yellow") (((COMMON_FIXES.drop 50).drop 50).take 50) = (str "Yellow") := by rfl
    rw [c2]
    rw [foldl_chunk applyCommon (str "Yellow") (((COMMON_FIXES.drop 50).drop 50).drop 50) 50]
    have c3 : List.foldl applyCommon (str "Yellow") ((((COMMON_FIXES.drop 50).drop 50).drop 50).take 50) = (str "Yellow") := by rfl
    rw [c3]
    rw [foldl_chunk applyCommon (str "Yellow") ((((COMMON_FIXES.drop 50).drop 50).drop 50).drop 50) 50]
    have c4 : List.foldl applyCommon (str "Yellow") (((((COMMON_FIXES.drop 50).drop 50).drop 50).drop 50).take 50) = (str "Yellow") := by rfl
    rw [c4]
    rw [foldl_chunk applyCommon (str "Yellow") (((((COMMON_FIXES.drop 50).drop 50).drop 50).drop 50).drop 50) 50]
    have c5 : List.foldl applyCommon (str "Yellow") ((((((COMMON_FIXES.drop 50).drop 50).drop 50).drop 50).drop 50).take 50) = (str "Yellow") := by rfl
    rw [c5]
    rw [foldl_chunk applyCommon (str "Yellow") ((((((COMMON_FIXES.drop 50).drop 50).drop 50).drop 50).drop 50).drop 50) 50]
    have c6 : List.foldl applyCommon (str "Yellow") (((((((COMMON_FIXES.drop 50).drop 50).drop 50).drop 50).drop 50).drop 50).take 50) = (str "Yellow") := by rfl
    rw [c6]
    rw [foldl_chunk applyCommon (str "Yellow") (((((((COMMON_FIXES.drop 50).drop 50).drop 50).drop 50).drop 50).drop 50).drop 50) 50]
    have c7 : List.foldl applyCommon (str "Yellow") ((((((((COMMON_FIXES.drop 50).drop 50).drop 50).drop 50).drop 50).drop 50).drop 50).take 50) = (str "Yellow") := by rfl
    rw [c7]
    rw [foldl_chunk applyCommon (str "Yellow") ((((((((COMMON_FIXES.drop 50).drop 50).drop 50).drop 50).drop 50).drop 50).drop 50).drop 50) 50]
    have c8 : List.foldl applyCommon (str "Yellow") (((((((((COMMON_FIXES.drop 50).drop 50).drop 50).drop 50).drop 50).drop 50).drop 50).drop 50).take 50) = (str "Yellow") := by rfl
    rw [c8]
    rw [foldl_chunk applyCommon (str "Yellow") (((((((((COMMON_FIXES.drop 50).drop 50).drop 50).drop 50).drop 50).drop 50).drop 50).drop 50).drop 50) 50]
    have c9 : List.foldl applyCommon (str "Yellow") ((((((((((COMMON_FIXES.drop 50).drop 50).drop 50).drop 50).drop 50).drop 50).drop 50).drop 50).drop 50).take 50) = (str "Yellow") := by rfl
    rw [c9]
    rw [foldl_chunk applyCommon (str "Yellow") ((((((((((COMMON_FIXES.drop 50).drop 50).drop 50).drop 50).drop 50).drop 50).drop 50).drop 50).drop 50).drop 50) 50]
    have c10 : List.foldl applyCommon (str "Yellow") (((((((((((COMMON_FIXES.drop 50).drop 50).drop 50).drop 50).drop 50).drop 50).drop 50).drop 50).drop 50).drop 50).take 50) = (str "Yellow") := by rfl
    rw [c10]
    rw [foldl_chunk applyCommon (str "Yellow") (((((((((((COMMON_FIXES.drop 50).drop 50).drop 50).drop 50).drop 50).drop 50).drop 50).drop 50).drop 50).drop 50).drop 50) 50]
    have c11 : List.foldl applyCommon (str "Yellow") ((((((((((((COMMON_FIXES.drop 50).drop 50).drop 50).drop 50).drop 50).drop 50).drop 50).drop 50).drop 50).drop 50).drop 50).take 50) = (str "Yellow") := by rfl
    rw [c11]
    rfl
  have h4 : pySubT false reHyph1 [RT.g 1, RT.s "-", RT.g 2] (str "Yellow") = (str "Yellow") := by rfl
  have h5 : pySubT false reHyph2 [RT.g 1, RT.s "-", RT.g 2] (str "Yellow") = (str "Yellow") := by rfl
  have h6 : pySubT false reHyph3 [RT.g 1, RT.s "-", RT.g 2] (str "Yellow") = (str "Yellow") := by rfl
  have h7 : pySubT false reComma [RT.g 1, RT.s ", ", RT.g 2] (str "Yellow") = (str "Yellow") := by rfl
  have h8 : pySubT false reSpacePunct [RT.g 1] (str "Yellow") = (str "Yellow") := by rfl
  have h9 : pySubT false reSentCap [RT.g 1, RT.s " ", RT.g 2] (str "Yellow") = (str "Yellow") := by rfl
  have h10 : pySub false reMultiSpace (constR " ") (str "Yellow") = (str "Yellow") := by rfl
  have h11 : contrFix "s" (str "Yellow") = (str "Yellow") := by rfl
  have h12 : pySub true reCapAfterLabel cap_after_label (str "Yellow") = (str "Yellow") := by rfl
  have h13 : contrFix "t" (str "Yellow") = (str "Yellow") := by rfl
  have h14 : contrFix "ve" (str "Yellow") = (str "Yellow") := by rfl
  have h15 : contrFix "re" (str "Yellow") = (str "Yellow") := by rfl
  have h16 : contrFix "ll" (str "Yellow") = (str "Yellow") := by rfl
  have h17 : contrFix "d" (str "Yellow") = (str "Yellow") := by rfl
  have h18 : List.foldl applyAdditional (str "Yellow") ADDITIONAL_FIXES = (str "Yellow") := by
    rw [foldl_chunk applyAdditional (str "Yellow") ADDITIONAL_FIXES 50]
    have c0 : List.foldl applyAdditional (str "Yellow") (ADDITIONAL_FIXES.take 50) = (str "Yellow") := by rfl
    rw [c0]
    rw [foldl_chunk applyAdditional (str "Yellow") (ADDITIONAL_FIXES.drop 50) 50]
    have c1 : List.foldl applyAdditional (str "Yellow") ((ADDITIONAL_FIXES.drop 50).take 50) = (str "Yellow") := by rfl
    rw [c1]
    rw [foldl_chunk applyAdditional (str "Yellow") ((ADDITIONAL_FIXES.drop 50).drop 50) 50]
    have c2 : List.foldl applyAdditional (str "Yellow") (((ADDITIONAL_FIXES.drop 50).drop 50).take 50) = (str "Yellow") := by rfl
    rw [c2]
    rw [foldl_chunk applyAdditional (str "Yellow") (((ADDITIONAL_FIXES.drop 50).drop 50).drop 50) 50]
    have c3 : List.foldl applyAdditional (str "Yellow") ((((ADDITIONAL_FIXES.drop 50).drop 50).drop 50).take 50) = (str "Yellow") := by rfl
    rw [c3]
    rw [foldl_chunk applyAdditional (str "Yellow") ((((ADDITIONAL_FIXES.drop 50).drop 50).drop 50).drop 50) 50]
    have c4 : List.foldl applyAdditional (str "Yellow") (((((ADDITIONAL_FIXES.drop 50).drop 50).drop 50).drop 50).take 50) = (str "Yellow") := by rfl
    rw [c4]
    rw [foldl_chunk applyAdditional (str "Yellow") (((((ADDITIONAL_FIXES.drop 50).drop 50).drop 50).drop 50).drop 50) 50]
    have c5 : List.foldl applyAdditional (str "Yellow") ((((((ADDITIONAL_FIXES.drop 50).drop 50).drop 50).drop 50).drop 50).take 50) = (str "Yellow") := by rfl
    rw [c5]
    rw [foldl_chunk applyAdditional (str "Yellow") ((((((ADDITIONAL_FIXES.drop 50).drop 50).drop 50).drop 50).drop 50).drop 50) 50]
    have c6 : List.foldl applyAdditional (str "Yellow") (((((((ADDITIONAL_FIXES.drop 50).drop 50).drop 50).drop 50).drop 50).drop 50).take 50) = (str "Yellow") := by rfl
    rw [c6]
    rfl
  have h19 : pySub false reMergePre merge_pre_careful (str "Yellow") = (str "Yellow") := by rfl
  have h20 : pySub false reMergeSuf merge_suffix_careful (str "Yellow") = (str "Yellow") := by rfl
  have h21 : pySub true reWordThe split_wordthe (str "Yellow") = (str "Yellow") := by rfl
  have h22 : pySub false reMultiSpace (constR " ") (str "Yellow") = (str "Yellow") := by rfl
  have h23 : pySub false reSrcHttp (constR "SOURCE: http") (str "Yellow") = (str "Yellow") := by rfl
  have h24 : pySub true reNoteThis (constR "Note: This") (str "Yellow") = (str "Yellow") := by rfl
  have h25 : pyStrip (str "Yellow") = (str "Yellow") := by rfl
  simp only [_fix_broken_words]
  rw [if_neg (by decide)]
  rw [h0, h1, h2, h3, h4, h5, h6, h7, h8, h9, h10, h11, h12, h13, h14, h15, h16, h17, h18, h19, h20, h21, h22, h23, h24, h25]

theorem fixEvalX : _fix_broken_words (str "x") = (str "x") := by
  have h0 : pySubT true reLabelColon [RT.g 1, RT.s ": ", RT.g 2] (str "x") = (str "x") := by rfl
  have h1 : pySub false reSourcE (constR "SOURCE") (str "x") = (str "x") := by rfl
  have h2 : pySub false reSourceColon (constR "SOURCE: ") (str "x") = (str "x") := by rfl
  have h3 : List.foldl applyCommon (str "x") COMMON_FIXES = (str "x") := by
    rw [foldl_chunk applyCommon (str "x") COMMON_FIXES 50]
    have c0 : List.foldl applyCommon (str "x") (COMMON_FIXES.take 50) = (str "x") := by rfl
    rw [c0]
    rw [foldl_chunk applyCommon (str "x") (COMMON_FIXES.drop 50) 50]
    have c1 : List.foldl applyCommon (str "x") ((COMMON_FIXES.drop 50).take 50) = (str "x") := by rfl
    rw [c1]
    rw [foldl_chunk applyCommon (str "x") ((COMMON_FIXES.drop 50).drop 50) 50]
    have c2 : List.foldl applyCommon (str "x") (((COMMON_FIXES.drop 50).drop 50).take 50) = (str "x") := by rfl
    rw [c2]
    rw [foldl_chunk applyCommon (str "x") (((COMMON_FIXES.drop 50).drop 50).drop 50) 50]
    have c3 : List.foldl applyCommon (str "x") ((((COMMON_FIXES.drop 50).drop 50).drop 50).take 50) = (str "x") := by rfl
    rw [c3]
    rw [foldl_chunk applyCommon (str "x") ((((COMMON_FIXES.drop 50).drop 50).drop 50).drop 50) 50]
    have c4 : List.foldl applyCommon (str "x") (((((COMMON_FIXES.drop 50).drop 50).drop 50).drop 50).take 50) = (str "x") := by rfl
    rw [c4]
    rw [foldl_chunk applyCommon (str "x") (((((COMMON_FIXES.drop 50).drop 50).drop 50).drop 50).drop 50) 50]
    have c5 : List.foldl applyCommon (str "x") ((((((COMMON_FIXES.drop 50).drop 50).drop 50).drop 50).drop 50).take 50) = (str "x") := by rfl
    rw [c5]
    rw [foldl_chunk applyCommon (str "x") ((((((COMMON_FIXES.drop 50).drop 50).drop 50).drop 50).drop 50).drop 50) 50]
    have c6 : List.foldl applyCommon (str "x") (((((((COMMON_FIXES.drop 50).drop 50).drop 50).drop 50).drop 50).drop 50).take 50) = (str "x") := by rfl
    rw [c6]
    rw [foldl_chunk applyCommon (str "x") (((((((COMMON_FIXES.drop 50).drop 50).drop 50).drop 50).drop 50).drop 50).drop 50) 50]
    have c7 : List.foldl applyCommon (str "x") ((((((((COMMON_FIXES.drop 50).drop 50).drop 50).drop 50).drop 50).drop 50).drop 50).take 50) = (str "x") := by rfl
    rw [c7]
    rw [foldl_chunk applyCommon (str "x") ((((((((COMMON_FIXES.drop 50).drop 50).drop 50).drop 50).drop 50).drop 50).drop 50).drop 50) 50]
    have c8 : List.foldl applyCommon (str "x") (((((((((COMMON_FIXES.drop 50).drop 50).drop 50).drop 50).drop 50).drop 50).drop 50).drop 50).take 50) = (str "x") := by rfl
    rw [c8]
    rw [foldl_chunk applyCommon (str "x") (((((((((COMMON_FIXES.drop 50).drop 50).drop 50).drop 50).drop 50).drop 50).drop 50).drop 50).drop 50) 50]
    have c9 : List.foldl applyCommon (str "x") ((((((((((COMMON_FIXES.drop 50).drop 50).drop 50).drop 50).drop 50).drop 50).drop 50).drop 50).drop 50).take 50) = (str "x") := by rfl
    rw [c9]
    rw [foldl_chunk applyCommon (str "x") ((((((((((COMMON_FIXES.drop 50).drop 50).drop 50).drop 50).drop 50).drop 50).drop 50).drop 50).drop 50).drop 50) 50]
    have c10 : List.foldl applyCommon (str "x") (((((((((((COMMON_FIXES.drop 50).drop 50).drop 50).drop 50).drop 50).drop 50).drop 50).drop 50).drop 50).drop 50).take 50) = (str "x") := by rfl
    rw [c10]
    rw [foldl_chunk applyCommon (str "x") (((((((((((COMMON_FIXES.drop 50).drop 50).drop 50).drop 50).drop 50).drop 50).drop 50).drop 50).drop 50).drop 50).drop 50) 50]
    have c11 : List.foldl applyCommon (str "x") ((((((((((((COMMON_FIXES.drop 50).drop 50).drop 50).drop 50).drop 50).drop 50).drop 50).drop 50).drop 50).drop 50).drop 50).take 50) = (str "x") := by rfl
    rw [c11]
    rfl
  have h4 : pySubT false reHyph1 [RT.g 1, RT.s "-", RT.g 2] (str "x") = (str "x") := by rfl
  have h5 : pySubT false reHyph2 [RT.g 1, RT.s "-", RT.g 2] (str "x") = (str "x") := by rfl
  have h6 : pySubT false reHyph3 [RT.g 1, RT.s "-", RT.g 2] (str "x") = (str "x") := by rfl
  have h7 : pySubT false reComma [RT.g 1, RT.s ", ", RT.g 2] (str "x") = (str "x") := by rfl
  have h8 : pySubT false reSpacePunct [RT.g 1] (str "x") = (str "x") := by rfl
  have h9 : pySubT false reSentCap [RT.g 1, RT.s " ", RT.g 2] (str "x") = (str "x") := by rfl
  have h10 : pySub false reMultiSpace (constR " ") (str "x") = (str "x") := by rfl
  have h11 : contrFix "s" (str "x") = (str "x") := by rfl
  have h12 : pySub true reCapAfterLabel cap_after_label (str "x") = (str "x") := by rfl
  have h13 : contrFix "t" (str "x") = (str "x") := by rfl
  have h14 : contrFix "ve" (str "x") = (str "x") := by rfl
  have h15 : contrFix "re" (str "x") = (str "x") := by rfl
  have h16 : contrFix "ll" (str "x") = (str "x") := by rfl
  have h17 : contrFix "d" (str "x") = (str "x") := by rfl
  have h18 : List.foldl applyAdditional (str "x") ADDITIONAL_FIXES = (str "x") := by
    rw [foldl_chunk applyAdditional (str "x") ADDITIONAL_FIXES 50]
    have c0 : List.foldl applyAdditional (str "x") (ADDITIONAL_FIXES.take 50) = (str "x") := by rfl
    rw [c0]
    rw [foldl_chunk applyAdditional (str "x") (ADDITIONAL_FIXES.drop 50) 50]
    have c1 : List.foldl applyAdditional (str "x") ((ADDITIONAL_FIXES.drop 50).take 50) = (str "x") := by rfl
    rw [c1]
    rw [foldl_chunk applyAdditional (str "x") ((ADDITIONAL_FIXES.drop 50).drop 50) 50]
    have c2 : List.foldl applyAdditional (str "x") (((ADDITIONAL_FIXES.drop 50).drop 50).take 50) = (str "x") := by rfl
    rw [c2]
    rw [foldl_chunk applyAdditional (str "x") (((ADDITIONAL_FIXES.drop 50).drop 50).drop 50) 50]
    have c3 : List.foldl applyAdditional (str "x") ((((ADDITIONAL_FIXES.drop 50).drop 50).drop 50).take 50) = (str "x") := by rfl
    rw [c3]
    rw [foldl_chunk applyAdditional (str "x") ((((ADDITIONAL_FIXES.drop 50).drop 50).drop 50).drop 50) 50]
    have c4 : List.foldl applyAdditional (str "x") (((((ADDITIONAL_FIXES.drop 50).drop 50).drop 50).drop 50).take 50) = (str "x") := by rfl
    rw [c4]
    rw [foldl_chunk applyAdditional (str "x") (((((ADDITIONAL_FIXES.drop 50).drop 50).drop 50).drop 50).drop 50) 50]
    have c5 : List.foldl applyAdditional (str "x") ((((((ADDITIONAL_FIXES.drop 50).drop 50).drop 50).drop 50).drop 50).take 50) = (str "x") := by rfl
    rw [c5]
    rw [foldl_chunk applyAdditional (str "x") ((((((ADDITIONAL_FIXES.drop 50).drop 50).drop 50).drop 50).drop 50).drop 50) 50]
    have c6 : List.foldl applyAdditional (str "x") (((((((ADDITIONAL_FIXES.drop 50).drop 50).drop 50).drop 50).drop 50).drop 50).take 50) = (str "x") := by rfl
    rw [c6]
    rfl
  have h19 : pySub false reMergePre merge_pre_careful (str "x") = (str "x") := by rfl
  have h20 : pySub false reMergeSuf merge_suffix_careful (str "x") = (str "x") := by rfl
  have h21 : pySub true reWordThe split_wordthe (str "x") = (str "x") := by rfl
  have h22 : pySub false reMultiSpace (constR " ") (str "x") = (str "x") := by rfl
  have h23 : pySub false reSrcHttp (constR "SOURCE: http") (str "x") = (str "x") := by rfl
  have h24 : pySub true reNoteThis (constR "Note: This") (str "x") = (str "x") := by rfl
  have h25 : pyStrip (str "x") = (str "x") := by rfl
  simp only [_fix_broken_words]
  rw [if_neg (by decide)]
  rw [h0, h1, h2, h3, h4, h5, h6, h7, h8, h9, h10, h11, h12, h13, h14, h15, h16, h17, h18, h19, h20, h21, h22, h23, h24, h25]


/-! ## Concrete inputs for the claims -/

def linesC8 : List Str := [str "1. What color is the sky?", str "A. Red",
  str "B. Green", str "C. Blue", str "D. Yellow"]

def answersC8 : List (Int × AnswerEntry) :=
  [(1, ⟨str "C", str "The sky is blue due to Rayleigh scattering."⟩)]

def linesC1 : List Str := [str "150. "]

def tC1 : TestObj := ⟨str "t", str "t", [],
  [⟨str "t-q150", 150, [], [str "[Option missing]", str "[Option missing]",
    str "[Option missing]", str "[Option missing]"], -1, str "?",
    str "No explanation available (Parse failed)"⟩], 1⟩

def klinesC2 : List Str := [str "Answer Key", str "1.A", str "1.B"]

def linesC3 : List Str := [str "1. ", str "A. ", str "B. ", str "C. ",
  str "D. x", str "Answer Key", str "1.E"]

def tC3 : TestObj := ⟨str "t", str "t", [],
  [⟨str "t-q1", 1, [], [[], [], [], str "x"], 4, str "E",
    str "No explanation available (Parse failed)"⟩], 1⟩

def linesC3w : List Str := [str "1. ", str "A. ", str "B. ", str "C. ",
  str "D. "]

def answersC3w : List (Int × AnswerEntry) := [(1, ⟨str "C", []⟩)]

def qC3w : Question := ⟨str "q-1", 1, [], [[], [], [], []], 2, str "C",
  str "No explanation available (Parse failed)"⟩

def linesC9w : List Str := [str "1. ", str "A. ", str "B. ", str "D. "]

def qC9w : Question := ⟨str "q-1", 1, [],
  [[], [], str "[Option missing from PDF]", []], -1, str "?",
  str "No explanation available (Parse failed)"⟩

def klinesC10 : List Str := [str "Answer Key", str "1.a"]

def qC10w : Question := ⟨str "q-1", 1, [],
  [str "[Option missing]", str "[Option missing]", str "[Option missing]",
   str "[Option missing]"], 0, str "A",
  str "No explanation available (Parse failed)"⟩

/-! ## Helper lemmas -/

/-- The final loop never drops a block for its number: every block's
number reappears on some returned question (deduplication only). -/
theorem assembleLoop_keeps (answers : List (Int × AnswerEntry)) :
    ∀ (qs : List QBlock) (seen : List Int) (b : QBlock), b ∈ qs →
      b.number ∈ seen ∨
        ∃ q ∈ assembleLoop answers qs seen, q.number = b.number := by
  intro qs
  induction qs with
  | nil => intro seen b hb; cases hb
  | cons c rest ih =>
      intro seen b hb
      rw [assembleLoop]
      by_cases hc : seen.contains c.number
      · rw [if_pos hc]
        rcases List.mem_cons.mp hb with rfl | hb2
        · exact Or.inl (by simpa using hc)
        · exact ih seen b hb2
      · rw [if_neg hc]
        rcases List.mem_cons.mp hb with rfl | hb2
        · exact Or.inr ⟨buildFinal answers b, List.mem_cons_self _ _,
            buildFinal_number _ _⟩
        · rcases ih (c.number :: seen) b hb2 with hmem | ⟨q, hq, he⟩
          · rcases List.mem_cons.mp hmem with heq | hmem2
            · exact Or.inr ⟨buildFinal answers c, List.mem_cons_self _ _,
                by rw [buildFinal_number]; exact heq.symm⟩
            · exact Or.inl hmem2
          · exact Or.inr ⟨q, List.mem_cons_of_mem _ hq, he⟩

/-- A `dict` write is read back: the last value stored under a key is
the one `get` returns. -/
theorem dictGet_dictSet (d : List (Int × AnswerEntry)) (k : Int)
    (v : AnswerEntry) : dictGet (dictSet d k v) k = some v := by
  induction d with
  | nil => simp [dictSet, dictGet, List.find?]
  | cons x rest ih =>
      obtain ⟨k2, v2⟩ := x
      rw [dictSet]
      by_cases h : k2 = k
      · rw [if_pos h]
        simp [dictGet, List.find?]
      · rw [if_neg h]
        rw [dictGet] at ih ⊢
        simp only [List.find?]
        rw [show (decide ((k2, v2).1 = k)) = false by simpa using h]
        exact ih

/-! ## The claims -/

/-- Claim C1 (counterexample): the parsed document `["150. "]` yields a
Test whose question list contains the question numbered 150 — the
source's range check ends in `pass`, so nothing is dropped. -/
theorem C1_counterexample :
    _parse_pdf_source (.ok linesC1) (str "t") [] = some tC1 ∧
      tC1.questions.map (fun q => q.number) = [(150 : Int)] := by
  constructor
  · have hak : _parse_answer_key linesC1 = [] := by rfl
    have hloop : spLoop (linesC1.length + 1) linesC1 ⟨[], none, 0⟩ =
        ⟨[], some ⟨150, [], []⟩, 0⟩ := by rfl
    have hfin : finalizeSt ⟨[], some ⟨150, [], []⟩, 0⟩ =
        ⟨[⟨150, [], []⟩], none, 150⟩ := by rfl
    have hsm : _smart_parse_questions linesC1 [] =
        [⟨str "q-150", 150, [], [str "[Option missing]",
          str "[Option missing]", str "[Option missing]",
          str "[Option missing]"], -1, str "?",
          str "No explanation available (Parse failed)"⟩] := by
      simp only [_smart_parse_questions]
      rw [hloop, hfin]
      rfl
    simp only [_parse_pdf_source]
    rw [hak, hsm]
    rfl
  · rfl

/-- Claim C1 (amended): the merger applies no number filter at all:
every scanned block's number, in range or not, appears on some returned
question; only duplicate numbers are dropped. -/
theorem C1_no_number_filter (lines : List Str)
    (answers : List (Int × AnswerEntry)) (b : QBlock)
    (hb : b ∈ (finalizeSt (spLoop (lines.length + 1) lines
      ⟨[], none, 0⟩)).questions) :
    ∃ q ∈ _smart_parse_questions lines answers, q.number = b.number := by
  rw [_smart_parse_questions]
  rcases assembleLoop_keeps answers _ [] b hb with h | h
  · cases h
  · exact h

theorem C1_no_number_filter_witness :
    ∃ q ∈ _smart_parse_questions linesC1 [],
      q.number = (QBlock.mk 150 [] []).number :=
  C1_no_number_filter linesC1 [] ⟨150, [], []⟩ (by decide)

/-- Claim C2 (counterexample): with the key section `["Answer Key",
"1.A", "1.B"]` the mapping holds the letter of the second occurrence,
`B`, not the first. -/
theorem C2_counterexample :
    _parse_answer_key klinesC2 = [(1, ⟨str "B", []⟩)] ∧
      dictGet (_parse_answer_key klinesC2) 1 ≠ some ⟨str "A", []⟩ :=
  ⟨rfl, by decide⟩

/-- Claim C2 (amended): entries are accepted only for numbers in
`[1, 100]`, and a duplicate number keeps the letter and explanation of
the last occurrence (Python dict assignment overwrites). -/
theorem C2_bounds_and_overwrite (lines : List Str) (p : Int × AnswerEntry)
    (hp : p ∈ _parse_answer_key lines) (d : List (Int × AnswerEntry))
    (k : Int) (v : AnswerEntry) :
    (1 ≤ p.1 ∧ p.1 ≤ 100) ∧ dictGet (dictSet d k v) k = some v :=
  ⟨(parse_answer_key_vals lines p hp).1, dictGet_dictSet d k v⟩

theorem C2_bounds_and_overwrite_witness :
    (1 ≤ ((1 : Int), AnswerEntry.mk (str "B") []).1 ∧
      ((1 : Int), AnswerEntry.mk (str "B") []).1 ≤ 100) ∧
    dictGet (dictSet [] 1 ⟨str "A", []⟩) 1 = some ⟨str "A", []⟩ :=
  C2_bounds_and_overwrite klinesC2 (1, ⟨str "B", []⟩) (by decide) [] 1
    ⟨str "A", []⟩

/-- Claim C3 (counterexample): parsing a document whose block has only
labels `A`–`D` while the answer key says `E` gives `correct_index = 4`
with a 4-element option array — an out-of-range index, since the code
maps the letter positionally without checking it against the options. -/
theorem C3_counterexample :
    _parse_pdf_source (.ok linesC3) (str "t") [] = some tC3 ∧
      ∃ q ∈ tC3.questions, q.correct_index ≠ -1 ∧
        ¬(q.correct_index.toNat < q.options.length) := by
  constructor
  · have hak : _parse_answer_key linesC3 = [(1, ⟨str "E", []⟩)] := by rfl
    have hloop : spLoop (linesC3.length + 1) linesC3 ⟨[], none, 0⟩ =
        ⟨[], some ⟨1, [], [⟨'A', []⟩, ⟨'B', []⟩, ⟨'C', []⟩,
          ⟨'D', str "x"⟩]⟩, 0⟩ := by rfl
    have hfin : finalizeSt ⟨[], some ⟨1, [], [⟨'A', []⟩, ⟨'B', []⟩,
        ⟨'C', []⟩, ⟨'D', str "x"⟩]⟩, 0⟩ =
        ⟨[⟨1, [], [⟨'A', []⟩, ⟨'B', []⟩, ⟨'C', []⟩, ⟨'D', str "x"⟩]⟩],
          none, 1⟩ := by
      simp only [finalizeSt, List.map]
      rw [show _normalize_whitespace (str "x") = str "x" from rfl, fixEvalX]
      rfl
    have hsm : _smart_parse_questions linesC3
        [(1, AnswerEntry.mk (str "E") [])] =
        [⟨str "q-1", 1, [], [[], [], [], str "x"], 4, str "E",
          str "No explanation available (Parse failed)"⟩] := by
      simp only [_smart_parse_questions]
      rw [hloop, hfin]
      rfl
    simp only [_parse_pdf_source]
    rw [hak, hsm]
    rfl
  · decide

/-- Claim C3 (amended): a non-`-1` `correct_index` always lies in
`[0, 4]` and the option array always has at least 4 entries, so the
index is valid whenever it is at most 3; only the letter `E` against a
4-slot array escapes the bounds — no positional range check exists. -/
theorem C3_index_bounds (lines : List Str)
    (answers : List (Int × AnswerEntry)) (q : Question)
    (hq : q ∈ _smart_parse_questions lines answers)
    (hne : q.correct_index ≠ -1) :
    0 ≤ q.correct_index ∧ q.correct_index ≤ 4 ∧ 4 ≤ q.options.length ∧
      (q.correct_index ≤ 3 → q.correct_index.toNat < q.options.length) := by
  obtain ⟨b, hlabs, rfl⟩ := mem_smart_parse_labs lines answers q hq
  have hopts : (buildFinal answers b).options = buildOpts b.options := rfl
  have hlen : 4 ≤ (buildFinal answers b).options.length := by
    have h := buildOpts_len b.options hlabs
    rw [hopts, h]
    omega
  rcases hg : dictGet answers b.number with _ | e
  · have hz : (buildFinal answers b).correct_index = -1 := by
      rw [buildFinal_cindex, hg]
    exact absurd hz hne
  · by_cases hc : e.letter ≠ [] ∧ e.letter.length = 1 ∧
        'A' ≤ e.letter.headD 'A' ∧ e.letter.headD 'A' ≤ 'E'
    · have hv : (buildFinal answers b).correct_index =
          ((e.letter.headD 'A').toNat : Int) - 65 := by
        rw [buildFinal_cindex, hg]
        dsimp only
        rw [if_pos hc]
      obtain ⟨-, -, h1, h2⟩ := hc
      have n1 := (char_le_iff _ _).mp h1
      have n2 := (char_le_iff _ _).mp h2
      have hA : ('A').toNat = 65 := by decide
      have hE : ('E').toNat = 69 := by decide
      rw [hA] at n1
      rw [hE] at n2
      rw [hv]
      exact ⟨by omega, by omega, hlen, fun h3 => by omega⟩
    · have hz : (buildFinal answers b).correct_index = -1 := by
        rw [buildFinal_cindex, hg]
        dsimp only
        rw [if_neg hc]
      exact absurd hz hne

theorem C3_index_bounds_witness :
    0 ≤ qC3w.correct_index ∧ qC3w.correct_index ≤ 4 ∧
      4 ≤ qC3w.options.length ∧
      (qC3w.correct_index ≤ 3 →
        qC3w.correct_index.toNat < qC3w.options.length) :=
  C3_index_bounds linesC3w answersC3w qC3w (by decide) (by decide)

/-- Claim C4 (code bug): on an unreadable source (the text extraction
raises), the `except` handler returns the empty dict `{}` — modelled
`none` — not an empty `Test` value with no questions. -/
theorem C4_unreadable_returns_empty_dict :
    _parse_pdf_source (.error ()) [] [] = none := rfl

/-- Claim C5 (counterexample): with an empty sanitized name hint the
test id takes a fresh `uuid4` suffix, so two invocations on the same
input bytes return different Tests. -/
theorem C5_counterexample :
    _parse_pdf_source (.ok []) [] (str "a") ≠
      _parse_pdf_source (.ok []) [] (str "b") := by decide

/-- Claim C5 (amended): parsing is deterministic whenever the sanitized
name hint is nonempty — the uuid draw is then unused and the result is a
function of the input bytes and hint alone. -/
theorem C5_deterministic_when_hint_nonempty
    (extracted : Except Unit (List Str)) (name_hint u1 u2 : Str)
    (h : sanitizeId name_hint ≠ []) :
    _parse_pdf_source extracted name_hint u1 =
      _parse_pdf_source extracted name_hint u2 := by
  cases extracted with
  | error e => rfl
  | ok lines =>
      simp only [_parse_pdf_source]
      rw [if_neg h, if_neg h]

theorem C5_deterministic_witness :
    _parse_pdf_source (.ok []) (str "t") (str "a") =
      _parse_pdf_source (.ok []) (str "t") (str "b") :=
  C5_deterministic_when_hint_nonempty (.ok []) (str "t") (str "a")
    (str "b") (by decide)

/-- Claim C6 (counterexample): word repair is not idempotent: it turns
`"qx zv wqrs"` into `"qx zvwqrs"`, and a second application merges
further to `"qxzvwqrs"`. -/
theorem C6_counterexample :
    _fix_broken_words (_fix_broken_words (str "qx zv wqrs")) ≠
      _fix_broken_words (str "qx zv wqrs") := by
  rw [fixEval3, fixEval4]
  decide

/-- Claim C6 (amended): word repair is idempotent on the spec's
representative corpus (`"manage ment"`, `"w as"`), though not on every
string. -/
theorem C6_idempotent_on_corpus :
    _fix_broken_words (_fix_broken_words (str "manage ment")) =
        _fix_broken_words (str "manage ment") ∧
      _fix_broken_words (_fix_broken_words (str "w as")) =
        _fix_broken_words (str "w as") := by
  constructor
  · rw [fixEval1]
    exact fixEval2
  · rw [fixEval0]
    exact fixEval0

/-- Claim C7 (counterexample): `word_repair("w as")` is `"w as"`, not
`"was"` — the lexicon holds no `(w as, was)` pair. -/
theorem C7_counterexample :
    _fix_broken_words (str "w as") ≠ str "was" := by
  rw [fixEval0]
  decide

/-- Claim C7 (amended): lexicon pairs map their broken form to the
canonical word, e.g. `"manage ment" → "management"`; but `"w as"` is not
in the lexicon and is returned unchanged. -/
theorem C7_lexicon_examples :
    _fix_broken_words (str "manage ment") = str "management" ∧
      _fix_broken_words (str "w as") = str "w as" :=
  ⟨fixEval1, fixEval0⟩

/-- Claim C8: on the canonical pre-clean lines the parser yields exactly
the expected single question: number 1, the question text, the four
options, `correct_index` 2, `correct_letter` `"C"` and the given
explanation. -/
theorem C8_round_trip :
    _smart_parse_questions linesC8 answersC8 =
      [⟨str "q-1", 1, str "What color is the sky?",
        [str "Red", str "Green", str "Blue", str "Yellow"], 2, str "C",
        str "The sky is blue due to Rayleigh scattering."⟩] := by
  have hloop : spLoop (linesC8.length + 1) linesC8 ⟨[], none, 0⟩ =
      ⟨[], some ⟨1, str "What color is the sky?",
        [⟨'A', str "Red"⟩, ⟨'B', str "Green"⟩, ⟨'C', str "Blue"⟩,
         ⟨'D', str "Yellow"⟩]⟩, 0⟩ := by rfl
  have hfin : finalizeSt ⟨[], some ⟨1, str "What color is the sky?",
      [⟨'A', str "Red"⟩, ⟨'B', str "Green"⟩, ⟨'C', str "Blue"⟩,
       ⟨'D', str "Yellow"⟩]⟩, 0⟩ =
      ⟨[⟨1, str "What color is the sky?",
        [⟨'A', str "Red"⟩, ⟨'B', str "Green"⟩, ⟨'C', str "Blue"⟩,
         ⟨'D', str "Yellow"⟩]⟩], none, 1⟩ := by
    simp only [finalizeSt, List.map]
    rw [show _normalize_whitespace (str "What color is the sky?") =
          str "What color is the sky?" from rfl,
        show _normalize_whitespace (str "Red") = str "Red" from rfl,
        show _normalize_whitespace (str "Green") = str "Green" from rfl,
        show _normalize_whitespace (str "Blue") = str "Blue" from rfl,
        show _normalize_whitespace (str "Yellow") = str "Yellow" from rfl,
        fixEval5, fixEval6, fixEval7, fixEval8, fixEval9]
    rfl
  simp only [_smart_parse_questions]
  rw [hloop, hfin]
  rfl

/-- Claim C9 (counterexample): a question block with no options at all
gets four `"[Option missing]"` entries, not the `"[Option missing from
PDF]"` sentinel the claim names for unobserved positions. -/
theorem C9_counterexample :
    ∃ q ∈ _smart_parse_questions [str "1. "] [],
      q.options.length = 4 ∧
        q.options.getD 2 [] ≠ str "[Option missing from PDF]" := by decide

/-- Claim C9 (amended): every returned question's option array has
length exactly `max(4, highest observed label index + 1)`; an
unobserved label position holds `"[Option missing from PDF]"` when the
block had at least one option, and `"[Option missing]"` when it had
none. -/
theorem C9_padding (lines : List Str)
    (answers : List (Int × AnswerEntry)) (q : Question)
    (hq : q ∈ _smart_parse_questions lines answers) :
    ∃ b : QBlock, q.options = buildOpts b.options ∧
      q.options.length = max 4 ((b.options.map (fun o => o.label)).foldl
        (fun m l => max m (l.toNat - 65)) 3 + 1) ∧
      ∀ i : Nat, i < q.options.length →
        (∀ o ∈ b.options, o.label.toNat - 65 ≠ i) →
        q.options.getD i [] =
          (if b.options = [] then str "[Option missing]"
           else str "[Option missing from PDF]") := by
  obtain ⟨b, hlabs, rfl⟩ := mem_smart_parse_labs lines answers q hq
  refine ⟨b, rfl, ?_, ?_⟩
  · exact buildOpts_len b.options hlabs
  · intro i hi hno
    exact buildOpts_unobserved b.options hlabs i hi hno

theorem C9_padding_witness :
    ∃ b : QBlock, qC9w.options = buildOpts b.options ∧
      qC9w.options.length = max 4 ((b.options.map (fun o => o.label)).foldl
        (fun m l => max m (l.toNat - 65)) 3 + 1) ∧
      ∀ i : Nat, i < qC9w.options.length →
        (∀ o ∈ b.options, o.label.toNat - 65 ≠ i) →
        qC9w.options.getD i [] =
          (if b.options = [] then str "[Option missing]"
           else str "[Option missing from PDF]") :=
  C9_padding linesC9w [] qC9w (by decide)

/-- Claim C10: a returned question's `correct_letter` is a single
uppercase letter `A`–`E` when the answer key holds an entry for its
number (the key parser matches case-insensitively and uppercases the
letter), and the sentinel `"?"` otherwise. -/
theorem C10_correct_letter (lines klines : List Str) (q : Question)
    (hq : q ∈ _smart_parse_questions lines (_parse_answer_key klines)) :
    match dictGet (_parse_answer_key klines) q.number with
    | some _ => ∃ ch, q.correct_letter = [ch] ∧ 'A' ≤ ch ∧ ch ≤ 'E'
    | none => q.correct_letter = str "?" := by
  obtain ⟨b, hb, rfl⟩ := mem_smart_parse lines (_parse_answer_key klines)
    q hq
  rw [buildFinal_number]
  rcases hg : dictGet (_parse_answer_key klines) b.number with _ | e
  · simp only
    rw [buildFinal_letter, hg]
  · simp only
    obtain ⟨ch, hch, h1, h2⟩ :=
      (parse_answer_key_vals klines _ (dictGet_mem _ _ _ hg)).2
    have hch2 : e.letter = [ch] := hch
    refine ⟨ch, ?_, h1, h2⟩
    rw [buildFinal_letter, hg]
    dsimp only
    rw [if_pos (by rw [hch2]; exact List.cons_ne_nil ch []), hch2]

theorem C10_correct_letter_witness :
    ∃ ch, qC10w.correct_letter = [ch] ∧ 'A' ≤ ch ∧ ch ≤ 'E' :=
  C10_correct_letter [str "1. "] klinesC10 qC10w (by decide)

end DecaApp
